import Mathlib

/-!
Thyme Locomotor: template validation, limit accessors, per-tick move update

Shallow embedding of `src/game/logic/object/locomotor.cpp`.

Modelling conventions.
* A finite `float` value is kept as the rational it denotes (`ℚ`); comparisons and
  selections are those of the source.  The arithmetic of the per-tick update is
  rounded to binary32 after every operation (`f32`), and its literals
  `1.0f / 30.0f` and `0.001f` are the binary32 values `f32 (1 / 30)` and
  `f32 (1 / 1000)`; infinities and NaN are outside the carrier.  The literal
  `0.01f` that `Validate` stores is kept as 1/100.
* Classes that are only called from this file (Object, PhysicsBehavior,
  TerrainLogic, the pathfinder, GameMath) are taken as an interface of parameters.
* Locomotor methods whose body is a call into the original binary under
  `GAME_DLL` are parameters as well; their other build is given as `Shim.standalone`.
-/

namespace Thyme

/-! ## Enumerations -/

/-- Appearance classes, in the order of `g_theLocomotorAppearanceNames`. -/
inductive LocomotorAppearance where
  | LOCO_LEGS_TWO
  | LOCO_WHEELS_FOUR
  | LOCO_TREADS
  | LOCO_HOVER
  | LOCO_THRUST
  | LOCO_WINGS
  | LOCO_CLIMBER
  | LOCO_OTHER
  | LOCO_MOTORCYCLE
  deriving DecidableEq

/-- Vertical behaviours, in the order of `g_theLocomotorBehaviorZNames`. -/
inductive LocomotorBehaviorZ where
  | Z_NO_Z_MOTIVE_FORCE
  | Z_SEA_LEVEL
  | Z_SURFACE_RELATIVE_HEIGHT
  | Z_ABSOLUTE_HEIGHT
  | Z_FIXED_SURFACE_RELATIVE_HEIGHT
  | Z_FIXED_ABSOLUTE_HEIGHT
  | Z_FIXED_RELATIVE_TO_GROUND_AND_BUILDINGS
  | Z_RELATIVE_TO_HIGHEST_LAYER
  deriving DecidableEq

/-- Group movement priorities, in the order of `g_theLocomotorPriorityNames`. -/
inductive LocomotorPriority where
  | PRIORITY_MOVES_BACK
  | PRIORITY_MOVES_MIDDLE
  | PRIORITY_MOVES_FRONT
  deriving DecidableEq

/-- The damage state of a body is an enumeration compared with `<`; it is kept as
its underlying integer. -/
abbrev BodyDamageType := Nat

/-- Bit of the AIR surface in `m_surfaces`: the bit that the bitstring parser gives
the name at index 3 of `g_theLocomotorSurfaceTypeNames`. -/
def LOCOMOTOR_SURFACE_AIR : Nat := 1 <<< 3

/-! ## LocomotorTemplate -/

/-- Configuration fields of `LocomotorTemplate`, one per member initialised by the
constructor. -/
structure LocomotorTemplate where
  m_maxSpeedDamaged : ℚ
  m_maxTurnRateDamaged : ℚ
  m_accelerationDamaged : ℚ
  m_liftDamaged : ℚ
  m_surfaces : Nat
  m_maxSpeed : ℚ
  m_maxTurnRate : ℚ
  m_acceleration : ℚ
  m_lift : ℚ
  m_braking : ℚ
  m_minSpeed : ℚ
  m_minTurnSpeed : ℚ
  m_behaviorZ : LocomotorBehaviorZ
  m_appearance : LocomotorAppearance
  m_groupMovementPriority : LocomotorPriority
  m_preferredHeight : ℚ
  m_preferredHeightDamping : ℚ
  m_circlingRadius : ℚ
  m_maxThrustAngle : ℚ
  m_speedLimitZ : ℚ
  m_extra2DFriction : ℚ
  m_accelPitchLimit : ℚ
  m_decelPitchLimit : ℚ
  m_bounceKick : ℚ
  m_pitchStiffness : ℚ
  m_rollStiffness : ℚ
  m_pitchDamping : ℚ
  m_rollDamping : ℚ
  m_forwardVelCoef : ℚ
  m_pitchInDirectionOfZVelFactor : ℚ
  m_thrustRoll : ℚ
  m_thrustWobbleRate : ℚ
  m_thrustMinWobble : ℚ
  m_thrustMaxWobble : ℚ
  m_lateralVelCoef : ℚ
  m_forwardAccelCoef : ℚ
  m_lateralAccelCoef : ℚ
  m_uniformAxialDamping : ℚ
  m_turnPivotOffset : ℚ
  m_apply2DFrictionWhenAirborne : Bool
  m_downhillOnly : Bool
  m_allowMotiveForceWhileAirborne : Bool
  m_locomotorWorksWhenDead : Bool
  m_airborneTargetingHeight : Int
  m_stickToGround : Bool
  m_canMoveBackwards : Bool
  m_hasSuspension : Bool
  m_wheelTurnAngle : ℚ
  m_maximumWheelExtension : ℚ
  m_maximumWheelCompression : ℚ
  m_closeEnoughDist : ℚ
  m_closeEnoughDist3D : Bool
  m_slideIntoPlaceTime : ℚ
  m_wanderWidthFactor : ℚ
  m_wanderLengthFactor : ℚ
  m_wanderAboutPointRadius : ℚ
  m_rudderCorrectionDegree : ℚ
  m_rudderCorrectionRate : ℚ
  m_elevatorCorrectionDegree : ℚ
  m_elevatorCorrectionRate : ℚ

/-- The constructor `LocomotorTemplate::LocomotorTemplate()`. -/
def LocomotorTemplate.new : LocomotorTemplate where
  m_maxSpeedDamaged := -1
  m_maxTurnRateDamaged := -1
  m_accelerationDamaged := -1
  m_liftDamaged := -1
  m_surfaces := 0
  m_maxSpeed := 0
  m_maxTurnRate := 0
  m_acceleration := 0
  m_lift := 0
  m_braking := 99999
  m_minSpeed := 0
  m_minTurnSpeed := 99999
  m_behaviorZ := .Z_NO_Z_MOTIVE_FORCE
  m_appearance := .LOCO_OTHER
  m_groupMovementPriority := .PRIORITY_MOVES_MIDDLE
  m_preferredHeight := 0
  m_preferredHeightDamping := 1
  m_circlingRadius := 0
  m_maxThrustAngle := 0
  m_speedLimitZ := 999999
  m_extra2DFriction := 0
  m_accelPitchLimit := 0
  m_decelPitchLimit := 0
  m_bounceKick := 0
  m_pitchStiffness := 1 / 10
  m_rollStiffness := 1 / 10
  m_pitchDamping := 9 / 10
  m_rollDamping := 9 / 10
  m_forwardVelCoef := 0
  m_pitchInDirectionOfZVelFactor := 0
  m_thrustRoll := 0
  m_thrustWobbleRate := 0
  m_thrustMinWobble := 0
  m_thrustMaxWobble := 0
  m_lateralVelCoef := 0
  m_forwardAccelCoef := 0
  m_lateralAccelCoef := 0
  m_uniformAxialDamping := 1
  m_turnPivotOffset := 0
  m_apply2DFrictionWhenAirborne := false
  m_downhillOnly := false
  m_allowMotiveForceWhileAirborne := false
  m_locomotorWorksWhenDead := false
  m_airborneTargetingHeight := 2147483647
  m_stickToGround := false
  m_canMoveBackwards := false
  m_hasSuspension := false
  m_wheelTurnAngle := 0
  m_maximumWheelExtension := 0
  m_maximumWheelCompression := 0
  m_closeEnoughDist := 1
  m_closeEnoughDist3D := false
  m_slideIntoPlaceTime := 0
  m_wanderWidthFactor := 0
  m_wanderLengthFactor := 1
  m_wanderAboutPointRadius := 0
  m_rudderCorrectionDegree := 0
  m_rudderCorrectionRate := 0
  m_elevatorCorrectionDegree := 0
  m_elevatorCorrectionRate := 0

/-- Diagnostics that `Validate` emits through `captainslog_dbgassert(false, ...)`
and `captainslog_debug(...)`; control goes on after each. -/
inductive ValidateLog where
  /-- Debug assertion: WINGS should always have positive minSpeeds. -/
  | dbgassert_wings_minSpeed
  /-- Debug assertion: WINGS should always have positive minTurnSpeeds. -/
  | dbgassert_wings_minTurnSpeed
  /-- Debug line: THRUST locos may not have zero m_maxSpeed; healing. -/
  | debug_thrust_maxSpeed
  /-- Debug line: THRUST locos may not have zero m_maxSpeedDamaged; healing. -/
  | debug_thrust_maxSpeedDamaged
  /-- Debug line: THRUST locos may not have zero m_minSpeed; healing. -/
  | debug_thrust_minSpeed
  deriving DecidableEq

/-- Outcome of `Validate`: the fields of the object when control left the function,
the diagnostics emitted, and the code of the release assertion when it fired. -/
structure ValidateOutcome where
  tmpl : LocomotorTemplate
  log : List ValidateLog
  fatal : Option Nat

/-- Lines 93-95 of `Validate`. -/
def healMaxSpeedDamaged (t : LocomotorTemplate) : LocomotorTemplate :=
  if t.m_maxSpeedDamaged < 0 then { t with m_maxSpeedDamaged := t.m_maxSpeed } else t

/-- Lines 96-98 of `Validate`. -/
def healMaxTurnRateDamaged (t : LocomotorTemplate) : LocomotorTemplate :=
  if t.m_maxTurnRateDamaged < 0 then { t with m_maxTurnRateDamaged := t.m_maxTurnRate } else t

/-- Lines 99-101 of `Validate`. -/
def healAccelerationDamaged (t : LocomotorTemplate) : LocomotorTemplate :=
  if t.m_accelerationDamaged < 0 then { t with m_accelerationDamaged := t.m_acceleration } else t

/-- Lines 102-104 of `Validate`. -/
def healLiftDamaged (t : LocomotorTemplate) : LocomotorTemplate :=
  if t.m_liftDamaged < 0 then { t with m_liftDamaged := t.m_lift } else t

/-- First part of `LocomotorTemplate::Validate`: the four `< 0.0f` tests on the
damaged variants, in source order. -/
def healDamaged (t : LocomotorTemplate) : LocomotorTemplate :=
  healLiftDamaged (healAccelerationDamaged (healMaxTurnRateDamaged (healMaxSpeedDamaged t)))

/-- The `case LOCO_WINGS:` arm of the switch in `Validate`. -/
def validateWings (t : LocomotorTemplate) : ValidateOutcome :=
  let r1 : LocomotorTemplate × List ValidateLog :=
    if t.m_minSpeed ≤ 0 then
      ({ t with m_minSpeed := 1 / 100 }, [ValidateLog.dbgassert_wings_minSpeed])
    else (t, [])
  let r2 : LocomotorTemplate × List ValidateLog :=
    if r1.1.m_minTurnSpeed ≤ 0 then
      ({ r1.1 with m_minTurnSpeed := 1 / 100 }, r1.2 ++ [ValidateLog.dbgassert_wings_minTurnSpeed])
    else r1
  { tmpl := r2.1, log := r2.2, fatal := none }

/-- Modelled from the spec: the macro `captainslog_relassert(condition, code, ...)`
is defined outside src/; a condition that fails is a fatal error carrying `code`
(`some code`), a condition that holds lets control through (`none`). -/
def captainslog_relassert (condition : Bool) (code : Nat) : Option Nat :=
  if condition then none else some code

/-- The `case LOCO_THRUST:` arm of the switch in `Validate`: the release assertion
with code `0xDEAD0006`, then the three healing tests. -/
def validateThrust (t : LocomotorTemplate) : ValidateOutcome :=
  match captainslog_relassert
      (decide (t.m_behaviorZ = LocomotorBehaviorZ.Z_NO_Z_MOTIVE_FORCE ∧ t.m_lift = 0 ∧
        t.m_liftDamaged = 0)) 0xDEAD0006 with
  | some code => { tmpl := t, log := [], fatal := some code }
  | none =>
    let r1 : LocomotorTemplate × List ValidateLog :=
      if t.m_maxSpeed ≤ 0 then
        ({ t with m_maxSpeed := 1 / 100 }, [ValidateLog.debug_thrust_maxSpeed])
      else (t, [])
    let r2 : LocomotorTemplate × List ValidateLog :=
      if r1.1.m_maxSpeedDamaged ≤ 0 then
        ({ r1.1 with m_maxSpeedDamaged := 1 / 100 }, r1.2 ++ [ValidateLog.debug_thrust_maxSpeedDamaged])
      else r1
    let r3 : LocomotorTemplate × List ValidateLog :=
      if r2.1.m_minSpeed ≤ 0 then
        ({ r2.1 with m_minSpeed := 1 / 100 }, r2.2 ++ [ValidateLog.debug_thrust_minSpeed])
      else r2
    { tmpl := r3.1, log := r3.2, fatal := none }

/-- The method `LocomotorTemplate::Validate`. -/
def LocomotorTemplate.Validate (t0 : LocomotorTemplate) : ValidateOutcome :=
  let t := healDamaged t0
  match t.m_appearance with
  | .LOCO_WINGS => validateWings t
  | .LOCO_THRUST => validateThrust t
  | _ => { tmpl := t, log := [], fatal := none }

/-! ## Locomotor -/

/-- A point or vector with the three `float` members of `Coord3D`. -/
structure Coord3D where
  x : ℚ
  y : ℚ
  z : ℚ
  deriving DecidableEq

/-- The method `Coord3D::Zero`. -/
def Coord3D.Zero : Coord3D := { x := 0, y := 0, z := 0 }

/-- Flags of the `m_flags` word that this file reads or writes. -/
inductive LocoFlag where
  | IS_BRAKING
  | ALLOW_INVALID_POSITION
  | MAINTAIN_POS_IS_VALID
  | OVER_WATER
  | ULTRA_ACCURATE
  | CLOSE_ENOUGH_DIST_3D
  | WANDER_DIRECTION
  deriving DecidableEq

/-- The two `g_theWriteableGlobalData` members that this file reads. -/
structure GlobalData where
  m_movementPenaltyDamageState : BodyDamageType
  m_gravity : ℚ

/-- Members of `Locomotor`.  The flag word `m_flags` is kept as one boolean per
flag. -/
structure Locomotor where
  m_template : LocomotorTemplate
  m_maintainPos : Coord3D
  m_brakingFactor : ℚ
  m_maxLift : ℚ
  m_maxSpeed : ℚ
  m_maxAccel : ℚ
  m_maxBraking : ℚ
  m_maxTurnRate : ℚ
  m_closeEnoughDist : ℚ
  m_flags : LocoFlag → Bool
  m_preferredHeight : ℚ
  m_preferredHeightDamping : ℚ
  m_wanderAngle : ℚ
  m_wanderLength : ℚ
  m_moveFrame : Nat

/-- Modelled from the spec: the inline accessor `Get_Flag` of `locomotor.h`; flags
are read independently of one another. -/
def Locomotor.Get_Flag (self : Locomotor) (f : LocoFlag) : Bool :=
  self.m_flags f

/-- Modelled from the spec: the inline mutator `Set_Flag` of `locomotor.h`; it
sets one flag and leaves the others. -/
def Locomotor.Set_Flag (self : Locomotor) (f : LocoFlag) (b : Bool) : Locomotor :=
  { self with m_flags := fun k => if k = f then b else self.m_flags k }

/-- The constructor `Locomotor::Locomotor(const LocomotorTemplate *)`.  The three
random draws, the current logic frame and the member the constructor leaves
unset (`m_maintainPos`) are arguments. -/
def Locomotor.new (tmpl : LocomotorTemplate) (wanderAngle wanderLength : ℚ)
    (wanderDirection : Bool) (frame : Nat) (maintainPos : Coord3D) : Locomotor :=
  let self : Locomotor :=
    { m_template := tmpl
      m_maintainPos := maintainPos
      m_brakingFactor := 1
      m_maxLift := 99999
      m_maxSpeed := 99999
      m_maxAccel := 99999
      m_maxBraking := 99999
      m_maxTurnRate := 99999
      m_closeEnoughDist := tmpl.m_closeEnoughDist
      m_flags := fun _ => false
      m_preferredHeight := tmpl.m_preferredHeight
      m_preferredHeightDamping := tmpl.m_preferredHeightDamping
      m_wanderAngle := wanderAngle
      m_wanderLength := wanderLength
      m_moveFrame := frame + 75 }
  let self := self.Set_Flag LocoFlag.CLOSE_ENOUGH_DIST_3D tmpl.m_closeEnoughDist3D
  self.Set_Flag LocoFlag.WANDER_DIRECTION wanderDirection

/-- The method `Locomotor::Get_Max_Speed_For_Condition`. -/
def Locomotor.Get_Max_Speed_For_Condition (self : Locomotor) (g : GlobalData)
    (condition : BodyDamageType) : ℚ :=
  let speed :=
    if condition < g.m_movementPenaltyDamageState then self.m_template.m_maxSpeed
    else self.m_template.m_maxSpeedDamaged
  if speed > self.m_maxSpeed then self.m_maxSpeed else speed

/-- The method `Locomotor::Get_Max_Turn_Rate`. -/
def Locomotor.Get_Max_Turn_Rate (self : Locomotor) (g : GlobalData)
    (condition : BodyDamageType) : ℚ :=
  let rate :=
    if condition < g.m_movementPenaltyDamageState then self.m_template.m_maxTurnRate
    else self.m_template.m_maxTurnRateDamaged
  let rate := if rate > self.m_maxTurnRate then self.m_maxTurnRate else rate
  if self.Get_Flag LocoFlag.ULTRA_ACCURATE then rate * 2 else rate

/-- The method `Locomotor::Get_Max_Acceleration`. -/
def Locomotor.Get_Max_Acceleration (self : Locomotor) (g : GlobalData)
    (condition : BodyDamageType) : ℚ :=
  let accel :=
    if condition < g.m_movementPenaltyDamageState then self.m_template.m_acceleration
    else self.m_template.m_accelerationDamaged
  if accel > self.m_maxAccel then self.m_maxAccel else accel

/-- The method `Locomotor::Get_Max_Lift`. -/
def Locomotor.Get_Max_Lift (self : Locomotor) (g : GlobalData)
    (condition : BodyDamageType) : ℚ :=
  let lift :=
    if condition < g.m_movementPenaltyDamageState then self.m_template.m_lift
    else self.m_template.m_liftDamaged
  if lift > self.m_maxLift then self.m_maxLift else lift

/-- The method `Locomotor::Get_Braking`. -/
def Locomotor.Get_Braking (self : Locomotor) : ℚ :=
  let braking := self.m_template.m_braking
  if braking > self.m_maxBraking then self.m_maxBraking else braking

/-- Reference definition of an effective limit, in the words of the spec: the
minimum of the instance cap and the template value selected by the damage state
(the undamaged field when `d` is less severe than the penalty threshold, the
damaged field otherwise). -/
def referenceLimit (g : GlobalData) (d : BodyDamageType) (cap undamaged damaged : ℚ) : ℚ :=
  min cap (if d < g.m_movementPenaltyDamageState then undamaged else damaged)

/-! ## Collaborators of the per-tick update -/

/-- Values of `PhysicsTurningType`; the source names `TURN_NONE` and compares the
result of the pivot rotation with it. -/
inductive PhysicsTurningType where
  | TURN_NEGATIVE
  | TURN_NONE
  | TURN_POSITIVE
  deriving DecidableEq

/-- The two object status bits that the update tests or sets. -/
inductive ObjectStatus where
  | OBJECT_STATUS_IS_BRAKING
  | OBJECT_STATUS_DECK_HEIGHT_OFFSET
  deriving DecidableEq

/-- The eight `Move_Towards_Position_*` methods. -/
inductive Strategy where
  | Legs
  | Wheels
  | Treads
  | Hover
  | Thrust
  | Wings
  | Climb
  | Other
  deriving DecidableEq

/-- Calls that `Loco_Update_Move_Towards_Position` itself issues on a collaborator
and that can change state, with their arguments, in the order issued. -/
inductive Call where
  /-- The debug assertion of the missing physics body. -/
  | dbgassert_no_physics
  | Fix_Invalid_Position
  | Apply_Motive_Force (force : Coord3D)
  | Scrub_Velocity_2D (desired_speed : ℚ)
  | Rotate_Obj_Around_Loco_Pivot (goal_pos : Coord3D) (rate : ℚ)
  | Handle_Behavior_Z (goal_pos : Coord3D)
  | Set_Turning (turn : PhysicsTurningType)
  | Move_Towards_Position (s : Strategy) (goal_pos : Coord3D)
      (on_path_dist_to_goal desired_speed : ℚ)
  | Set_Status (bit : ObjectStatus) (value : Bool)
  | Set_Position (pos : Coord3D)
  deriving DecidableEq

/-- Interface of the classes the update calls but this file does not define.  `W`
is everything outside the locomotor: the object with its body and physics
modules, terrain, pathfinder.  Queries read `W`; commands return the new `W`. -/
structure Env (W : Type) where
  /-- Query `obj->Get_Body_Module()->Get_Damage_State()`. -/
  Get_Damage_State : W → BodyDamageType
  /-- Whether `obj->Get_Physics()` is not null. -/
  Get_Physics : W → Bool
  /-- Query `physics->Get_Stunned()`. -/
  Get_Stunned : W → Bool
  /-- Query `obj->Get_Position()`. -/
  Get_Position : W → Coord3D
  /-- Command `obj->Set_Position(&pos)`. -/
  Set_Position : Coord3D → W → W
  /-- Query `obj->Is_KindOf(KINDOF_PROJECTILE)`. -/
  Is_KindOf_PROJECTILE : W → Bool
  /-- Query `obj->Get_Status_Bits().Test(bit)`. -/
  Test_Status : ObjectStatus → W → Bool
  /-- Command `obj->Set_Status(bit, value)`. -/
  Set_Status : ObjectStatus → Bool → W → W
  /-- Query `obj->Get_Carrier_Deck_Height()`. -/
  Get_Carrier_Deck_Height : W → ℚ
  /-- Command `obj->Set_Model_Condition_State(MODELCONDITION_OVER_WATER)`. -/
  Set_Model_Condition_State_OVER_WATER : W → W
  /-- Command `obj->Clear_Model_Condition_State(MODELCONDITION_OVER_WATER)`. -/
  Clear_Model_Condition_State_OVER_WATER : W → W
  /-- Command `physics->Apply_Motive_Force(&force)`. -/
  Apply_Motive_Force : Coord3D → W → W
  /-- Query `physics->Get_Velocity_Magnitude()`. -/
  Get_Velocity_Magnitude : W → ℚ
  /-- Query `physics->Get_Forward_Speed_2D()`. -/
  Get_Forward_Speed_2D : W → ℚ
  /-- Command `physics->Scrub_Velocity_2D(desired_speed)`. -/
  Scrub_Velocity_2D : ℚ → W → W
  /-- Command `physics->Set_Turning(turn)`. -/
  Set_Turning : PhysicsTurningType → W → W
  /-- Query `g_theAI->Get_Pathfinder()->Valid_Movement_Terrain(layer, this, pos)`. -/
  Valid_Movement_Terrain : Locomotor → W → Bool
  /-- Query `g_theTerrainLogic->Get_Layer_Height(x, y, obj->Get_Layer(), nullptr, true)`. -/
  Get_Layer_Height : ℚ → ℚ → W → ℚ
  /-- Query `g_theTerrainLogic->Is_Underwater(x, y, nullptr, nullptr)`. -/
  Is_Underwater : ℚ → ℚ → W → Bool
  /-- Function `GameMath::Sqrt`. -/
  Sqrt : ℚ → ℚ

/-- Locomotor methods whose body under `GAME_DLL` is `Call_Method` into the
original binary: each may read and write the locomotor and `W`. -/
structure Shim (W : Type) where
  Move_Towards_Position_Legs : Coord3D → ℚ → ℚ → Locomotor × W → Locomotor × W
  Move_Towards_Position_Wheels : Coord3D → ℚ → ℚ → Locomotor × W → Locomotor × W
  Move_Towards_Position_Treads : Coord3D → ℚ → ℚ → Locomotor × W → Locomotor × W
  Move_Towards_Position_Other : Coord3D → ℚ → ℚ → Locomotor × W → Locomotor × W
  Move_Towards_Position_Thrust : Coord3D → ℚ → ℚ → Locomotor × W → Locomotor × W
  Move_Towards_Position_Climb : Coord3D → ℚ → ℚ → Locomotor × W → Locomotor × W
  Fix_Invalid_Position : Locomotor × W → Bool × (Locomotor × W)
  Handle_Behavior_Z : Coord3D → Locomotor × W → Locomotor × W
  Rotate_Obj_Around_Loco_Pivot : Coord3D → ℚ → Locomotor × W → PhysicsTurningType × (Locomotor × W)

/-- The bodies compiled without `GAME_DLL`: the strategies and the vertical policy
do nothing, `Fix_Invalid_Position` returns false, the pivot rotation returns
`TURN_NONE`. -/
def Shim.standalone (W : Type) : Shim W where
  Move_Towards_Position_Legs := fun _ _ _ p => p
  Move_Towards_Position_Wheels := fun _ _ _ p => p
  Move_Towards_Position_Treads := fun _ _ _ p => p
  Move_Towards_Position_Other := fun _ _ _ p => p
  Move_Towards_Position_Thrust := fun _ _ _ p => p
  Move_Towards_Position_Climb := fun _ _ _ p => p
  Fix_Invalid_Position := fun p => (false, p)
  Handle_Behavior_Z := fun _ p => p
  Rotate_Obj_Around_Loco_Pivot := fun _ _ p => (PhysicsTurningType.TURN_NONE, p)

/-- The method `Locomotor::Move_Towards_Position_Hover`. -/
def Move_Towards_Position_Hover {W : Type} (env : Env W) (shim : Shim W) (goal_pos : Coord3D)
    (on_path_dist_to_goal desired_speed : ℚ) (p : Locomotor × W) : Locomotor × W :=
  let p := shim.Move_Towards_Position_Other goal_pos on_path_dist_to_goal desired_speed p
  let pos := env.Get_Position p.2
  if env.Is_Underwater pos.x pos.y p.2 then
    if !p.1.Get_Flag LocoFlag.OVER_WATER then
      (p.1.Set_Flag LocoFlag.OVER_WATER true, env.Set_Model_Condition_State_OVER_WATER p.2)
    else p
  else if p.1.Get_Flag LocoFlag.OVER_WATER then
    (p.1.Set_Flag LocoFlag.OVER_WATER false, env.Clear_Model_Condition_State_OVER_WATER p.2)
  else p

/-- The method `Locomotor::Move_Towards_Position_Wings`. -/
def Move_Towards_Position_Wings {W : Type} (shim : Shim W) (goal_pos : Coord3D)
    (on_path_dist_to_goal desired_speed : ℚ) (p : Locomotor × W) : Locomotor × W :=
  shim.Move_Towards_Position_Other goal_pos on_path_dist_to_goal desired_speed p

/-- The method that each label of `switch (m_template->m_appearance)` calls. -/
def strategyFor : LocomotorAppearance → Strategy
  | .LOCO_LEGS_TWO => .Legs
  | .LOCO_WHEELS_FOUR => .Wheels
  | .LOCO_MOTORCYCLE => .Wheels
  | .LOCO_TREADS => .Treads
  | .LOCO_HOVER => .Hover
  | .LOCO_THRUST => .Thrust
  | .LOCO_WINGS => .Wings
  | .LOCO_CLIMBER => .Climb
  | _ => .Other

/-- Effect of the `Move_Towards_Position_*` method named by `s`. -/
def runStrategy {W : Type} (env : Env W) (shim : Shim W) (s : Strategy) (goal_pos : Coord3D)
    (on_path_dist_to_goal desired_speed : ℚ) (p : Locomotor × W) : Locomotor × W :=
  match s with
  | .Legs => shim.Move_Towards_Position_Legs goal_pos on_path_dist_to_goal desired_speed p
  | .Wheels => shim.Move_Towards_Position_Wheels goal_pos on_path_dist_to_goal desired_speed p
  | .Treads => shim.Move_Towards_Position_Treads goal_pos on_path_dist_to_goal desired_speed p
  | .Hover => Move_Towards_Position_Hover env shim goal_pos on_path_dist_to_goal desired_speed p
  | .Thrust => shim.Move_Towards_Position_Thrust goal_pos on_path_dist_to_goal desired_speed p
  | .Wings => Move_Towards_Position_Wings shim goal_pos on_path_dist_to_goal desired_speed p
  | .Climb => shim.Move_Towards_Position_Climb goal_pos on_path_dist_to_goal desired_speed p
  | .Other => shim.Move_Towards_Position_Other goal_pos on_path_dist_to_goal desired_speed p

/-- Modelled from the spec: the inline accessor `Get_Allow_Motive_Force_While_Airborne`
of `locomotor.h` reads the template flag allow-motive-force-while-airborne. -/
def Locomotor.Get_Allow_Motive_Force_While_Airborne (self : Locomotor) : Bool :=
  self.m_template.m_allowMotiveForceWhileAirborne

/-! ## Binary32 arithmetic

The type `float` of the source is IEEE 754 binary32.  A finite `float` value is
kept as the rational it denotes, and every arithmetic operation of the per-tick
update is the exact operation on rationals followed by the rounding `f32`.
Comparisons, `fabs`, negation and the doubling `2.0f * a` are exact on `float`
values and are left unrounded.  Results are taken within the finite range: a
result beyond the largest finite value, an infinity in the source, is not in the
carrier. -/

/-- The power `2 ^ e` for an integer exponent `e`. -/
def pow2 (e : Int) : ℚ :=
  if 0 ≤ e then ((2 ^ e.toNat : Nat) : ℚ) else 1 / ((2 ^ (-e).toNat : Nat) : ℚ)

/-- The number of halvings that bring `n` below 2, at most `fuel` of them. -/
def halvings : Nat → Nat → Nat
  | 0, _ => 0
  | fuel + 1, n => if n < 2 then 0 else halvings fuel (n / 2) + 1

/-- For `n ≠ 0`, the exponent `k` with `2 ^ k ≤ n < 2 ^ (k + 1)`. -/
def bitLog (n : Nat) : Nat :=
  halvings n n

/-- For `q ≠ 0`, the exponent `e` with `2 ^ e ≤ |q| < 2 ^ (e + 1)`: the difference of
the exponents of numerator and denominator, or one less. -/
def binaryExponent (q : ℚ) : Int :=
  if pow2 ((bitLog q.num.natAbs : Int) - (bitLog q.den : Int)) ≤ |q| then
    (bitLog q.num.natAbs : Int) - (bitLog q.den : Int)
  else (bitLog q.num.natAbs : Int) - (bitLog q.den : Int) - 1

/-- The integer nearest to `x`; the even one of the two when `x` is half way. -/
def roundHalfEven (x : ℚ) : Int :=
  if x - ⌊x⌋ < 1 / 2 then ⌊x⌋
  else if 1 / 2 < x - ⌊x⌋ then ⌊x⌋ + 1
  else if ⌊x⌋ % 2 = 0 then ⌊x⌋ else ⌊x⌋ + 1

/-- The spacing of binary32 values around `q ≠ 0`: 24 significant bits, and the
spacing `2 ^ -149` of the subnormal range below `2 ^ -126`. -/
def ulp32 (q : ℚ) : ℚ :=
  pow2 (max (binaryExponent q) (-126) - 23)

/-- Rounding to binary32: the multiple of the spacing nearest to `q`, ties to even
(the default rounding mode). -/
def f32 (q : ℚ) : ℚ :=
  if q = 0 then 0 else (roundHalfEven (q / ulp32 q) : ℚ) * ulp32 q

/-! ## Loco_Update_Move_Towards_Position -/

/-- What a call of the update leaves behind: the locomotor, the world, the
in-out argument `*blocked`, and the calls issued. -/
structure MoveResult (W : Type) where
  loco : Locomotor
  world : W
  blocked : Bool
  calls : List Call

/-- The value `maxspeed / Get_Braking() * maxspeed / 2.0f`, evaluated left to right
with each of the three operations rounded.  A zero divisor gives an infinity or
NaN in `float`, which is not a rational: `none`. -/
def stoppingDistance (self : Locomotor) (maxspeed : ℚ) : Option ℚ :=
  if self.Get_Braking = 0 then none
  else some (f32 (f32 (f32 (maxspeed / self.Get_Braking) * maxspeed) / 2))

/-- The test `on_path_dist_to_goal > 10.0f && on_path_dist_to_goal > speed`; with
a zero divisor the second comparison is against +infinity or NaN and is false. -/
def roomToAccelerate (self : Locomotor) (maxspeed on_path_dist_to_goal : ℚ) : Bool :=
  match stoppingDistance self maxspeed with
  | some speed => decide (on_path_dist_to_goal > 10) && decide (on_path_dist_to_goal > speed)
  | none => false

/-- Lines 550-555: clear IS_BRAKING and reset `m_brakingFactor` when there is room
to accelerate. -/
def updatePrologue (self : Locomotor) (maxspeed on_path_dist_to_goal : ℚ) : Locomotor :=
  if roomToAccelerate self maxspeed on_path_dist_to_goal then
    { (self.Set_Flag LocoFlag.IS_BRAKING false) with m_brakingFactor := 1 }
  else self

/-- Result of the position gate: whether the call goes on, and the state after the
calls that the condition made. -/
structure GateResult (W : Type) where
  pass : Bool
  loco : Locomotor
  world : W
  calls : List Call

/-- The condition of lines 562-564, evaluated left to right with short circuit;
`Fix_Invalid_Position` runs only when the three tests before it are false. -/
def positionGate {W : Type} (env : Env W) (shim : Shim W) (self : Locomotor) (obj : W) :
    GateResult W :=
  if (self.m_template.m_surfaces &&& LOCOMOTOR_SURFACE_AIR) ≠ 0 then
    { pass := true, loco := self, world := obj, calls := [] }
  else if env.Valid_Movement_Terrain self obj then
    { pass := true, loco := self, world := obj, calls := [] }
  else if self.Get_Flag LocoFlag.ALLOW_INVALID_POSITION then
    { pass := true, loco := self, world := obj, calls := [] }
  else
    let r := shim.Fix_Invalid_Position (self, obj)
    { pass := !r.1, loco := r.2.1, world := r.2.2, calls := [Call.Fix_Invalid_Position] }

/-- Lines 565-567: the goal delta `(x, y, z)`, three `float` subtractions. -/
def goalDelta {W : Type} (env : Env W) (obj : W) (goal_pos : Coord3D) : Coord3D :=
  { x := f32 (goal_pos.x - (env.Get_Position obj).x)
    y := f32 (goal_pos.y - (env.Get_Position obj).y)
    z := f32 (goal_pos.z - (env.Get_Position obj).z) }

/-- Line 568: `path_dist = GameMath::Sqrt(x * x + y * y)`, the two products and the
sum rounded. -/
def pathDist2D {W : Type} (env : Env W) (obj : W) (goal_pos : Coord3D) : ℚ :=
  env.Sqrt (f32 (f32 ((goalDelta env obj goal_pos).x * (goalDelta env obj goal_pos).x)
    + f32 ((goalDelta env obj goal_pos).y * (goalDelta env obj goal_pos).y)))

/-- Lines 570-574: the braking flag after the test of the straight-line distance
against the on-path distance. -/
def brakeOnCut {W : Type} (env : Env W) (self : Locomotor) (obj : W) (goal_pos : Coord3D)
    (on_path_dist_to_goal : ℚ) : Locomotor :=
  if pathDist2D env obj goal_pos > on_path_dist_to_goal then
    if !env.Is_KindOf_PROJECTILE obj && decide (2 * on_path_dist_to_goal < pathDist2D env obj goal_pos) then
      self.Set_Flag LocoFlag.IS_BRAKING true
    else self
  else self

/-- Lines 570-576: the value of `on_path_dist_to_goal` after the block. -/
def targetDist {W : Type} (env : Env W) (obj : W) (goal_pos : Coord3D)
    (on_path_dist_to_goal : ℚ) : ℚ :=
  if pathDist2D env obj goal_pos > on_path_dist_to_goal then pathDist2D env obj goal_pos
  else on_path_dist_to_goal

/-- Lines 578-588: the local `isairbone`; the two subtractions and the product
`-9.0f * m_gravity` are rounded. -/
def isAirborne {W : Type} (env : Env W) (g : GlobalData) (obj : W) : Bool :=
  let pos := env.Get_Position obj
  let height := f32 (pos.z - env.Get_Layer_Height pos.x pos.y obj)
  let height :=
    if env.Test_Status ObjectStatus.OBJECT_STATUS_DECK_HEIGHT_OFFSET obj then
      f32 (height - env.Get_Carrier_Deck_Height obj)
    else height
  decide (f32 (-9 * g.m_gravity) < height)

/-- Lines 594-602: `*blocked` after the two clearing tests; `obj` is the world
after the motive force call. -/
def reevalBlocked {W : Type} (env : Env W) (self : Locomotor) (obj : W) (isairbone : Bool)
    (desired_speed : ℚ) (blocked : Bool) : Bool :=
  if blocked then
    let b := if env.Get_Velocity_Magnitude obj < desired_speed then false else blocked
    if isairbone && decide ((self.m_template.m_surfaces &&& LOCOMOTOR_SURFACE_AIR) ≠ 0) then false
    else b
  else blocked

/-- Lines 604-612: the branch taken while `*blocked` is still set; `calls` of the
result are those of the branch. -/
def blockedBranch {W : Type} (env : Env W) (shim : Shim W) (g : GlobalData) (self : Locomotor)
    (obj : W) (goal_pos : Coord3D) (desired_speed : ℚ) : MoveResult W :=
  let obj := env.Scrub_Velocity_2D desired_speed obj
  let turn := self.Get_Max_Turn_Rate g (env.Get_Damage_State obj)
  if self.m_template.m_wanderWidthFactor = 0 then
    let r := shim.Rotate_Obj_Around_Loco_Pivot goal_pos turn (self, obj)
    let p := shim.Handle_Behavior_Z goal_pos r.2
    { loco := p.1, world := p.2, blocked := decide (r.1 ≠ PhysicsTurningType.TURN_NONE)
      calls := [Call.Scrub_Velocity_2D desired_speed,
        Call.Rotate_Obj_Around_Loco_Pivot goal_pos turn, Call.Handle_Behavior_Z goal_pos] }
  else
    let p := shim.Handle_Behavior_Z goal_pos (self, obj)
    { loco := p.1, world := p.2, blocked := true
      calls := [Call.Scrub_Velocity_2D desired_speed, Call.Handle_Behavior_Z goal_pos] }

/-- Lines 657-699: the local `newpos` for a projectile; `delta` is the goal delta of
lines 565-567 and `newpos` the position read at line 657.  The constants
`1.0f / 30.0f` and `0.001f` are the binary32 values nearest to 1/30 and 1/1000;
the sum of squares, the reciprocal, the three scalings `x * path_dist`, the three
products with `magnitude` and the three additions are each rounded. -/
def correctedPosProjectile (sqrt : ℚ → ℚ) (delta newpos : Coord3D) (velocityMagnitude : ℚ) :
    Coord3D :=
  let path_dist :=
    sqrt (f32 (f32 (f32 (delta.x * delta.x) + f32 (delta.y * delta.y)) + f32 (delta.z * delta.z)))
  let magnitude := velocityMagnitude
  let magnitude := if magnitude < f32 (1 / 30) then f32 (1 / 30) else magnitude
  let magnitude := if magnitude > path_dist then path_dist else magnitude
  if path_dist > f32 (1 / 1000) then
    let inv := f32 (1 / path_dist)
    { x := f32 (f32 (f32 (delta.x * inv) * magnitude) + newpos.x)
      y := f32 (f32 (f32 (delta.y * inv) * magnitude) + newpos.y)
      z := f32 (f32 (f32 (delta.z * inv) * magnitude) + newpos.z) }
  else newpos

/-- Lines 683-699: the local `newpos` for an object that is not a projectile;
`path_dist` is the 2D distance of line 568.  The constants are those of the
projectile arm; the reciprocal, the two scalings, the two products with
`forwardspeed` and the two additions are each rounded. -/
def correctedPosGround (delta newpos : Coord3D) (path_dist forwardSpeed2D : ℚ) : Coord3D :=
  if path_dist > f32 (1 / 1000) then
    let forwardspeed := |forwardSpeed2D|
    let forwardspeed := if forwardspeed < f32 (1 / 30) then f32 (1 / 30) else forwardspeed
    let forwardspeed := if forwardspeed > path_dist then path_dist else forwardspeed
    let inv := f32 (1 / path_dist)
    { newpos with
      x := f32 (f32 (f32 (delta.x * inv) * forwardspeed) + newpos.x)
      y := f32 (f32 (f32 (delta.y * inv) * forwardspeed) + newpos.y) }
  else newpos

/-- Lines 656-702: the position correction, run when the status bit IS_BRAKING was
set before the strategy; `delta` and `path_dist` are the locals of lines 565-568. -/
def positionCorrection {W : Type} (env : Env W) (delta : Coord3D) (path_dist : ℚ) (obj : W) :
    W × List Call :=
  let newpos := env.Get_Position obj
  if env.Is_KindOf_PROJECTILE obj then
    let obj := env.Set_Status ObjectStatus.OBJECT_STATUS_IS_BRAKING true obj
    let newpos := correctedPosProjectile env.Sqrt delta newpos (env.Get_Velocity_Magnitude obj)
    (env.Set_Position newpos obj,
      [Call.Set_Status ObjectStatus.OBJECT_STATUS_IS_BRAKING true, Call.Set_Position newpos])
  else
    let newpos := correctedPosGround delta newpos path_dist (env.Get_Forward_Speed_2D obj)
    (env.Set_Position newpos obj, [Call.Set_Position newpos])

/-- Lines 613-703: the branch taken when `*blocked` is clear.  `delta` and
`path_dist` are the locals of lines 565-568, `on_path_dist_to_goal` the value after
line 575; `calls` of the result are those of the branch. -/
def unblockedBranch {W : Type} (env : Env W) (shim : Shim W) (self : Locomotor) (obj : W)
    (goal_pos delta : Coord3D) (path_dist on_path_dist_to_goal desired_speed : ℚ)
    (isairbone : Bool) : MoveResult W :=
  let self :=
    if self.m_template.m_appearance = LocomotorAppearance.LOCO_WINGS then
      self.Set_Flag LocoFlag.IS_BRAKING false
    else self
  let braking := env.Test_Status ObjectStatus.OBJECT_STATUS_IS_BRAKING obj
  let obj := env.Set_Turning PhysicsTurningType.TURN_NONE obj
  let moved : (Locomotor × W) × List Call :=
    if self.Get_Allow_Motive_Force_While_Airborne || !isairbone then
      (runStrategy env shim (strategyFor self.m_template.m_appearance) goal_pos
          on_path_dist_to_goal desired_speed (self, obj),
        [Call.Move_Towards_Position (strategyFor self.m_template.m_appearance) goal_pos
          on_path_dist_to_goal desired_speed])
    else ((self, obj), [])
  let p := shim.Handle_Behavior_Z goal_pos moved.1
  let flag := p.1.Get_Flag LocoFlag.IS_BRAKING
  let obj := env.Set_Status ObjectStatus.OBJECT_STATUS_IS_BRAKING flag p.2
  let c : W × List Call :=
    if braking then positionCorrection env delta path_dist obj else (obj, [])
  { loco := p.1, world := c.1, blocked := false
    calls := Call.Set_Turning PhysicsTurningType.TURN_NONE :: (moved.2 ++
      (Call.Handle_Behavior_Z goal_pos ::
        Call.Set_Status ObjectStatus.OBJECT_STATUS_IS_BRAKING flag :: c.2)) }

/-- Lines 565-703: the body run once the position gate has let the call through;
`calls` of the result are those of the body. -/
def moveBody {W : Type} (env : Env W) (shim : Shim W) (g : GlobalData) (self : Locomotor)
    (obj : W) (goal_pos : Coord3D) (on_path_dist_to_goal desired_speed : ℚ) (blocked : Bool) :
    MoveResult W :=
  let delta := goalDelta env obj goal_pos
  let path_dist := pathDist2D env obj goal_pos
  let self := brakeOnCut env self obj goal_pos on_path_dist_to_goal
  let on_path_dist_to_goal := targetDist env obj goal_pos on_path_dist_to_goal
  let isairbone := isAirborne env g obj
  let obj := env.Apply_Motive_Force Coord3D.Zero obj
  let r :=
    if reevalBlocked env self obj isairbone desired_speed blocked then
      blockedBranch env shim g self obj goal_pos desired_speed
    else
      unblockedBranch env shim self obj goal_pos delta path_dist on_path_dist_to_goal
        desired_speed isairbone
  { r with calls := Call.Apply_Motive_Force Coord3D.Zero :: r.calls }

/-- Line 544-548: the desired speed after the clamp to the effective max speed. -/
def clampDesiredSpeed (maxspeed desired_speed : ℚ) : ℚ :=
  if desired_speed > maxspeed then maxspeed else desired_speed

/-- Lines 543-555: the locomotor when line 557 is reached. -/
def entryLoco {W : Type} (env : Env W) (g : GlobalData) (self : Locomotor) (obj : W)
    (on_path_dist_to_goal : ℚ) : Locomotor :=
  let self := self.Set_Flag LocoFlag.MAINTAIN_POS_IS_VALID false
  let maxspeed := self.Get_Max_Speed_For_Condition g (env.Get_Damage_State obj)
  updatePrologue self maxspeed on_path_dist_to_goal

/-- The method `Locomotor::Loco_Update_Move_Towards_Position`. -/
def Loco_Update_Move_Towards_Position {W : Type} (env : Env W) (shim : Shim W) (g : GlobalData)
    (self : Locomotor) (obj : W) (goal_pos : Coord3D) (on_path_dist_to_goal desired_speed : ℚ)
    (blocked : Bool) : MoveResult W :=
  let maxspeed :=
    (self.Set_Flag LocoFlag.MAINTAIN_POS_IS_VALID false).Get_Max_Speed_For_Condition g
      (env.Get_Damage_State obj)
  let desired_speed := clampDesiredSpeed maxspeed desired_speed
  let self := entryLoco env g self obj on_path_dist_to_goal
  if !env.Get_Physics obj then
    { loco := self, world := obj, blocked := blocked, calls := [Call.dbgassert_no_physics] }
  else if !env.Get_Stunned obj then
    let gate := positionGate env shim self obj
    if gate.pass then
      let r := moveBody env shim g gate.loco gate.world goal_pos on_path_dist_to_goal
        desired_speed blocked
      { r with calls := gate.calls ++ r.calls }
    else
      { loco := gate.loco, world := gate.world, blocked := blocked, calls := gate.calls }
  else
    { loco := self, world := obj, blocked := blocked, calls := [] }

/-- Calls of the three kinds whose order the update fixes: the motive force, a
motion strategy, the vertical policy. -/
def Call.isMotion : Call → Bool
  | .Apply_Motive_Force _ => true
  | .Move_Towards_Position _ _ _ _ => true
  | .Handle_Behavior_Z _ => true
  | _ => false

/-- The shimmed methods that run after line 572 return the locomotor with the flag
IS_BRAKING as they found it. -/
def Shim.KeepsBraking {W : Type} (shim : Shim W) : Prop :=
  (∀ goal d s p, (shim.Move_Towards_Position_Legs goal d s p).1.Get_Flag LocoFlag.IS_BRAKING
      = p.1.Get_Flag LocoFlag.IS_BRAKING) ∧
  (∀ goal d s p, (shim.Move_Towards_Position_Wheels goal d s p).1.Get_Flag LocoFlag.IS_BRAKING
      = p.1.Get_Flag LocoFlag.IS_BRAKING) ∧
  (∀ goal d s p, (shim.Move_Towards_Position_Treads goal d s p).1.Get_Flag LocoFlag.IS_BRAKING
      = p.1.Get_Flag LocoFlag.IS_BRAKING) ∧
  (∀ goal d s p, (shim.Move_Towards_Position_Other goal d s p).1.Get_Flag LocoFlag.IS_BRAKING
      = p.1.Get_Flag LocoFlag.IS_BRAKING) ∧
  (∀ goal d s p, (shim.Move_Towards_Position_Thrust goal d s p).1.Get_Flag LocoFlag.IS_BRAKING
      = p.1.Get_Flag LocoFlag.IS_BRAKING) ∧
  (∀ goal d s p, (shim.Move_Towards_Position_Climb goal d s p).1.Get_Flag LocoFlag.IS_BRAKING
      = p.1.Get_Flag LocoFlag.IS_BRAKING) ∧
  (∀ goal p, (shim.Handle_Behavior_Z goal p).1.Get_Flag LocoFlag.IS_BRAKING
      = p.1.Get_Flag LocoFlag.IS_BRAKING) ∧
  (∀ goal rate p, (shim.Rotate_Obj_Around_Loco_Pivot goal rate p).2.1.Get_Flag LocoFlag.IS_BRAKING
      = p.1.Get_Flag LocoFlag.IS_BRAKING)

/-! ## LocomotorStore and the override chain -/

/-- A name key; `NameKeyType` is an integer type. -/
abbrev NameKeyType := Nat

/-- Modelled from the spec: the constant `NAMEKEY_INVALID` is defined outside src/;
it is the sentinel key for which a lookup returns none. -/
def NAMEKEY_INVALID : NameKeyType := 0

/-- A pointer to a `LocomotorTemplate` object: its slot in the pool. -/
abbrev TemplatePtr := Nat

/-- A `LocomotorTemplate` object: its configuration fields, its name, and the two
members of its base class `Overridable` (the next override of the chain and the
allocated mark). -/
structure TemplateObject where
  cfg : LocomotorTemplate
  m_name : String
  m_next : Option TemplatePtr
  m_isAllocated : Bool

/-- The pool of template objects: slot `p` holds the object that pointer `p`
points to, or nothing once it has been destroyed. -/
structure Heap where
  cells : List (Option TemplateObject)

/-- What the C++ leaves undefined or unbounded. -/
inductive Fault where
  /-- A pointer to no live object is dereferenced. -/
  | dangling_pointer
  /-- An iterator is used after the `erase` that invalidated it. -/
  | invalidated_iterator
  /-- A walk along `m_next` does not end. -/
  | unbounded_recursion
  deriving DecidableEq

/-- The object `*p`, if `p` points to a live object. -/
def Heap.deref (h : Heap) (p : TemplatePtr) : Option TemplateObject :=
  (h.cells.get? p).join

/-- The pool after `*p = o`. -/
def Heap.write (h : Heap) (p : TemplatePtr) (o : TemplateObject) : Heap :=
  { cells := h.cells.set p (some o) }

/-- The pool after `p->Delete_Instance()`. -/
def Heap.free (h : Heap) (p : TemplatePtr) : Heap :=
  { cells := h.cells.set p none }

/-- A new object in a slot never used before: `new` and `NEW_POOL_OBJ`. -/
def Heap.alloc (h : Heap) (o : TemplateObject) : TemplatePtr × Heap :=
  (h.cells.length, { cells := h.cells ++ [some o] })

/-- Modelled from the spec: the setter `Overridable::Set_Next` of `overridable.h`
links `next` as the next override of `*p`. -/
def Set_Next (h : Heap) (p : TemplatePtr) (next : Option TemplatePtr) : Except Fault Heap :=
  match h.deref p with
  | none => Except.error Fault.dangling_pointer
  | some o => Except.ok (h.write p { o with m_next := next })

/-- Modelled from the spec: the setter `Overridable::Set_Is_Allocated` of
`overridable.h` marks `*p` as allocated (override data, not baseline data). -/
def Set_Is_Allocated (h : Heap) (p : TemplatePtr) : Except Fault Heap :=
  match h.deref p with
  | none => Except.error Fault.dangling_pointer
  | some o => Except.ok (h.write p { o with m_isAllocated := true })

/-- Modelled from the spec: `Overridable::Friend_Get_Final_Override` of
`overridable.h` walks the chain to its last override; `fuel` bounds the walk. -/
def Friend_Get_Final_Override (h : Heap) : Nat → TemplatePtr → Except Fault TemplatePtr
  | 0, _ => Except.error Fault.unbounded_recursion
  | fuel + 1, p =>
    match h.deref p with
    | none => Except.error Fault.dangling_pointer
    | some o =>
      match o.m_next with
      | none => Except.ok p
      | some n => Friend_Get_Final_Override h fuel n

/-- Modelled from the spec: `Overridable::Delete_Overrides` of `overridable.h`
discards the override layers.  An object marked allocated is override data: it is
destroyed and nothing is left of it (null).  A baseline object has the layers of
its chain discarded the same way, keeps what is left of the chain, and is returned.
`fuel` bounds the walk along the chain. -/
def Delete_Overrides (h : Heap) : Nat → TemplatePtr → Except Fault (Option TemplatePtr × Heap)
  | 0, _ => Except.error Fault.unbounded_recursion
  | fuel + 1, p =>
    match h.deref p with
    | none => Except.error Fault.dangling_pointer
    | some o =>
      if o.m_isAllocated then Except.ok (none, h.free p)
      else
        match o.m_next with
        | none => Except.ok (some p, h)
        | some n =>
          match Delete_Overrides h fuel n with
          | Except.error f => Except.error f
          | Except.ok (left, h1) =>
            match Set_Next h1 p left with
            | Except.error f => Except.error f
            | Except.ok h2 => Except.ok (some p, h2)

/-- The class `LocomotorStore`: the pool of its templates and the map
`m_locomotorTemplates`, kept as its entries in key order. -/
structure LocomotorStore where
  heap : Heap
  m_locomotorTemplates : List (NameKeyType × TemplatePtr)

/-- A bound on the length of any chain without a cycle: one more than the number
of slots of the pool. -/
def LocomotorStore.chainFuel (s : LocomotorStore) : Nat :=
  s.heap.cells.length + 1

/-- The method `LocomotorStore::Find_Locomotor_Template`. -/
def LocomotorStore.Find_Locomotor_Template (s : LocomotorStore) (namekey : NameKeyType) :
    Option TemplatePtr :=
  if namekey = NAMEKEY_INVALID then none
  else
    match s.m_locomotorTemplates.lookup namekey with
    | some t => some t
    | none => none

/-- The loop of `LocomotorStore::Reset` with the iterator `it` at the first entry of
`entries`.  After `m_locomotorTemplates.erase(it)` the iterator is not reseated:
the next evaluation of `it != m_locomotorTemplates.end()` uses an invalidated
iterator, and what the C++ does from there is undefined. -/
def resetLoop (s : LocomotorStore) : List (NameKeyType × TemplatePtr) → Except Fault LocomotorStore
  | [] => Except.ok s
  | (_, t) :: rest =>
    match Delete_Overrides s.heap s.chainFuel t with
    | Except.error f => Except.error f
    | Except.ok (none, _) => Except.error Fault.invalidated_iterator
    | Except.ok (some _, h) => resetLoop { s with heap := h } rest

/-- The method `LocomotorStore::Reset`. -/
def LocomotorStore.Reset (s : LocomotorStore) : Except Fault LocomotorStore :=
  resetLoop s s.m_locomotorTemplates

/-- The method `LocomotorStore::New_Override`; `new LocomotorTemplate(*tmpl)` is the
member-wise copy. -/
def LocomotorStore.New_Override (s : LocomotorStore) (tmpl : Option TemplatePtr) :
    Except Fault (Option TemplatePtr × LocomotorStore) :=
  match tmpl with
  | none => Except.ok (none, s)
  | some p =>
    match s.heap.deref p with
    | none => Except.error Fault.dangling_pointer
    | some o =>
      let a := s.heap.alloc o
      match Set_Next a.2 p (some a.1) with
      | Except.error f => Except.error f
      | Except.ok h1 =>
        match Set_Is_Allocated h1 a.1 with
        | Except.error f => Except.error f
        | Except.ok h2 => Except.ok (some a.1, { s with heap := h2 })

/-- The assignment `m_locomotorTemplates[key] = t` on the entries in key order. -/
def mapAssign : List (NameKeyType × TemplatePtr) → NameKeyType → TemplatePtr →
    List (NameKeyType × TemplatePtr)
  | [], key, t => [(key, t)]
  | (k, p) :: rest, key, t =>
    if key < k then (key, t) :: (k, p) :: rest
    else if key = k then (key, t) :: rest
    else (k, p) :: mapAssign rest key t

/-- Values of `INILoadType`; the source names `INI_LOAD_CREATE_OVERRIDES` and
compares the load type of the file with it. -/
inductive INILoadType where
  | INI_LOAD_OVERWRITE
  | INI_LOAD_CREATE_OVERRIDES
  | INI_LOAD_MULTIFILE
  deriving DecidableEq

/-- Interface of the data-load facility that the parse entry point calls: the
reader `INI` with state `I`, and the name key generator. -/
structure IniOps (I : Type) where
  /-- Call `ini->Get_Next_Token()`: the token and the reader after it. -/
  Get_Next_Token : I → String × I
  /-- Query `ini->Get_Load_Type()`. -/
  Get_Load_Type : I → INILoadType
  /-- Call `ini->Init_From_INI(t, LocomotorTemplate::Get_Field_Parse())`: the fields
  after the field table has been applied, and the reader after it. -/
  Init_From_INI : LocomotorTemplate → I → LocomotorTemplate × I
  /-- Call `g_theNameKeyGenerator->Name_To_Key(name)`. -/
  Name_To_Key : String → NameKeyType

/-- The global state that the parse entry point works on: the pool of template
objects and `g_theLocomotorStore`, null or the map of the store. -/
structure Globals where
  pool : Heap
  g_theLocomotorStore : Option (List (NameKeyType × TemplatePtr))

/-- How the parse entry point can end other than by returning. -/
inductive Thrown where
  /-- The statement `throw CODE_06`. -/
  | CODE_06
  /-- The release assertion of `Validate`, with its code. -/
  | relassert (code : Nat)
  /-- Undefined behaviour. -/
  | undefined (f : Fault)
  deriving DecidableEq

/-- Steps of the parse entry point that read the input or touch a template, in the
order taken. -/
inductive ParseCall where
  | Get_Next_Token
  | Find_Locomotor_Template (key : NameKeyType)
  | New_Override (t : TemplatePtr)
  | NEW_POOL_OBJ (t : TemplatePtr)
  | Set_Name (t : TemplatePtr)
  | Init_From_INI (t : TemplatePtr)
  | Validate (t : TemplatePtr)
  | register (key : NameKeyType) (t : TemplatePtr)
  deriving DecidableEq

/-- What a call of the parse entry point leaves behind. -/
structure ParseOutcome (I : Type) where
  globals : Globals
  ini : I
  thrown : Option Thrown
  calls : List ParseCall

/-- Lines 339-352 of the parse entry point: the template `t` to fill, the local
`found`, and the store after the lookup, the override or the new object. -/
def parseTarget (load : INILoadType) (s : LocomotorStore) (key : NameKeyType) :
    Except Fault (TemplatePtr × Bool × LocomotorStore × List ParseCall) :=
  match s.Find_Locomotor_Template key with
  | some t =>
    if load = INILoadType.INI_LOAD_CREATE_OVERRIDES then
      match Friend_Get_Final_Override s.heap s.chainFuel t with
      | Except.error f => Except.error f
      | Except.ok last =>
        match s.New_Override (some last) with
        | Except.error f => Except.error f
        | Except.ok (none, _) => Except.error Fault.dangling_pointer
        | Except.ok (some t1, s1) => Except.ok (t1, true, s1, [ParseCall.New_Override last])
    else Except.ok (t, true, s, [])
  | none =>
    let a := s.heap.alloc
      { cfg := LocomotorTemplate.new, m_name := "", m_next := none, m_isAllocated := false }
    if load = INILoadType.INI_LOAD_CREATE_OVERRIDES then
      match Set_Is_Allocated a.2 a.1 with
      | Except.error f => Except.error f
      | Except.ok h => Except.ok (a.1, false, { s with heap := h }, [ParseCall.NEW_POOL_OBJ a.1])
    else Except.ok (a.1, false, { s with heap := a.2 }, [ParseCall.NEW_POOL_OBJ a.1])

/-- The static method `LocomotorStore::Parse_Locomotor_Template_Definition`. -/
def Parse_Locomotor_Template_Definition {I : Type} (ops : IniOps I) (g : Globals) (ini : I) :
    ParseOutcome I :=
  match g.g_theLocomotorStore with
  | none => { globals := g, ini := ini, thrown := some Thrown.CODE_06, calls := [] }
  | some registry =>
    let s : LocomotorStore := { heap := g.pool, m_locomotorTemplates := registry }
    let tok := ops.Get_Next_Token ini
    let key := ops.Name_To_Key tok.1
    let front := [ParseCall.Get_Next_Token, ParseCall.Find_Locomotor_Template key]
    match parseTarget (ops.Get_Load_Type tok.2) s key with
    | Except.error f =>
      { globals := g, ini := tok.2, thrown := some (Thrown.undefined f), calls := front }
    | Except.ok (t, found, s1, made) =>
      match s1.heap.deref t with
      | none =>
        { globals := { pool := s1.heap, g_theLocomotorStore := some s1.m_locomotorTemplates }
          ini := tok.2, thrown := some (Thrown.undefined Fault.dangling_pointer)
          calls := front ++ made }
      | some o =>
        let init := ops.Init_From_INI o.cfg tok.2
        let v := init.1.Validate
        let h := s1.heap.write t { o with m_name := tok.1, cfg := v.tmpl }
        let filled := front ++ made ++
          [ParseCall.Set_Name t, ParseCall.Init_From_INI t, ParseCall.Validate t]
        match v.fatal with
        | some code =>
          { globals := { pool := h, g_theLocomotorStore := some s1.m_locomotorTemplates }
            ini := init.2, thrown := some (Thrown.relassert code), calls := filled }
        | none =>
          if found then
            { globals := { pool := h, g_theLocomotorStore := some s1.m_locomotorTemplates }
              ini := init.2, thrown := none, calls := filled }
          else
            { globals :=
                { pool := h
                  g_theLocomotorStore := some (mapAssign s1.m_locomotorTemplates key t) }
              ini := init.2, thrown := none, calls := filled ++ [ParseCall.register key t] }

/-! ## Copying a Locomotor -/

/-- The copy constructor `Locomotor::Locomotor(const Locomotor &)`.  It initialises
the members of its list, zeroes `m_maintainPos` in its body, and leaves
`m_moveFrame` unset: the value found there is an argument. -/
def Locomotor.copy (that : Locomotor) (moveFrame : Nat) : Locomotor where
  m_template := that.m_template
  m_maintainPos := Coord3D.Zero
  m_brakingFactor := that.m_brakingFactor
  m_maxLift := that.m_maxLift
  m_maxSpeed := that.m_maxSpeed
  m_maxAccel := that.m_maxAccel
  m_maxBraking := that.m_maxBraking
  m_maxTurnRate := that.m_maxTurnRate
  m_closeEnoughDist := that.m_closeEnoughDist
  m_flags := that.m_flags
  m_preferredHeight := that.m_preferredHeight
  m_preferredHeightDamping := that.m_preferredHeightDamping
  m_wanderAngle := that.m_wanderAngle
  m_wanderLength := that.m_wanderLength
  m_moveFrame := moveFrame

/-- The assignment `Locomotor::operator=`.  The test `this != &that` needs no
case of its own: when both are the same object the eleven assignments change
nothing. -/
def Locomotor.assign (self that : Locomotor) : Locomotor :=
  { self with
    m_template := that.m_template
    m_brakingFactor := that.m_brakingFactor
    m_maxLift := that.m_maxLift
    m_maxSpeed := that.m_maxSpeed
    m_maxAccel := that.m_maxAccel
    m_maxBraking := that.m_maxBraking
    m_maxTurnRate := that.m_maxTurnRate
    m_flags := that.m_flags
    m_closeEnoughDist := that.m_closeEnoughDist
    m_preferredHeight := that.m_preferredHeight
    m_preferredHeightDamping := that.m_preferredHeightDamping }

/-! ## Named states of the per-tick update -/

/-- Lines 613-654: the unblocked branch up to and including the status write of
line 652, that is the state in which line 656 tests the snapshot `braking`. -/
def unblockedMove {W : Type} (env : Env W) (shim : Shim W) (self : Locomotor) (obj : W)
    (goal_pos : Coord3D) (on_path_dist_to_goal desired_speed : ℚ) (isairbone : Bool) :
    MoveResult W :=
  let self :=
    if self.m_template.m_appearance = LocomotorAppearance.LOCO_WINGS then
      self.Set_Flag LocoFlag.IS_BRAKING false
    else self
  let obj := env.Set_Turning PhysicsTurningType.TURN_NONE obj
  let moved : (Locomotor × W) × List Call :=
    if self.Get_Allow_Motive_Force_While_Airborne || !isairbone then
      (runStrategy env shim (strategyFor self.m_template.m_appearance) goal_pos
          on_path_dist_to_goal desired_speed (self, obj),
        [Call.Move_Towards_Position (strategyFor self.m_template.m_appearance) goal_pos
          on_path_dist_to_goal desired_speed])
    else ((self, obj), [])
  let p := shim.Handle_Behavior_Z goal_pos moved.1
  let flag := p.1.Get_Flag LocoFlag.IS_BRAKING
  { loco := p.1, world := env.Set_Status ObjectStatus.OBJECT_STATUS_IS_BRAKING flag p.2
    blocked := false
    calls := Call.Set_Turning PhysicsTurningType.TURN_NONE :: (moved.2 ++
      [Call.Handle_Behavior_Z goal_pos,
        Call.Set_Status ObjectStatus.OBJECT_STATUS_IS_BRAKING flag]) }

/-- The state that the position gate leaves on a call with a physics body that is
not stunned. -/
def gateOf {W : Type} (env : Env W) (shim : Shim W) (g : GlobalData) (self : Locomotor) (obj : W)
    (on_path_dist_to_goal : ℚ) : GateResult W :=
  positionGate env shim (entryLoco env g self obj on_path_dist_to_goal) obj

/-- The desired speed after line 548. -/
def desiredOf {W : Type} (env : Env W) (g : GlobalData) (self : Locomotor) (obj : W)
    (desired_speed : ℚ) : ℚ :=
  clampDesiredSpeed (self.Get_Max_Speed_For_Condition g (env.Get_Damage_State obj)) desired_speed

/-- The world after the motive force call of line 592. -/
def worldAfterForce {W : Type} (env : Env W) (shim : Shim W) (g : GlobalData) (self : Locomotor)
    (obj : W) (on_path_dist_to_goal : ℚ) : W :=
  env.Apply_Motive_Force Coord3D.Zero (gateOf env shim g self obj on_path_dist_to_goal).world

/-- The value of `*blocked` when line 604 tests it, on a call that got through the
gate. -/
def stillBlocked {W : Type} (env : Env W) (shim : Shim W) (g : GlobalData) (self : Locomotor)
    (obj : W) (goal_pos : Coord3D) (on_path_dist_to_goal desired_speed : ℚ) (blocked : Bool) :
    Bool :=
  reevalBlocked env
    (brakeOnCut env (gateOf env shim g self obj on_path_dist_to_goal).loco
      (gateOf env shim g self obj on_path_dist_to_goal).world goal_pos on_path_dist_to_goal)
    (worldAfterForce env shim g self obj on_path_dist_to_goal)
    (isAirborne env g (gateOf env shim g self obj on_path_dist_to_goal).world)
    (desiredOf env g self obj desired_speed) blocked

/-- The state in which line 656 tests the snapshot `braking`, on a call that got
through the gate and is not blocked. -/
def stateBeforeCorrection {W : Type} (env : Env W) (shim : Shim W) (g : GlobalData)
    (self : Locomotor) (obj : W) (goal_pos : Coord3D) (on_path_dist_to_goal desired_speed : ℚ) :
    MoveResult W :=
  unblockedMove env shim
    (brakeOnCut env (gateOf env shim g self obj on_path_dist_to_goal).loco
      (gateOf env shim g self obj on_path_dist_to_goal).world goal_pos on_path_dist_to_goal)
    (worldAfterForce env shim g self obj on_path_dist_to_goal) goal_pos
    (targetDist env (gateOf env shim g self obj on_path_dist_to_goal).world goal_pos
      on_path_dist_to_goal)
    (desiredOf env g self obj desired_speed)
    (isAirborne env g (gateOf env shim g self obj on_path_dist_to_goal).world)

/-- Whether the call reaches the position correction of lines 656-702: physics
body present and not stunned, gate passed, not blocked at line 604, and the status
bit IS_BRAKING set when line 618 reads it. -/
def reachesCorrection {W : Type} (env : Env W) (shim : Shim W) (g : GlobalData)
    (self : Locomotor) (obj : W) (goal_pos : Coord3D) (on_path_dist_to_goal desired_speed : ℚ)
    (blocked : Bool) : Bool :=
  env.Get_Physics obj && !env.Get_Stunned obj &&
    (gateOf env shim g self obj on_path_dist_to_goal).pass &&
    !stillBlocked env shim g self obj goal_pos on_path_dist_to_goal desired_speed blocked &&
    env.Test_Status ObjectStatus.OBJECT_STATUS_IS_BRAKING
      (worldAfterForce env shim g self obj on_path_dist_to_goal)




/-- The local `newpos` when line 701 passes it to `Set_Position`; `w` is the world
when line 657 is reached. -/
def correctedPos {W : Type} (env : Env W) (delta : Coord3D) (path_dist : ℚ) (w : W) : Coord3D :=
  if env.Is_KindOf_PROJECTILE w then
    correctedPosProjectile env.Sqrt delta (env.Get_Position w)
      (env.Get_Velocity_Magnitude (env.Set_Status ObjectStatus.OBJECT_STATUS_IS_BRAKING true w))
  else correctedPosGround delta (env.Get_Position w) path_dist (env.Get_Forward_Speed_2D w)

/-- The world on which line 701 calls `Set_Position`: for a projectile the status
write of line 660 has been made. -/
def worldAtSetPosition {W : Type} (env : Env W) (w : W) : W :=
  if env.Is_KindOf_PROJECTILE w then
    env.Set_Status ObjectStatus.OBJECT_STATUS_IS_BRAKING true w
  else w

/-! ## Concrete inputs -/

/-- Integer square root by search: the largest `k` with `k * k ≤ n`. -/
def natSqrt (n : Nat) : Nat :=
  ((List.range (n + 1)).filter (fun k => k * k ≤ n)).length - 1

/-- A square root on rationals that is exact on squares of rationals. -/
def ratSqrt (q : ℚ) : ℚ :=
  (natSqrt q.num.toNat : ℚ) / (natSqrt q.den : ℚ)

/-- A small world: one object with its physics body on flat terrain. -/
structure SimpleWorld where
  position : Coord3D
  hasPhysics : Bool
  stunned : Bool
  projectile : Bool
  statusBraking : Bool
  statusDeckOffset : Bool
  deckHeight : ℚ
  damageState : BodyDamageType
  velocity : ℚ
  motiveForce : Coord3D
  turning : PhysicsTurningType
  validTerrain : Bool
  terrainHeight : ℚ
  underwater : Bool
  overWaterModel : Bool
  deriving DecidableEq

/-- The interface read off a `SimpleWorld`. -/
def simpleEnv : Env SimpleWorld where
  Get_Damage_State := fun w => w.damageState
  Get_Physics := fun w => w.hasPhysics
  Get_Stunned := fun w => w.stunned
  Get_Position := fun w => w.position
  Set_Position := fun p w => { w with position := p }
  Is_KindOf_PROJECTILE := fun w => w.projectile
  Test_Status := fun b w =>
    match b with
    | .OBJECT_STATUS_IS_BRAKING => w.statusBraking
    | .OBJECT_STATUS_DECK_HEIGHT_OFFSET => w.statusDeckOffset
  Set_Status := fun b v w =>
    match b with
    | .OBJECT_STATUS_IS_BRAKING => { w with statusBraking := v }
    | .OBJECT_STATUS_DECK_HEIGHT_OFFSET => { w with statusDeckOffset := v }
  Get_Carrier_Deck_Height := fun w => w.deckHeight
  Set_Model_Condition_State_OVER_WATER := fun w => { w with overWaterModel := true }
  Clear_Model_Condition_State_OVER_WATER := fun w => { w with overWaterModel := false }
  Apply_Motive_Force := fun f w => { w with motiveForce := f }
  Get_Velocity_Magnitude := fun w => w.velocity
  Get_Forward_Speed_2D := fun w => w.velocity
  Scrub_Velocity_2D := fun d w => { w with velocity := if w.velocity > d then d else w.velocity }
  Set_Turning := fun t w => { w with turning := t }
  Valid_Movement_Terrain := fun _ w => w.validTerrain
  Get_Layer_Height := fun _ _ w => w.terrainHeight
  Is_Underwater := fun _ _ w => w.underwater
  Sqrt := ratSqrt

/-- An object at the origin, at rest on valid flat ground, undamaged. -/
def worldAtOrigin : SimpleWorld where
  position := { x := 0, y := 0, z := 0 }
  hasPhysics := true
  stunned := false
  projectile := false
  statusBraking := false
  statusDeckOffset := false
  deckHeight := 0
  damageState := 0
  velocity := 0
  motiveForce := { x := 7, y := 7, z := 7 }
  turning := PhysicsTurningType.TURN_POSITIVE
  validTerrain := true
  terrainHeight := 0
  underwater := false
  overWaterModel := false

/-- Global data with the penalty threshold at damage state 2 and gravity -1. -/
def globalData2 : GlobalData := { m_movementPenaltyDamageState := 2, m_gravity := -1 }

/-- Scenario A: a template with `max_speed = 10` and the damaged variant unset. -/
def templateA : LocomotorTemplate := { LocomotorTemplate.new with m_maxSpeed := 10 }

/-- Scenario B: a THRUST template with `lift = 0.5`. -/
def templateB : LocomotorTemplate :=
  { LocomotorTemplate.new with m_appearance := .LOCO_THRUST, m_lift := 1 / 2 }

/-- A template whose undamaged max speed is negative and whose damaged variant is
unset. -/
def templateNegativeSpeed : LocomotorTemplate := { LocomotorTemplate.new with m_maxSpeed := -5 }

/-- A template whose undamaged max speed is negative and whose damaged max speed
is 3. -/
def templateNegativeKept : LocomotorTemplate :=
  { LocomotorTemplate.new with m_maxSpeed := -5, m_maxSpeedDamaged := 3 }

/-- A THRUST template with all other fields as constructed. -/
def templateThrust : LocomotorTemplate :=
  { LocomotorTemplate.new with m_appearance := .LOCO_THRUST }

/-- A WINGS template with a non-positive minimum turn speed. -/
def templateWings : LocomotorTemplate :=
  { LocomotorTemplate.new with m_appearance := .LOCO_WINGS, m_minTurnSpeed := 0 }

/-- A four-wheels template with max speed and max turn rate 10. -/
def templateWheels : LocomotorTemplate :=
  { LocomotorTemplate.new with
    m_appearance := .LOCO_WHEELS_FOUR, m_maxSpeed := 10, m_maxSpeedDamaged := 10,
    m_maxTurnRate := 10, m_maxTurnRateDamaged := 10 }

/-- Scenario C: a locomotor on `templateA` validated, with instance cap
`max_speed = 5`. -/
def locoC : Locomotor :=
  { Locomotor.new templateA.Validate.tmpl 0 1 false 0 Coord3D.Zero with m_maxSpeed := 5 }

/-- The object of `worldAtOrigin` with its physics body stunned. -/
def worldStunned : SimpleWorld := { worldAtOrigin with stunned := true }

/-- Scenario E: a goal at straight-line distance 2 from the origin. -/
def goalNear : Coord3D := { x := 2, y := 0, z := 0 }

/-- A goal at straight-line distance 5 from the origin. -/
def goalFar : Coord3D := { x := 3, y := 4, z := 0 }

/-- A locomotor on the wheels template as constructed. -/
def locoWheels : Locomotor := Locomotor.new templateWheels 0 1 false 0 Coord3D.Zero

/-- The wheels locomotor with turn-rate cap 5 and the ULTRA_ACCURATE flag set. -/
def locoUltra : Locomotor :=
  ({ locoWheels with m_maxTurnRate := 5 }).Set_Flag LocoFlag.ULTRA_ACCURATE true

/-- Integer square root by bisection between `lo` and `hi`. -/
def isqrtAux : Nat → Nat → Nat → Nat → Nat
  | 0, lo, _, _ => lo
  | fuel + 1, lo, hi, n =>
    if hi ≤ lo + 1 then lo
    else if ((lo + hi) / 2) * ((lo + hi) / 2) ≤ n then isqrtAux fuel ((lo + hi) / 2) hi n
    else isqrtAux fuel lo ((lo + hi) / 2) n

/-- Integer square root: the largest `k` with `k * k ≤ n`. -/
def isqrt (n : Nat) : Nat :=
  isqrtAux (n + 1) 0 (n + 1) n

/-- A square root on rationals, exact on squares of rationals, for small values. -/
def exactSqrt (q : ℚ) : ℚ :=
  (isqrt q.num.toNat : ℚ) / (isqrt q.den : ℚ)

/-- The interface of `simpleEnv` with the square root `exactSqrt`. -/
def fineEnv : Env SimpleWorld := { simpleEnv with Sqrt := exactSqrt }


/-- The wheels locomotor holding station at (1, 2, 3): flag MAINTAIN_POS_IS_VALID
set. -/
def locoHolding : Locomotor :=
  { locoWheels.Set_Flag LocoFlag.MAINTAIN_POS_IS_VALID true with
    m_maintainPos := { x := 1, y := 2, z := 3 } }

/-- A baseline template object named Wheels, with no override. -/
def objectWheels : TemplateObject :=
  { cfg := templateWheels, m_name := "Wheels", m_next := none, m_isAllocated := false }

/-- A template object named Mod that is marked allocated, as the parse entry point
makes one for a new name while overrides are loaded. -/
def objectMod : TemplateObject :=
  { cfg := templateA.Validate.tmpl, m_name := "Mod", m_next := none, m_isAllocated := true }

/-- A reader positioned on a definition named Mod that sets `Speed` to 10, in a
file loaded with `INI_LOAD_CREATE_OVERRIDES`; the name has key 3. -/
def iniMod : IniOps Unit where
  Get_Next_Token := fun i => ("Mod", i)
  Get_Load_Type := fun _ => INILoadType.INI_LOAD_CREATE_OVERRIDES
  Init_From_INI := fun t i => ({ t with m_maxSpeed := 10 }, i)
  Name_To_Key := fun _ => 3

/-- An empty store over an empty pool. -/
def globalsEmpty : Globals := { pool := { cells := [] }, g_theLocomotorStore := some [] }

/-- No store: `g_theLocomotorStore` is null. -/
def globalsNoStore : Globals := { pool := { cells := [] }, g_theLocomotorStore := none }

/-- A store with the baseline template alone, at pointer 0 under key 5. -/
def storeBase : LocomotorStore :=
  { heap := { cells := [some objectWheels] }, m_locomotorTemplates := [(5, 0)] }

/-- A store with the allocated template at pointer 0 under key 3 and the baseline
template at pointer 1 under key 5. -/
def storeWithMod : LocomotorStore :=
  { heap := { cells := [some objectMod, some objectWheels] }
    m_locomotorTemplates := [(3, 0), (5, 1)] }

/-- A store whose only registered template is the allocated one, at pointer 0 under
key 3. -/
def storeOnlyMod : LocomotorStore :=
  { heap := { cells := [some objectMod] }, m_locomotorTemplates := [(3, 0)] }

/-- Shimmed methods that leave a mark on the world.  Each strategy writes the
distance and the speed it was called with, and a number of its own, as the motive
force; the vertical policy adds 100 to the third component; the pivot rotation
writes its rate with the number 50, sets the turning to TURN_POSITIVE and reports
it; the position repair reports no action. -/
def shimMarking : Shim SimpleWorld where
  Move_Towards_Position_Legs := fun _ d s p =>
    (p.1, { p.2 with motiveForce := { x := d, y := s, z := 1 } })
  Move_Towards_Position_Wheels := fun _ d s p =>
    (p.1, { p.2 with motiveForce := { x := d, y := s, z := 2 } })
  Move_Towards_Position_Treads := fun _ d s p =>
    (p.1, { p.2 with motiveForce := { x := d, y := s, z := 3 } })
  Move_Towards_Position_Other := fun _ d s p =>
    (p.1, { p.2 with motiveForce := { x := d, y := s, z := 4 } })
  Move_Towards_Position_Thrust := fun _ d s p =>
    (p.1, { p.2 with motiveForce := { x := d, y := s, z := 5 } })
  Move_Towards_Position_Climb := fun _ d s p =>
    (p.1, { p.2 with motiveForce := { x := d, y := s, z := 6 } })
  Fix_Invalid_Position := fun p => (false, p)
  Handle_Behavior_Z := fun _ p =>
    (p.1, { p.2 with motiveForce := { p.2.motiveForce with z := p.2.motiveForce.z + 100 } })
  Rotate_Obj_Around_Loco_Pivot := fun _ rate p =>
    (PhysicsTurningType.TURN_POSITIVE,
      (p.1, { p.2 with turning := PhysicsTurningType.TURN_POSITIVE,
                       motiveForce := { x := rate, y := 0, z := 50 } }))

/-- The marking methods, except that the wheels strategy moves the object by 1/2
along x. -/
def shimNudging : Shim SimpleWorld :=
  { shimMarking with
    Move_Towards_Position_Wheels := fun _ _ _ p =>
      (p.1, { p.2 with position := { p.2.position with x := p.2.position.x + 1 / 2 } }) }

/-- An object at (1, 2, 0), at rest on valid flat ground, undamaged. -/
def worldAway : SimpleWorld := { worldAtOrigin with position := { x := 1, y := 2, z := 0 } }

/-- A goal at straight-line distance 5 from (1, 2, 0): the delta is (3, 4, 0). -/
def goalAway : Coord3D := { x := 4, y := 6, z := 0 }

/-- The object of `worldAway` moving at speed 20. -/
def worldAwayFast : SimpleWorld := { worldAway with velocity := 20 }

/-- The object of `worldAwayFast` 20 above the terrain: more than `-9 * gravity`
with gravity -1. -/
def worldAloft : SimpleWorld := { worldAwayFast with position := { x := 1, y := 2, z := 20 } }

/-- The object of `worldAloft` standing on a carrier deck of height 15 with the
status bit DECK_HEIGHT_OFFSET set: 5 above the deck. -/
def worldOnDeck : SimpleWorld := { worldAloft with statusDeckOffset := true, deckHeight := 15 }

/-- A template as `templateWheels` with the AIR surface. -/
def templateAir : LocomotorTemplate :=
  { templateWheels with m_surfaces := LOCOMOTOR_SURFACE_AIR }

/-- A locomotor on the template with the AIR surface. -/
def locoAir : Locomotor := Locomotor.new templateAir 0 1 false 0 Coord3D.Zero

/-- A template as `templateWheels` with wander width factor 1. -/
def templateWander : LocomotorTemplate := { templateWheels with m_wanderWidthFactor := 1 }

/-- A locomotor on the wandering template. -/
def locoWander : Locomotor := Locomotor.new templateWander 0 1 false 0 Coord3D.Zero

/-- The object of `worldAway` with its status bit IS_BRAKING set, moving at speed 3. -/
def worldAwayBraking : SimpleWorld := { worldAway with statusBraking := true, velocity := 3 }

/-- A goal at straight-line distance 1/2048 from (1, 2, 0). -/
def goalAwayTiny : Coord3D := { x := 1 + 1 / 2048, y := 2, z := 0 }

/-- A projectile at (1, 2, 3) with its status bit IS_BRAKING set, moving at speed 2. -/
def worldProjectile : SimpleWorld :=
  { worldAtOrigin with position := { x := 1, y := 2, z := 3 }, projectile := true,
                       statusBraking := true, velocity := 2, terrainHeight := 3 }

/-- A goal at 3D distance 3 from (1, 2, 3): the delta is (2, 2, 1). -/
def goalAbove : Coord3D := { x := 3, y := 4, z := 4 }

/-- An object at (1, 1, 0) with its status bit IS_BRAKING set, moving at speed 20. -/
def worldBrakingFast : SimpleWorld :=
  { worldAtOrigin with position := { x := 1, y := 1, z := 0 }, statusBraking := true,
                       velocity := 20 }

/-- A goal at straight-line distance 15 from (1, 1, 0): the delta is (9, 12, 0). -/
def goalFifteen : Coord3D := { x := 10, y := 13, z := 0 }

/-- A four-wheels template with max speed 20 and braking 15. -/
def templateStop : LocomotorTemplate :=
  { templateWheels with m_maxSpeed := 20, m_maxSpeedDamaged := 20, m_braking := 15 }

/-- A locomotor on `templateStop` while braking: flag IS_BRAKING set, braking
factor 1/2. -/
def locoStop : Locomotor :=
  { (Locomotor.new templateStop 0 1 false 0 Coord3D.Zero).Set_Flag LocoFlag.IS_BRAKING true with
    m_brakingFactor := 1 / 2 }

/-! ## Helper lemmas -/

/-! ### Binary32 rounding: sign and error -/

theorem pow2_eq_zpow (e : Int) : pow2 e = (2 : ℚ) ^ e := by
  unfold pow2
  split_ifs with h
  · have he : ((e.toNat : Nat) : Int) = e := Int.toNat_of_nonneg h
    rw [Nat.cast_pow, Nat.cast_ofNat, ← zpow_natCast, he]
  · have hn : 0 ≤ -e := by omega
    have he : (((-e).toNat : Nat) : Int) = -e := Int.toNat_of_nonneg hn
    rw [Nat.cast_pow, Nat.cast_ofNat, ← zpow_natCast, he, zpow_neg, one_div, inv_inv]

theorem pow2_pos (e : Int) : 0 < pow2 e := by
  rw [pow2_eq_zpow]
  exact zpow_pos (by norm_num) e

theorem halvings_spec : ∀ (fuel n : Nat), n ≤ fuel → n ≠ 0 → 2 ^ halvings fuel n ≤ n := by
  intro fuel
  induction fuel with
  | zero =>
    intro n hle hn
    omega
  | succ k ih =>
    intro n hle hn
    unfold halvings
    split_ifs with h2
    · simp only [pow_zero]
      omega
    · have hk : n / 2 ≤ k := by omega
      have hz : n / 2 ≠ 0 := by omega
      have h := ih (n / 2) hk hz
      rw [pow_succ]
      omega

theorem halvings_lt : ∀ (fuel n : Nat), n ≤ fuel → n < 2 ^ (halvings fuel n + 1) := by
  intro fuel
  induction fuel with
  | zero =>
    intro n hle
    have : n = 0 := by omega
    subst this
    simp
  | succ k ih =>
    intro n hle
    unfold halvings
    split_ifs with h2
    · simp only [zero_add, pow_one]
      exact h2
    · have hk : n / 2 ≤ k := by omega
      have h := ih (n / 2) hk
      rw [pow_succ]
      omega

theorem bitLog_le (n : Nat) (hn : n ≠ 0) : 2 ^ bitLog n ≤ n :=
  halvings_spec n n (le_refl n) hn

theorem bitLog_lt (n : Nat) : n < 2 ^ (bitLog n + 1) :=
  halvings_lt n n (le_refl n)

theorem abs_eq_natAbs_div_den (q : ℚ) : |q| = (q.num.natAbs : ℚ) / (q.den : ℚ) := by
  have hq : q = (q.num : ℚ) / (q.den : ℚ) := (Rat.num_div_den q).symm
  have hd : (0 : ℚ) < (q.den : ℚ) := by exact_mod_cast q.den_pos
  conv_lhs => rw [hq]
  rw [abs_div, abs_of_pos hd]
  rw [Nat.cast_natAbs, Int.cast_abs]

/-- The exponent that `binaryExponent` returns is a lower bound: `2 ^ e ≤ |q|`. -/
theorem binaryExponent_le (q : ℚ) (hq : q ≠ 0) : pow2 (binaryExponent q) ≤ |q| := by
  unfold binaryExponent
  split_ifs with h
  · exact h
  · have hn : q.num.natAbs ≠ 0 := by
      intro h0
      exact hq (Rat.zero_of_num_zero (Int.natAbs_eq_zero.mp h0))
    have h1 : ((2 ^ bitLog q.num.natAbs : Nat) : ℚ) ≤ (q.num.natAbs : ℚ) := by
      exact_mod_cast bitLog_le _ hn
    have h2 : (q.den : ℚ) ≤ ((2 ^ (bitLog q.den + 1) : Nat) : ℚ) := by
      exact_mod_cast (bitLog_lt q.den).le
    have hd : (0 : ℚ) < (q.den : ℚ) := by exact_mod_cast q.den_pos
    rw [abs_eq_natAbs_div_den, pow2_eq_zpow]
    have he : (bitLog q.num.natAbs : Int) - (bitLog q.den : Int) - 1
        = (bitLog q.num.natAbs : Int) - ((bitLog q.den + 1 : Nat) : Int) := by
      push_cast
      ring
    rw [he, zpow_sub₀ (by norm_num : (2 : ℚ) ≠ 0), zpow_natCast, zpow_natCast]
    have h1' : (2 : ℚ) ^ bitLog q.num.natAbs ≤ (q.num.natAbs : ℚ) := by
      simpa using h1
    have h2' : (q.den : ℚ) ≤ (2 : ℚ) ^ (bitLog q.den + 1) := by
      simpa using h2
    exact div_le_div₀ (by positivity) h1' hd h2'

theorem roundHalfEven_err (x : ℚ) : |((roundHalfEven x : Int) : ℚ) - x| ≤ 1 / 2 := by
  have h1 : ((⌊x⌋ : Int) : ℚ) ≤ x := Int.floor_le x
  have h2 : x < ((⌊x⌋ : Int) : ℚ) + 1 := Int.lt_floor_add_one x
  unfold roundHalfEven
  split_ifs with ha hb hc
  · rw [abs_le]
    constructor <;> linarith
  · rw [abs_le]
    push_cast
    constructor <;> linarith
  · rw [abs_le]
    constructor <;> linarith
  · rw [abs_le]
    push_cast
    constructor <;> linarith

theorem roundHalfEven_nonneg (x : ℚ) (hx : 0 ≤ x) : 0 ≤ roundHalfEven x := by
  have h0 : 0 ≤ ⌊x⌋ := Int.floor_nonneg.mpr hx
  unfold roundHalfEven
  split_ifs <;> omega

theorem roundHalfEven_nonpos (x : ℚ) (hx : x ≤ 0) : roundHalfEven x ≤ 0 := by
  have h1 : ((⌊x⌋ : Int) : ℚ) ≤ x := Int.floor_le x
  have h0 : ⌊x⌋ ≤ 0 := by
    have : ((⌊x⌋ : Int) : ℚ) ≤ 0 := le_trans h1 hx
    exact_mod_cast this
  unfold roundHalfEven
  split_ifs with ha hb hc
  · exact h0
  · by_contra hcon
    have hz : ⌊x⌋ = 0 := by omega
    rw [hz] at hb
    simp at hb
    linarith
  · exact h0
  · by_contra hcon
    have hz : ⌊x⌋ = 0 := by omega
    rw [hz] at hc
    simp at hc

theorem ulp32_pos (q : ℚ) : 0 < ulp32 q := pow2_pos _

theorem f32_zero : f32 0 = 0 := by
  unfold f32
  simp

/-- Rounding keeps the sign: a value that is not negative rounds to one that is
not negative. -/
theorem f32_nonneg (q : ℚ) (hq : 0 ≤ q) : 0 ≤ f32 q := by
  unfold f32
  split_ifs with h
  · exact le_refl 0
  · have hx : 0 ≤ q / ulp32 q := div_nonneg hq (ulp32_pos q).le
    have hr : (0 : ℚ) ≤ ((roundHalfEven (q / ulp32 q) : Int) : ℚ) := by
      exact_mod_cast roundHalfEven_nonneg _ hx
    exact mul_nonneg hr (ulp32_pos q).le

theorem f32_nonpos (q : ℚ) (hq : q ≤ 0) : f32 q ≤ 0 := by
  unfold f32
  split_ifs with h
  · exact le_refl 0
  · have hx : q / ulp32 q ≤ 0 := div_nonpos_of_nonpos_of_nonneg hq (ulp32_pos q).le
    have hr : ((roundHalfEven (q / ulp32 q) : Int) : ℚ) ≤ 0 := by
      exact_mod_cast roundHalfEven_nonpos _ hx
    exact mul_nonpos_of_nonpos_of_nonneg hr (ulp32_pos q).le

/-- Half the spacing around `q` is at most `2 ^ -24 * |q|` in the normal range and
`2 ^ -150` in the subnormal range. -/
theorem ulp32_half_le (q : ℚ) (hq : q ≠ 0) :
    ulp32 q / 2 ≤ 1 / 2 ^ 24 * |q| + 1 / 2 ^ 150 := by
  unfold ulp32
  have habs : 0 ≤ |q| := abs_nonneg q
  by_cases he : -126 ≤ binaryExponent q
  · rw [max_eq_left he, pow2_eq_zpow, zpow_sub₀ (by norm_num : (2 : ℚ) ≠ 0), ← pow2_eq_zpow]
    have hle := binaryExponent_le q hq
    have h23 : (2 : ℚ) ^ (23 : Int) = 2 ^ 23 := by norm_cast
    rw [h23]
    have hp := pow2_pos (binaryExponent q)
    have : pow2 (binaryExponent q) / 2 ^ 23 / 2 ≤ 1 / 2 ^ 24 * |q| := by
      rw [div_div, div_le_iff₀ (by norm_num)]
      calc pow2 (binaryExponent q) ≤ |q| := hle
        _ = 1 / 2 ^ 24 * |q| * (2 ^ 23 * 2) := by ring
    have hη : (0 : ℚ) ≤ 1 / 2 ^ 150 := by positivity
    linarith
  · have hlt : binaryExponent q ≤ -126 := by omega
    rw [max_eq_right hlt, pow2_eq_zpow]
    have h149 : (2 : ℚ) ^ ((-126 : Int) - 23) = 1 / 2 ^ 149 := by
      rw [show ((-126 : Int) - 23) = -((149 : Nat) : Int) by norm_num, zpow_neg, zpow_natCast,
        one_div]
    rw [h149]
    have hpos : 0 ≤ 1 / 2 ^ 24 * |q| := by positivity
    have : (1 : ℚ) / 2 ^ 149 / 2 = 1 / 2 ^ 150 := by norm_num
    linarith

/-- Rounding error of `f32`: relative `2 ^ -24` in the normal range, absolute
`2 ^ -150` in the subnormal range. -/
theorem f32_err (q : ℚ) : |f32 q - q| ≤ 1 / 2 ^ 24 * |q| + 1 / 2 ^ 150 := by
  by_cases hq : q = 0
  · rw [hq, f32_zero]
    norm_num
  · have hu := ulp32_pos q
    have hr := roundHalfEven_err (q / ulp32 q)
    have hf : f32 q - q = (((roundHalfEven (q / ulp32 q) : Int) : ℚ) - q / ulp32 q) * ulp32 q := by
      unfold f32
      rw [if_neg hq]
      field_simp
    rw [hf, abs_mul, abs_of_pos hu]
    calc |((roundHalfEven (q / ulp32 q) : Int) : ℚ) - q / ulp32 q| * ulp32 q
        ≤ 1 / 2 * ulp32 q := mul_le_mul_of_nonneg_right hr hu.le
      _ = ulp32 q / 2 := by ring
      _ ≤ 1 / 2 ^ 24 * |q| + 1 / 2 ^ 150 := ulp32_half_le q hq

theorem f32_abs_le (q : ℚ) : |f32 q| ≤ (1 + 1 / 2 ^ 24) * |q| + 1 / 2 ^ 150 := by
  have h := f32_err q
  have h2 : |f32 q| ≤ |f32 q - q| + |q| := by
    calc |f32 q| = |(f32 q - q) + q| := by ring_nf
      _ ≤ |f32 q - q| + |q| := abs_add _ _
  linarith

/-- Three roundings in a row, in the abstract: a reciprocal `inv` of `d`, a product
`r` with `x`, a product `a` with `m ≤ d`, each with relative error `u` and absolute
error `η`. -/
theorem chain_bound (u η x d m inv r a : ℚ) (hu : 0 ≤ u) (hd : 0 < d)
    (hm0 : 0 ≤ m) (hmd : m ≤ d) (hinv0 : 0 ≤ inv) (hinv : inv ≤ (1 + u) * (1 / d) + η)
    (hr : |r| ≤ (1 + u) * |x * inv| + η) (ha : |a| ≤ (1 + u) * |r * m| + η) :
    |a| ≤ (1 + u) ^ 3 * |x| + η * (1 + (1 + u) * m * (1 + (1 + u) * |x|)) := by
  have hx : 0 ≤ |x| := abs_nonneg x
  have hu1 : 0 ≤ 1 + u := by linarith
  have hmd1 : m / d ≤ 1 := (div_le_one hd).mpr hmd
  have h1 : inv * m ≤ (1 + u) + η * m := by
    calc inv * m ≤ ((1 + u) * (1 / d) + η) * m := mul_le_mul_of_nonneg_right hinv hm0
      _ = (1 + u) * (m / d) + η * m := by ring
      _ ≤ (1 + u) * 1 + η * m := by
          have := mul_le_mul_of_nonneg_left hmd1 hu1
          linarith
      _ = (1 + u) + η * m := by ring
  have hxi : |x * inv| = |x| * inv := by rw [abs_mul, abs_of_nonneg hinv0]
  have hrm : |r * m| = |r| * m := by rw [abs_mul, abs_of_nonneg hm0]
  rw [hxi] at hr
  rw [hrm] at ha
  have h2 : |r| * m ≤ ((1 + u) * (|x| * inv) + η) * m := mul_le_mul_of_nonneg_right hr hm0
  have h3 : (1 + u) * (|r| * m) ≤ (1 + u) * (((1 + u) * (|x| * inv) + η) * m) :=
    mul_le_mul_of_nonneg_left h2 hu1
  have h4 : (1 + u) ^ 2 * |x| * (inv * m) ≤ (1 + u) ^ 2 * |x| * ((1 + u) + η * m) :=
    mul_le_mul_of_nonneg_left h1 (mul_nonneg (pow_nonneg hu1 2) hx)
  calc |a| ≤ (1 + u) * (|r| * m) + η := ha
    _ ≤ (1 + u) * (((1 + u) * (|x| * inv) + η) * m) + η := by linarith
    _ = (1 + u) ^ 2 * |x| * (inv * m) + (1 + u) * η * m + η := by ring
    _ ≤ (1 + u) ^ 2 * |x| * ((1 + u) + η * m) + (1 + u) * η * m + η := by linarith
    _ = (1 + u) ^ 3 * |x| + η * (1 + (1 + u) * m * (1 + (1 + u) * |x|)) := by ring

/-- One component of the position correction: `x` scaled by the rounded reciprocal
of the distance `d` and by a magnitude `m ≤ d`, with both products rounded, exceeds
`|x|` by at most the factor of three roundings and an underflow term. -/
theorem correctionStep_bound (x d m : ℚ) (hd : 0 < d) (hm0 : 0 ≤ m) (hmd : m ≤ d) :
    |f32 (f32 (x * f32 (1 / d)) * m)|
      ≤ (1 + 1 / 2 ^ 24) ^ 3 * |x|
        + 1 / 2 ^ 150 * (1 + (1 + 1 / 2 ^ 24) * m * (1 + (1 + 1 / 2 ^ 24) * |x|)) := by
  have hd1 : (0 : ℚ) ≤ 1 / d := by positivity
  have hinv0 : 0 ≤ f32 (1 / d) := f32_nonneg _ hd1
  have hinv : f32 (1 / d) ≤ (1 + 1 / 2 ^ 24) * (1 / d) + 1 / 2 ^ 150 := by
    have h := f32_abs_le (1 / d)
    rw [abs_of_nonneg hinv0, abs_of_nonneg hd1] at h
    exact h
  exact chain_bound (1 / 2 ^ 24) (1 / 2 ^ 150) x d m (f32 (1 / d)) (f32 (x * f32 (1 / d)))
    (f32 (f32 (x * f32 (1 / d)) * m)) (by positivity) hd hm0 hmd hinv0 hinv
    (f32_abs_le _) (f32_abs_le _)

/-- One component of the position correction has the sign of `x`, or is zero. -/
theorem correctionStep_sign (x d m : ℚ) (hd : 0 < d) (hm0 : 0 ≤ m) :
    (0 ≤ x → 0 ≤ f32 (f32 (x * f32 (1 / d)) * m)) ∧
    (x ≤ 0 → f32 (f32 (x * f32 (1 / d)) * m) ≤ 0) := by
  have hd1 : (0 : ℚ) ≤ 1 / d := by positivity
  have hinv0 : 0 ≤ f32 (1 / d) := f32_nonneg _ hd1
  constructor
  · intro hx
    exact f32_nonneg _ (mul_nonneg (f32_nonneg _ (mul_nonneg hx hinv0)) hm0)
  · intro hx
    exact f32_nonpos _ (mul_nonpos_of_nonpos_of_nonneg
      (f32_nonpos _ (mul_nonpos_of_nonpos_of_nonneg hx hinv0)) hm0)

/-- Three roundings in a row, in the abstract: the quotient `t1` of `v` by `b`, its
product `t2` with `v`, the half `s` of that, each with relative error `u` and
absolute error `η`, against the exact `v * v / (2 * b)`. -/
theorem stop_chain (u η v b t1 t2 s : ℚ) (hu : 0 ≤ u) (hb : 0 < b)
    (e1 : |t1 - v / b| ≤ u * |v / b| + η)
    (e2 : |t2 - t1 * v| ≤ u * |t1 * v| + η)
    (e3 : |s - t2 / 2| ≤ u * |t2 / 2| + η) :
    |s - v * v / (2 * b)|
      ≤ ((1 + u) ^ 3 - 1) * (v * v / (2 * b)) + η * (1 + (1 + u) * (1 + (1 + u) * |v|) / 2) := by
  have hv : 0 ≤ |v| := abs_nonneg v
  have hu1 : 0 ≤ 1 + u := by linarith
  have hE : v * v / (2 * b) = |v| / b * |v| / 2 := by
    rw [← abs_mul_abs_self v]
    ring
  have hvb : |v / b| = |v| / b := by rw [abs_div, abs_of_pos hb]
  rw [hvb] at e1
  have a1 : |t1| ≤ (1 + u) * (|v| / b) + η := by
    have h : |t1| ≤ |t1 - v / b| + |v / b| := by
      calc |t1| = |(t1 - v / b) + v / b| := by ring_nf
        _ ≤ |t1 - v / b| + |v / b| := abs_add _ _
    rw [hvb] at h
    linarith
  have a2 : |t1 * v| ≤ ((1 + u) * (|v| / b) + η) * |v| := by
    rw [abs_mul]
    exact mul_le_mul_of_nonneg_right a1 hv
  have d1 : |t1 * v - v / b * v| ≤ (u * (|v| / b) + η) * |v| := by
    have : t1 * v - v / b * v = (t1 - v / b) * v := by ring
    rw [this, abs_mul]
    exact mul_le_mul_of_nonneg_right e1 hv
  have e2' : |t2 - t1 * v| ≤ u * (((1 + u) * (|v| / b) + η) * |v|) + η := by
    have := mul_le_mul_of_nonneg_left a2 hu
    linarith
  have a3 : |t2| ≤ (1 + u) * (((1 + u) * (|v| / b) + η) * |v|) + η := by
    have h : |t2| ≤ |t2 - t1 * v| + |t1 * v| := by
      calc |t2| = |(t2 - t1 * v) + t1 * v| := by ring_nf
        _ ≤ |t2 - t1 * v| + |t1 * v| := abs_add _ _
    linarith
  have h2 : |t2 / 2| = |t2| / 2 := by
    rw [abs_div, abs_of_pos (by norm_num : (0 : ℚ) < 2)]
  rw [h2] at e3
  have e3' : |s - t2 / 2| ≤ u * (((1 + u) * (((1 + u) * (|v| / b) + η) * |v|) + η) / 2) + η := by
    have h := div_le_div_of_nonneg_right a3 (by norm_num : (0 : ℚ) ≤ 2)
    have := mul_le_mul_of_nonneg_left h hu
    linarith
  have split : s - v * v / (2 * b)
      = (s - t2 / 2) + (t2 - t1 * v) / 2 + (t1 * v - v / b * v) / 2 := by
    field_simp
    ring
  have t2' : |(t2 - t1 * v) / 2| = |t2 - t1 * v| / 2 := by
    rw [abs_div, abs_of_pos (by norm_num : (0 : ℚ) < 2)]
  have t3' : |(t1 * v - v / b * v) / 2| = |t1 * v - v / b * v| / 2 := by
    rw [abs_div, abs_of_pos (by norm_num : (0 : ℚ) < 2)]
  have tri : |s - v * v / (2 * b)|
      ≤ |s - t2 / 2| + |t2 - t1 * v| / 2 + |t1 * v - v / b * v| / 2 := by
    rw [split, ← t2', ← t3']
    exact abs_add_three _ _ _
  have key : u * (((1 + u) * (((1 + u) * (|v| / b) + η) * |v|) + η) / 2) + η
        + (u * (((1 + u) * (|v| / b) + η) * |v|) + η) / 2
        + (u * (|v| / b) + η) * |v| / 2
      = ((1 + u) ^ 3 - 1) * (|v| / b * |v| / 2)
        + η * (1 + (1 + u) * (1 + (1 + u) * |v|) / 2) := by
    ring
  rw [hE] at tri
  rw [hE, ← key]
  have d1' := div_le_div_of_nonneg_right d1 (by norm_num : (0 : ℚ) ≤ 2)
  have e2'' := div_le_div_of_nonneg_right e2' (by norm_num : (0 : ℚ) ≤ 2)
  linarith

/-- The stopping distance of line 550, `v / b * v / 2` with its three operations
rounded, against the exact `v * v / (2 * b)`. -/
theorem stoppingValue_err (v b : ℚ) (hb : 0 < b) :
    |f32 (f32 (f32 (v / b) * v) / 2) - v * v / (2 * b)|
      ≤ ((1 + 1 / 2 ^ 24) ^ 3 - 1) * (v * v / (2 * b))
        + 1 / 2 ^ 150 * (1 + (1 + 1 / 2 ^ 24) * (1 + (1 + 1 / 2 ^ 24) * |v|) / 2) :=
  stop_chain (1 / 2 ^ 24) (1 / 2 ^ 150) v b (f32 (v / b)) (f32 (f32 (v / b) * v))
    (f32 (f32 (f32 (v / b) * v) / 2)) (by positivity) hb (f32_err _) (f32_err _) (f32_err _)

/-! ### Template validation and accessors -/

theorem clamp_eq_min (cap v : ℚ) : (if v > cap then cap else v) = min cap v := by
  split_ifs with h
  · exact (min_eq_left (le_of_lt h)).symm
  · exact (min_eq_right (not_lt.mp h)).symm

theorem healDamaged_maxSpeedDamaged (t : LocomotorTemplate) :
    (healDamaged t).m_maxSpeedDamaged
      = if t.m_maxSpeedDamaged < 0 then t.m_maxSpeed else t.m_maxSpeedDamaged := by
  simp only [healDamaged, healLiftDamaged, healAccelerationDamaged, healMaxTurnRateDamaged,
    healMaxSpeedDamaged]
  split_ifs <;> rfl

theorem healDamaged_maxTurnRateDamaged (t : LocomotorTemplate) :
    (healDamaged t).m_maxTurnRateDamaged
      = if t.m_maxTurnRateDamaged < 0 then t.m_maxTurnRate else t.m_maxTurnRateDamaged := by
  simp only [healDamaged, healLiftDamaged, healAccelerationDamaged, healMaxTurnRateDamaged,
    healMaxSpeedDamaged]
  split_ifs <;> rfl

theorem healDamaged_accelerationDamaged (t : LocomotorTemplate) :
    (healDamaged t).m_accelerationDamaged
      = if t.m_accelerationDamaged < 0 then t.m_acceleration else t.m_accelerationDamaged := by
  simp only [healDamaged, healLiftDamaged, healAccelerationDamaged, healMaxTurnRateDamaged,
    healMaxSpeedDamaged]
  split_ifs <;> rfl

theorem healDamaged_liftDamaged (t : LocomotorTemplate) :
    (healDamaged t).m_liftDamaged
      = if t.m_liftDamaged < 0 then t.m_lift else t.m_liftDamaged := by
  simp only [healDamaged, healLiftDamaged, healAccelerationDamaged, healMaxTurnRateDamaged,
    healMaxSpeedDamaged]
  split_ifs <;> rfl

theorem healDamaged_others (t : LocomotorTemplate) :
    (healDamaged t).m_appearance = t.m_appearance ∧ (healDamaged t).m_maxSpeed = t.m_maxSpeed ∧
    (healDamaged t).m_maxTurnRate = t.m_maxTurnRate ∧
    (healDamaged t).m_acceleration = t.m_acceleration ∧ (healDamaged t).m_lift = t.m_lift ∧
    (healDamaged t).m_minSpeed = t.m_minSpeed ∧ (healDamaged t).m_minTurnSpeed = t.m_minTurnSpeed ∧
    (healDamaged t).m_behaviorZ = t.m_behaviorZ := by
  simp only [healDamaged, healLiftDamaged, healAccelerationDamaged, healMaxTurnRateDamaged,
    healMaxSpeedDamaged]
  split_ifs <;> simp

/-- Fields of the outcome of the WINGS arm. -/
theorem validateWings_fields (t : LocomotorTemplate) :
    (validateWings t).fatal = none ∧
    (validateWings t).tmpl.m_minSpeed = (if t.m_minSpeed ≤ 0 then 1 / 100 else t.m_minSpeed) ∧
    (validateWings t).tmpl.m_minTurnSpeed
      = (if t.m_minTurnSpeed ≤ 0 then 1 / 100 else t.m_minTurnSpeed) ∧
    (validateWings t).tmpl.m_maxSpeed = t.m_maxSpeed ∧
    (validateWings t).tmpl.m_maxSpeedDamaged = t.m_maxSpeedDamaged ∧
    (validateWings t).tmpl.m_maxTurnRate = t.m_maxTurnRate ∧
    (validateWings t).tmpl.m_maxTurnRateDamaged = t.m_maxTurnRateDamaged ∧
    (validateWings t).tmpl.m_acceleration = t.m_acceleration ∧
    (validateWings t).tmpl.m_accelerationDamaged = t.m_accelerationDamaged ∧
    (validateWings t).tmpl.m_lift = t.m_lift ∧
    (validateWings t).tmpl.m_liftDamaged = t.m_liftDamaged := by
  simp only [validateWings]
  split_ifs <;> simp_all

/-- Fields of the outcome of the THRUST arm when the release assertion holds. -/
theorem validateThrust_ok_fields (t : LocomotorTemplate)
    (h : t.m_behaviorZ = LocomotorBehaviorZ.Z_NO_Z_MOTIVE_FORCE ∧ t.m_lift = 0 ∧ t.m_liftDamaged = 0) :
    (validateThrust t).fatal = none ∧
    (validateThrust t).tmpl.m_behaviorZ = t.m_behaviorZ ∧
    (validateThrust t).tmpl.m_maxSpeed = (if t.m_maxSpeed ≤ 0 then 1 / 100 else t.m_maxSpeed) ∧
    (validateThrust t).tmpl.m_maxSpeedDamaged
      = (if t.m_maxSpeedDamaged ≤ 0 then 1 / 100 else t.m_maxSpeedDamaged) ∧
    (validateThrust t).tmpl.m_minSpeed = (if t.m_minSpeed ≤ 0 then 1 / 100 else t.m_minSpeed) ∧
    (validateThrust t).tmpl.m_maxTurnRate = t.m_maxTurnRate ∧
    (validateThrust t).tmpl.m_maxTurnRateDamaged = t.m_maxTurnRateDamaged ∧
    (validateThrust t).tmpl.m_acceleration = t.m_acceleration ∧
    (validateThrust t).tmpl.m_accelerationDamaged = t.m_accelerationDamaged ∧
    (validateThrust t).tmpl.m_lift = t.m_lift ∧
    (validateThrust t).tmpl.m_liftDamaged = t.m_liftDamaged := by
  have hd : decide (t.m_behaviorZ = LocomotorBehaviorZ.Z_NO_Z_MOTIVE_FORCE ∧ t.m_lift = 0 ∧
      t.m_liftDamaged = 0) = true := decide_eq_true h
  simp only [validateThrust, captainslog_relassert, hd, if_true]
  split_ifs <;> simp_all

/-- Outcome of the THRUST arm when the release assertion fails. -/
theorem validateThrust_fatal (t : LocomotorTemplate)
    (h : ¬ (t.m_behaviorZ = LocomotorBehaviorZ.Z_NO_Z_MOTIVE_FORCE ∧ t.m_lift = 0 ∧ t.m_liftDamaged = 0)) :
    (validateThrust t).fatal = some 0xDEAD0006 ∧ (validateThrust t).tmpl = t := by
  have hd : decide (t.m_behaviorZ = LocomotorBehaviorZ.Z_NO_Z_MOTIVE_FORCE ∧ t.m_lift = 0 ∧
      t.m_liftDamaged = 0) = false := decide_eq_false h
  simp only [validateThrust, captainslog_relassert, hd, Bool.false_eq_true, if_false, and_self]

/-- Outcome of `Validate` for an appearance other than WINGS and THRUST. -/
theorem Validate_plain (t : LocomotorTemplate)
    (hw : t.m_appearance ≠ LocomotorAppearance.LOCO_WINGS)
    (ht : t.m_appearance ≠ LocomotorAppearance.LOCO_THRUST) :
    t.Validate.fatal = none ∧ t.Validate.tmpl = healDamaged t := by
  have ha := (healDamaged_others t).1
  unfold LocomotorTemplate.Validate
  cases hA : t.m_appearance <;> simp_all

theorem Validate_wings (t : LocomotorTemplate)
    (hw : t.m_appearance = LocomotorAppearance.LOCO_WINGS) :
    t.Validate = validateWings (healDamaged t) := by
  have ha := (healDamaged_others t).1
  unfold LocomotorTemplate.Validate
  simp [ha, hw]

theorem Validate_thrust (t : LocomotorTemplate)
    (ht : t.m_appearance = LocomotorAppearance.LOCO_THRUST) :
    t.Validate = validateThrust (healDamaged t) := by
  have ha := (healDamaged_others t).1
  unfold LocomotorTemplate.Validate
  simp [ha, ht]

/-! ## C1: limit accessors against their reference definition -/

/-- C1: each limit accessor equals the reference clamp definition
`min(instance cap, value selected by the damage state)`; the selection takes the
undamaged field exactly when `d` is below the threshold; the turn rate is that
value doubled exactly when ULTRA_ACCURATE is set; braking is
`min(template braking, instance braking cap)`. -/
theorem C1_limit_accessors_eq_reference (self : Locomotor) (g : GlobalData) (d : BodyDamageType) :
    self.Get_Max_Speed_For_Condition g d
      = referenceLimit g d self.m_maxSpeed self.m_template.m_maxSpeed self.m_template.m_maxSpeedDamaged ∧
    self.Get_Max_Acceleration g d
      = referenceLimit g d self.m_maxAccel self.m_template.m_acceleration
          self.m_template.m_accelerationDamaged ∧
    self.Get_Max_Lift g d
      = referenceLimit g d self.m_maxLift self.m_template.m_lift self.m_template.m_liftDamaged ∧
    self.Get_Max_Turn_Rate g d
      = (if self.Get_Flag LocoFlag.ULTRA_ACCURATE = true then
          2 * referenceLimit g d self.m_maxTurnRate self.m_template.m_maxTurnRate
            self.m_template.m_maxTurnRateDamaged
        else
          referenceLimit g d self.m_maxTurnRate self.m_template.m_maxTurnRate
            self.m_template.m_maxTurnRateDamaged) ∧
    self.Get_Braking = min self.m_template.m_braking self.m_maxBraking ∧
    (∀ cap u v : ℚ, referenceLimit g d cap u v
      = if d < g.m_movementPenaltyDamageState then min cap u else min cap v) ∧
    (∀ cap u v : ℚ, d = g.m_movementPenaltyDamageState → referenceLimit g d cap u v = min cap v) := by
  refine ⟨?_, ?_, ?_, ?_, ?_, ?_, ?_⟩
  · simp only [Locomotor.Get_Max_Speed_For_Condition, referenceLimit, clamp_eq_min]
  · simp only [Locomotor.Get_Max_Acceleration, referenceLimit, clamp_eq_min]
  · simp only [Locomotor.Get_Max_Lift, referenceLimit, clamp_eq_min]
  · simp only [Locomotor.Get_Max_Turn_Rate, referenceLimit, clamp_eq_min]
    split_ifs <;> ring
  · simp only [Locomotor.Get_Braking, clamp_eq_min, min_comm]
  · intro cap u v
    simp only [referenceLimit]
    split_ifs <;> rfl
  · intro cap u v hd
    simp only [referenceLimit, hd, lt_irrefl, if_false]

/-- C1 witness, scenario C: instance cap 5, template max speed 10, damage state 0
below the threshold 2 gives 5. -/
theorem C1_scenario_C :
    locoC.m_maxSpeed = 5 ∧ locoC.m_template.m_maxSpeed = 10 ∧
    (0 : BodyDamageType) < globalData2.m_movementPenaltyDamageState ∧
    locoC.Get_Max_Speed_For_Condition globalData2 0 = 5 := by
  refine ⟨rfl, rfl, by decide, ?_⟩
  rw [(C1_limit_accessors_eq_reference locoC globalData2 0).1]
  decide

/-! ## C2: instance caps and the ULTRA_ACCURATE doubling -/

/-- C2 counterexample: with turn-rate cap 5, template turn rate 10 and
ULTRA_ACCURATE set, `Get_Max_Turn_Rate` returns 10, which is neither
`min(cap, template value)` nor at most the cap. -/
theorem C2_counterexample_ultra_accurate :
    locoUltra.Get_Flag LocoFlag.ULTRA_ACCURATE = true ∧
    locoUltra.m_maxTurnRate = 5 ∧
    locoUltra.Get_Max_Turn_Rate globalData2 0 = 10 ∧
    ¬ (locoUltra.Get_Max_Turn_Rate globalData2 0
        = min locoUltra.m_maxTurnRate
            (if (0 : BodyDamageType) < globalData2.m_movementPenaltyDamageState
              then locoUltra.m_template.m_maxTurnRate
              else locoUltra.m_template.m_maxTurnRateDamaged)) ∧
    ¬ (locoUltra.Get_Max_Turn_Rate globalData2 0 ≤ locoUltra.m_maxTurnRate) := by
  have h : locoUltra.Get_Max_Turn_Rate globalData2 0 = 10 := by
    norm_num [Locomotor.Get_Max_Turn_Rate, locoUltra, locoWheels, Locomotor.new,
      Locomotor.Set_Flag, Locomotor.Get_Flag, templateWheels, globalData2]
  have hcap : locoUltra.m_maxTurnRate = 5 := rfl
  have htmpl : locoUltra.m_template.m_maxTurnRate = 10 := rfl
  refine ⟨rfl, hcap, h, ?_, ?_⟩
  · rw [h, hcap, htmpl]
    norm_num [globalData2]
  · rw [h, hcap]
    norm_num

/-- C2 amended: max speed, max acceleration and max lift always equal
`min(instance cap, selected template value)` and so exceed neither; max turn rate
does so when ULTRA_ACCURATE is clear, and is twice that minimum when it is set. -/
theorem C2_caps_never_widen (self : Locomotor) (g : GlobalData) (d : BodyDamageType) :
    (self.Get_Max_Speed_For_Condition g d
        = min self.m_maxSpeed
            (if d < g.m_movementPenaltyDamageState then self.m_template.m_maxSpeed
              else self.m_template.m_maxSpeedDamaged) ∧
      self.Get_Max_Speed_For_Condition g d ≤ self.m_maxSpeed ∧
      self.Get_Max_Speed_For_Condition g d
        ≤ (if d < g.m_movementPenaltyDamageState then self.m_template.m_maxSpeed
            else self.m_template.m_maxSpeedDamaged)) ∧
    (self.Get_Max_Acceleration g d
        = min self.m_maxAccel
            (if d < g.m_movementPenaltyDamageState then self.m_template.m_acceleration
              else self.m_template.m_accelerationDamaged) ∧
      self.Get_Max_Acceleration g d ≤ self.m_maxAccel ∧
      self.Get_Max_Acceleration g d
        ≤ (if d < g.m_movementPenaltyDamageState then self.m_template.m_acceleration
            else self.m_template.m_accelerationDamaged)) ∧
    (self.Get_Max_Lift g d
        = min self.m_maxLift
            (if d < g.m_movementPenaltyDamageState then self.m_template.m_lift
              else self.m_template.m_liftDamaged) ∧
      self.Get_Max_Lift g d ≤ self.m_maxLift ∧
      self.Get_Max_Lift g d
        ≤ (if d < g.m_movementPenaltyDamageState then self.m_template.m_lift
            else self.m_template.m_liftDamaged)) ∧
    (self.Get_Flag LocoFlag.ULTRA_ACCURATE = false →
      self.Get_Max_Turn_Rate g d
        = min self.m_maxTurnRate
            (if d < g.m_movementPenaltyDamageState then self.m_template.m_maxTurnRate
              else self.m_template.m_maxTurnRateDamaged) ∧
      self.Get_Max_Turn_Rate g d ≤ self.m_maxTurnRate ∧
      self.Get_Max_Turn_Rate g d
        ≤ (if d < g.m_movementPenaltyDamageState then self.m_template.m_maxTurnRate
            else self.m_template.m_maxTurnRateDamaged)) ∧
    (self.Get_Flag LocoFlag.ULTRA_ACCURATE = true →
      self.Get_Max_Turn_Rate g d
        = 2 * min self.m_maxTurnRate
            (if d < g.m_movementPenaltyDamageState then self.m_template.m_maxTurnRate
              else self.m_template.m_maxTurnRateDamaged)) := by
  refine ⟨⟨?_, ?_, ?_⟩, ⟨?_, ?_, ?_⟩, ⟨?_, ?_, ?_⟩, ?_, ?_⟩
  · simp only [Locomotor.Get_Max_Speed_For_Condition, clamp_eq_min]
  · simp only [Locomotor.Get_Max_Speed_For_Condition, clamp_eq_min]
    exact min_le_left _ _
  · simp only [Locomotor.Get_Max_Speed_For_Condition, clamp_eq_min]
    exact min_le_right _ _
  · simp only [Locomotor.Get_Max_Acceleration, clamp_eq_min]
  · simp only [Locomotor.Get_Max_Acceleration, clamp_eq_min]
    exact min_le_left _ _
  · simp only [Locomotor.Get_Max_Acceleration, clamp_eq_min]
    exact min_le_right _ _
  · simp only [Locomotor.Get_Max_Lift, clamp_eq_min]
  · simp only [Locomotor.Get_Max_Lift, clamp_eq_min]
    exact min_le_left _ _
  · simp only [Locomotor.Get_Max_Lift, clamp_eq_min]
    exact min_le_right _ _
  · intro hf
    simp only [Locomotor.Get_Max_Turn_Rate, clamp_eq_min, hf, Bool.false_eq_true, if_false]
    exact ⟨trivial, min_le_left _ _, min_le_right _ _⟩
  · intro hf
    simp only [Locomotor.Get_Max_Turn_Rate, clamp_eq_min, hf, if_true]
    ring

/-- C2 witness: the wheels locomotor (ULTRA_ACCURATE clear, turn-rate cap 99999,
template turn rate 10) has max turn rate 10, and the ULTRA_ACCURATE one (cap 5)
has twice `min(5, 10)`. -/
theorem C2_caps_never_widen_witness :
    locoWheels.Get_Flag LocoFlag.ULTRA_ACCURATE = false ∧
    locoWheels.Get_Max_Turn_Rate globalData2 0 ≤ locoWheels.m_maxTurnRate ∧
    locoUltra.Get_Max_Turn_Rate globalData2 0 = 2 * min 5 10 :=
  ⟨rfl, ((C2_caps_never_widen locoWheels globalData2 0).2.2.2.1 rfl).2.1,
    (C2_caps_never_widen locoUltra globalData2 0).2.2.2.2 rfl⟩

/-! ## C3 to C7: LocomotorTemplate::Validate -/

/-- C3: when `Validate` completes, every damaged field that was negative before
the call equals its undamaged counterpart after the call; the counterpart is the
input value, except for a THRUST max speed that was itself healed to 0.01. -/
theorem C3_validate_heals_unset_damaged (t : LocomotorTemplate)
    (hdone : t.Validate.fatal = none) :
    (t.m_maxSpeedDamaged < 0 →
      t.Validate.tmpl.m_maxSpeedDamaged = t.Validate.tmpl.m_maxSpeed ∧
      (t.m_appearance ≠ LocomotorAppearance.LOCO_THRUST ∨ 0 < t.m_maxSpeed →
        t.Validate.tmpl.m_maxSpeedDamaged = t.m_maxSpeed)) ∧
    (t.m_maxTurnRateDamaged < 0 →
      t.Validate.tmpl.m_maxTurnRateDamaged = t.Validate.tmpl.m_maxTurnRate ∧
      t.Validate.tmpl.m_maxTurnRateDamaged = t.m_maxTurnRate) ∧
    (t.m_accelerationDamaged < 0 →
      t.Validate.tmpl.m_accelerationDamaged = t.Validate.tmpl.m_acceleration ∧
      t.Validate.tmpl.m_accelerationDamaged = t.m_acceleration) ∧
    (t.m_liftDamaged < 0 →
      t.Validate.tmpl.m_liftDamaged = t.Validate.tmpl.m_lift ∧
      t.Validate.tmpl.m_liftDamaged = t.m_lift) := by
  obtain ⟨_, o2, o3, o4, o5, _, _, _⟩ := healDamaged_others t
  have d1 := healDamaged_maxSpeedDamaged t
  have d2 := healDamaged_maxTurnRateDamaged t
  have d3 := healDamaged_accelerationDamaged t
  have d4 := healDamaged_liftDamaged t
  by_cases hw : t.m_appearance = LocomotorAppearance.LOCO_WINGS
  · obtain ⟨_, _, _, w1, w2, w3, w4, w5, w6, w7, w8⟩ := validateWings_fields (healDamaged t)
    rw [Validate_wings t hw]
    rw [w1, w2, w3, w4, w5, w6, w7, w8, o2, o3, o4, o5, d1, d2, d3, d4]
    refine ⟨fun h => ?_, fun h => ?_, fun h => ?_, fun h => ?_⟩ <;> simp [h]
  · by_cases ht : t.m_appearance = LocomotorAppearance.LOCO_THRUST
    · rw [Validate_thrust t ht] at hdone ⊢
      by_cases hc : (healDamaged t).m_behaviorZ = LocomotorBehaviorZ.Z_NO_Z_MOTIVE_FORCE ∧
          (healDamaged t).m_lift = 0 ∧ (healDamaged t).m_liftDamaged = 0
      · obtain ⟨_, _, w1, w2, _, w3, w4, w5, w6, w7, w8⟩ := validateThrust_ok_fields _ hc
        rw [w1, w2, w3, w4, w5, w6, w7, w8, o2, o3, o4, o5, d1, d2, d3, d4]
        refine ⟨fun h => ?_, fun h => ?_, fun h => ?_, fun h => ?_⟩
        · simp only [h, if_true, true_and]
          intro hp
          rcases hp with hp | hp
          · exact absurd ht hp
          · simp [not_le.mpr hp]
        · simp [h]
        · simp [h]
        · simp [h]
      · rw [(validateThrust_fatal _ hc).1] at hdone
        simp at hdone
    · rw [(Validate_plain t hw ht).2, o2, o3, o4, o5, d1, d2, d3, d4]
      refine ⟨fun h => ?_, fun h => ?_, fun h => ?_, fun h => ?_⟩ <;> simp [h]

/-- C3 witness, scenario A: max speed 10 with the damaged variant unset (-1)
validates to damaged max speed 10. -/
theorem C3_scenario_A :
    templateA.m_maxSpeed = 10 ∧ templateA.m_maxSpeedDamaged = -1 ∧
    templateA.Validate.tmpl.m_maxSpeedDamaged = 10 :=
  ⟨rfl, rfl,
    ((C3_validate_heals_unset_damaged templateA (by decide)).1 (by decide)).2 (Or.inl (by decide))⟩

/-- C4 counterexample: a template with max speed -5 and the damaged variant unset
validates without error to damaged max speed -5, which is negative. -/
theorem C4_counterexample_negative_speed :
    templateNegativeSpeed.Validate.fatal = none ∧
    templateNegativeSpeed.Validate.tmpl.m_maxSpeedDamaged = -5 ∧
    templateNegativeSpeed.Validate.tmpl.m_maxSpeedDamaged < 0 := by
  decide

/-- C4 amended: after `Validate` a damaged field is negative exactly when that
field and its undamaged counterpart were both negative before the call; damaged
max speed, in addition, is never negative after a THRUST template has validated
without error. -/
theorem C4_damaged_negative_iff (t : LocomotorTemplate) :
    (t.Validate.tmpl.m_maxSpeedDamaged < 0 ↔
      t.m_maxSpeedDamaged < 0 ∧ t.m_maxSpeed < 0 ∧
        ¬ (t.m_appearance = LocomotorAppearance.LOCO_THRUST ∧ t.Validate.fatal = none)) ∧
    (t.Validate.tmpl.m_maxTurnRateDamaged < 0 ↔
      t.m_maxTurnRateDamaged < 0 ∧ t.m_maxTurnRate < 0) ∧
    (t.Validate.tmpl.m_accelerationDamaged < 0 ↔
      t.m_accelerationDamaged < 0 ∧ t.m_acceleration < 0) ∧
    (t.Validate.tmpl.m_liftDamaged < 0 ↔ t.m_liftDamaged < 0 ∧ t.m_lift < 0) := by
  have d1 := healDamaged_maxSpeedDamaged t
  have d2 := healDamaged_maxTurnRateDamaged t
  have d3 := healDamaged_accelerationDamaged t
  have d4 := healDamaged_liftDamaged t
  have k1 : (healDamaged t).m_maxSpeedDamaged < 0 ↔ t.m_maxSpeedDamaged < 0 ∧ t.m_maxSpeed < 0 := by
    rw [d1]
    split_ifs with h
    · exact ⟨fun h' => ⟨h, h'⟩, fun h' => h'.2⟩
    · exact ⟨fun h' => absurd h' h, fun h' => absurd h'.1 h⟩
  have k2 : (healDamaged t).m_maxTurnRateDamaged < 0 ↔
      t.m_maxTurnRateDamaged < 0 ∧ t.m_maxTurnRate < 0 := by
    rw [d2]
    split_ifs with h
    · exact ⟨fun h' => ⟨h, h'⟩, fun h' => h'.2⟩
    · exact ⟨fun h' => absurd h' h, fun h' => absurd h'.1 h⟩
  have k3 : (healDamaged t).m_accelerationDamaged < 0 ↔
      t.m_accelerationDamaged < 0 ∧ t.m_acceleration < 0 := by
    rw [d3]
    split_ifs with h
    · exact ⟨fun h' => ⟨h, h'⟩, fun h' => h'.2⟩
    · exact ⟨fun h' => absurd h' h, fun h' => absurd h'.1 h⟩
  have k4 : (healDamaged t).m_liftDamaged < 0 ↔ t.m_liftDamaged < 0 ∧ t.m_lift < 0 := by
    rw [d4]
    split_ifs with h
    · exact ⟨fun h' => ⟨h, h'⟩, fun h' => h'.2⟩
    · exact ⟨fun h' => absurd h' h, fun h' => absurd h'.1 h⟩
  by_cases hw : t.m_appearance = LocomotorAppearance.LOCO_WINGS
  · have hnt : ¬ (t.m_appearance = LocomotorAppearance.LOCO_THRUST ∧ t.Validate.fatal = none) := by
      rw [hw]
      exact fun h => absurd h.1 (by decide)
    obtain ⟨_, _, _, _, w2, _, w4, _, w6, _, w8⟩ := validateWings_fields (healDamaged t)
    rw [Validate_wings t hw] at hnt ⊢
    rw [w2, w4, w6, w8]
    exact ⟨⟨fun h => ⟨(k1.mp h).1, (k1.mp h).2, hnt⟩, fun h => k1.mpr ⟨h.1, h.2.1⟩⟩, k2, k3, k4⟩
  · by_cases ht : t.m_appearance = LocomotorAppearance.LOCO_THRUST
    · rw [Validate_thrust t ht]
      by_cases hc : (healDamaged t).m_behaviorZ = LocomotorBehaviorZ.Z_NO_Z_MOTIVE_FORCE ∧
          (healDamaged t).m_lift = 0 ∧ (healDamaged t).m_liftDamaged = 0
      · obtain ⟨hf, _, _, w2, _, _, w4, _, w6, _, w8⟩ := validateThrust_ok_fields _ hc
        rw [w2, w4, w6, w8, hf]
        refine ⟨⟨fun h => ?_, fun h => absurd ⟨ht, rfl⟩ h.2.2⟩, k2, k3, k4⟩
        exfalso
        split_ifs at h with h0
        · norm_num at h
        · exact h0 (le_of_lt h)
      · obtain ⟨hf, htm⟩ := validateThrust_fatal _ hc
        rw [htm, hf]
        exact ⟨⟨fun h => ⟨(k1.mp h).1, (k1.mp h).2, fun h' => absurd h'.2 (by simp)⟩,
          fun h => k1.mpr ⟨h.1, h.2.1⟩⟩, k2, k3, k4⟩
    · obtain ⟨hf, htm⟩ := Validate_plain t hw ht
      rw [htm]
      exact ⟨⟨fun h => ⟨(k1.mp h).1, (k1.mp h).2, fun h' => ht h'.1⟩,
        fun h => k1.mpr ⟨h.1, h.2.1⟩⟩, k2, k3, k4⟩

/-- C4 witness: scenario A (max speed 10, damaged variant unset) has no negative
damaged field after validation; a template with max speed -5 and damaged max
speed 3 keeps the damaged value 3. -/
theorem C4_damaged_negative_iff_witness :
    0 ≤ templateA.Validate.tmpl.m_maxSpeedDamaged ∧
    0 ≤ templateA.Validate.tmpl.m_liftDamaged ∧
    templateNegativeKept.m_maxSpeed = -5 ∧
    0 ≤ templateNegativeKept.Validate.tmpl.m_maxSpeedDamaged :=
  ⟨not_lt.mp (fun h => absurd ((C4_damaged_negative_iff templateA).1.mp h).2.1 (by decide)),
    not_lt.mp (fun h => absurd ((C4_damaged_negative_iff templateA).2.2.2.mp h).2 (by decide)),
    rfl,
    not_lt.mp (fun h => absurd ((C4_damaged_negative_iff templateNegativeKept).1.mp h).1
      (by decide))⟩

/-- C5: `Validate` raises the fatal error `0xDEAD0006` if and only if the
appearance is THRUST and, once the damaged lift has been healed, the vertical mode
is not NO_Z_MOTIVE_FORCE or lift is nonzero or damaged lift is nonzero; no other
error code exists; every other appearance validates, and so does a THRUST
template with the default vertical mode, zero lift and damaged lift zero or
unset. -/
theorem C5_validate_fatal_iff (t : LocomotorTemplate) :
    (t.Validate.fatal = some 0xDEAD0006 ↔
      t.m_appearance = LocomotorAppearance.LOCO_THRUST ∧
        (t.m_behaviorZ ≠ LocomotorBehaviorZ.Z_NO_Z_MOTIVE_FORCE ∨ t.m_lift ≠ 0 ∨
          (if t.m_liftDamaged < 0 then t.m_lift else t.m_liftDamaged) ≠ 0)) ∧
    (t.Validate.fatal = none ∨ t.Validate.fatal = some 0xDEAD0006) ∧
    (t.m_appearance ≠ LocomotorAppearance.LOCO_THRUST → t.Validate.fatal = none) ∧
    (t.m_appearance = LocomotorAppearance.LOCO_THRUST →
      t.m_behaviorZ = LocomotorBehaviorZ.Z_NO_Z_MOTIVE_FORCE → t.m_lift = 0 →
      (t.m_liftDamaged = 0 ∨ t.m_liftDamaged < 0) → t.Validate.fatal = none) := by
  obtain ⟨_, _, _, _, o5, _, _, o8⟩ := healDamaged_others t
  have d4 := healDamaged_liftDamaged t
  have hother : t.m_appearance ≠ LocomotorAppearance.LOCO_THRUST → t.Validate.fatal = none := by
    intro ht
    by_cases hw : t.m_appearance = LocomotorAppearance.LOCO_WINGS
    · rw [Validate_wings t hw]
      exact (validateWings_fields _).1
    · exact (Validate_plain t hw ht).1
  have hthrust : t.m_appearance = LocomotorAppearance.LOCO_THRUST →
      (t.Validate.fatal = some 0xDEAD0006 ↔
        (t.m_behaviorZ ≠ LocomotorBehaviorZ.Z_NO_Z_MOTIVE_FORCE ∨ t.m_lift ≠ 0 ∨
          (if t.m_liftDamaged < 0 then t.m_lift else t.m_liftDamaged) ≠ 0)) ∧
      (t.Validate.fatal = none ∨ t.Validate.fatal = some 0xDEAD0006) := by
    intro ht
    rw [Validate_thrust t ht]
    by_cases hc : (healDamaged t).m_behaviorZ = LocomotorBehaviorZ.Z_NO_Z_MOTIVE_FORCE ∧
        (healDamaged t).m_lift = 0 ∧ (healDamaged t).m_liftDamaged = 0
    · have hn := (validateThrust_ok_fields _ hc).1
      rw [o8, o5, d4] at hc
      rw [hn]
      refine ⟨⟨fun h => by simp at h, fun h => ?_⟩, Or.inl rfl⟩
      rcases h with h | h | h
      · exact absurd hc.1 h
      · exact absurd hc.2.1 h
      · exact absurd hc.2.2 h
    · have hf := (validateThrust_fatal _ hc).1
      rw [o8, o5, d4] at hc
      rw [hf]
      refine ⟨⟨fun _ => ?_, fun _ => rfl⟩, Or.inr rfl⟩
      by_contra hcon
      push_neg at hcon
      exact hc hcon
  refine ⟨?_, ?_, hother, ?_⟩
  · by_cases ht : t.m_appearance = LocomotorAppearance.LOCO_THRUST
    · rw [(hthrust ht).1]
      exact ⟨fun h => ⟨ht, h⟩, fun h => h.2⟩
    · rw [hother ht]
      exact ⟨fun h => by simp at h, fun h => absurd h.1 ht⟩
  · by_cases ht : t.m_appearance = LocomotorAppearance.LOCO_THRUST
    · exact (hthrust ht).2
    · exact Or.inl (hother ht)
  · intro ht hz hl hd
    rcases (hthrust ht).2 with h | h
    · exact h
    · exfalso
      rcases ((hthrust ht).1.mp h) with h1 | h1 | h1
      · exact h1 hz
      · exact h1 hl
      · rcases hd with hd | hd
        · rw [hd] at h1
          simp at h1
        · rw [if_pos hd] at h1
          exact h1 hl

/-- C5 witness, scenario B: a THRUST template with lift 0.5 is rejected, and the
THRUST template as constructed is accepted. -/
theorem C5_scenario_B :
    templateB.m_appearance = LocomotorAppearance.LOCO_THRUST ∧ templateB.m_lift = 1 / 2 ∧
    templateB.Validate.fatal = some 0xDEAD0006 ∧ templateThrust.Validate.fatal = none :=
  ⟨rfl, rfl,
    (C5_validate_fatal_iff templateB).1.mpr
      ⟨rfl, Or.inr (Or.inl (by norm_num [templateB, LocomotorTemplate.new]))⟩,
    (C5_validate_fatal_iff templateThrust).2.2.2 rfl rfl rfl (Or.inr (by decide))⟩

/-- C6 counterexample: the THRUST template with lift 0.5 leaves `Validate` through
the fatal error with its lift still 0.5, not zero. -/
theorem C6_counterexample_rejected_thrust :
    templateB.m_appearance = LocomotorAppearance.LOCO_THRUST ∧
    templateB.Validate.fatal = some 0xDEAD0006 ∧
    templateB.Validate.tmpl.m_lift = 1 / 2 ∧
    ¬ (templateB.Validate.tmpl.m_lift = 0) := by
  have hc : ¬ ((healDamaged templateB).m_behaviorZ = LocomotorBehaviorZ.Z_NO_Z_MOTIVE_FORCE ∧
      (healDamaged templateB).m_lift = 0 ∧ (healDamaged templateB).m_liftDamaged = 0) := by
    rw [(healDamaged_others templateB).2.2.2.2.1]
    norm_num [templateB, LocomotorTemplate.new]
  have hv := Validate_thrust templateB rfl
  have hl : templateB.Validate.tmpl.m_lift = 1 / 2 := by
    rw [hv, (validateThrust_fatal _ hc).2, (healDamaged_others templateB).2.2.2.2.1]
    rfl
  refine ⟨rfl, ?_, hl, ?_⟩
  · rw [hv]
    exact (validateThrust_fatal _ hc).1
  · rw [hl]
    norm_num

/-- C6 amended: for every THRUST template on which `Validate` raises no fatal
error, the validated state has vertical mode NO_Z_MOTIVE_FORCE, lift and damaged
lift zero, and max speed, damaged max speed and min speed strictly positive. -/
theorem C6_thrust_postconditions (t : LocomotorTemplate)
    (ht : t.m_appearance = LocomotorAppearance.LOCO_THRUST) (hdone : t.Validate.fatal = none) :
    t.Validate.tmpl.m_behaviorZ = LocomotorBehaviorZ.Z_NO_Z_MOTIVE_FORCE ∧
    t.Validate.tmpl.m_lift = 0 ∧ t.Validate.tmpl.m_liftDamaged = 0 ∧
    0 < t.Validate.tmpl.m_maxSpeed ∧ 0 < t.Validate.tmpl.m_maxSpeedDamaged ∧
    0 < t.Validate.tmpl.m_minSpeed := by
  rw [Validate_thrust t ht] at hdone ⊢
  by_cases hc : (healDamaged t).m_behaviorZ = LocomotorBehaviorZ.Z_NO_Z_MOTIVE_FORCE ∧
      (healDamaged t).m_lift = 0 ∧ (healDamaged t).m_liftDamaged = 0
  · obtain ⟨_, w0, w1, w2, w3, _, _, _, _, w7, w8⟩ := validateThrust_ok_fields _ hc
    rw [w0, w1, w2, w3, w7, w8]
    refine ⟨hc.1, hc.2.1, hc.2.2, ?_, ?_, ?_⟩
    · split_ifs with h
      · norm_num
      · exact not_le.mp h
    · split_ifs with h
      · norm_num
      · exact not_le.mp h
    · split_ifs with h
      · norm_num
      · exact not_le.mp h
  · rw [(validateThrust_fatal _ hc).1] at hdone
    simp at hdone

/-- C6 witness: the THRUST template as constructed (all speeds zero) validates with
the three speeds healed to positive values. -/
theorem C6_thrust_postconditions_witness :
    templateThrust.Validate.tmpl.m_behaviorZ = LocomotorBehaviorZ.Z_NO_Z_MOTIVE_FORCE ∧
    templateThrust.Validate.tmpl.m_lift = 0 ∧ templateThrust.Validate.tmpl.m_liftDamaged = 0 ∧
    0 < templateThrust.Validate.tmpl.m_maxSpeed ∧
    0 < templateThrust.Validate.tmpl.m_maxSpeedDamaged ∧
    0 < templateThrust.Validate.tmpl.m_minSpeed :=
  C6_thrust_postconditions templateThrust rfl (by decide)

/-- C7: for every WINGS template, `Validate` does not fail, and afterwards min
speed and min turn speed are strictly positive: a value at most zero has become
0.01 and a positive value is kept. -/
theorem C7_wings_postconditions (t : LocomotorTemplate)
    (hw : t.m_appearance = LocomotorAppearance.LOCO_WINGS) :
    t.Validate.fatal = none ∧
    0 < t.Validate.tmpl.m_minSpeed ∧ 0 < t.Validate.tmpl.m_minTurnSpeed ∧
    t.Validate.tmpl.m_minSpeed = (if t.m_minSpeed ≤ 0 then 1 / 100 else t.m_minSpeed) ∧
    t.Validate.tmpl.m_minTurnSpeed = (if t.m_minTurnSpeed ≤ 0 then 1 / 100 else t.m_minTurnSpeed) := by
  obtain ⟨_, _, _, _, _, o6, o7, _⟩ := healDamaged_others t
  obtain ⟨w0, w1, w2, _⟩ := validateWings_fields (healDamaged t)
  rw [Validate_wings t hw, w1, w2, o6, o7]
  refine ⟨w0, ?_, ?_, rfl, rfl⟩
  · split_ifs with h
    · norm_num
    · exact not_le.mp h
  · split_ifs with h
    · norm_num
    · exact not_le.mp h

/-- C7 witness: a WINGS template with min speed 0 and min turn speed 0 validates
with both set to 0.01. -/
theorem C7_wings_postconditions_witness :
    templateWings.m_minSpeed = 0 ∧ templateWings.m_minTurnSpeed = 0 ∧
    templateWings.Validate.fatal = none ∧
    0 < templateWings.Validate.tmpl.m_minSpeed ∧ 0 < templateWings.Validate.tmpl.m_minTurnSpeed :=
  ⟨rfl, rfl, (C7_wings_postconditions templateWings rfl).1,
    (C7_wings_postconditions templateWings rfl).2.1,
    (C7_wings_postconditions templateWings rfl).2.2.1⟩

/-! ## C8 to C10: Loco_Update_Move_Towards_Position -/

theorem Get_Flag_Set_Flag (self : Locomotor) (f k : LocoFlag) (b : Bool) :
    (self.Set_Flag f b).Get_Flag k = if k = f then b else self.Get_Flag k := rfl

theorem Set_Flag_template (self : Locomotor) (f : LocoFlag) (b : Bool) :
    (self.Set_Flag f b).m_template = self.m_template := rfl

/-- The prologue clears MAINTAIN_POS_IS_VALID, may touch IS_BRAKING and
`m_brakingFactor`, and nothing else of the locomotor. -/
theorem entryLoco_frame {W : Type} (env : Env W) (g : GlobalData) (self : Locomotor) (obj : W)
    (on_path : ℚ) :
    (entryLoco env g self obj on_path).Get_Flag LocoFlag.MAINTAIN_POS_IS_VALID = false ∧
    (∀ f, f ≠ LocoFlag.MAINTAIN_POS_IS_VALID → f ≠ LocoFlag.IS_BRAKING →
      (entryLoco env g self obj on_path).Get_Flag f = self.Get_Flag f) ∧
    { entryLoco env g self obj on_path with
        m_flags := self.m_flags, m_brakingFactor := self.m_brakingFactor } = self := by
  unfold entryLoco updatePrologue
  simp only []
  split_ifs
  · refine ⟨rfl, ?_, rfl⟩
    intro f h1 h2
    simp [Locomotor.Get_Flag, Locomotor.Set_Flag, h1, h2]
  · refine ⟨by simp [Locomotor.Get_Flag, Locomotor.Set_Flag], ?_, rfl⟩
    intro f h1 _
    simp [Locomotor.Get_Flag, Locomotor.Set_Flag, h1]

/-- C8: when the object has no physics body or the body reports stunned, the
update returns the world (object position, status bits, physics force and
velocity) and `*blocked` as they were, issues no strategy, vertical-policy or
position-repair call, and changes of the locomotor at most the flag
MAINTAIN_POS_IS_VALID (cleared), the flag IS_BRAKING and `m_brakingFactor`. -/
theorem C8_stunned_changes_nothing {W : Type} (env : Env W) (shim : Shim W) (g : GlobalData)
    (self : Locomotor) (obj : W) (goal_pos : Coord3D) (on_path_dist_to_goal desired_speed : ℚ)
    (blocked : Bool) (h : env.Get_Physics obj = false ∨ env.Get_Stunned obj = true) :
    (Loco_Update_Move_Towards_Position env shim g self obj goal_pos on_path_dist_to_goal
        desired_speed blocked).world = obj ∧
    (Loco_Update_Move_Towards_Position env shim g self obj goal_pos on_path_dist_to_goal
        desired_speed blocked).blocked = blocked ∧
    (∀ c ∈ (Loco_Update_Move_Towards_Position env shim g self obj goal_pos on_path_dist_to_goal
        desired_speed blocked).calls, c = Call.dbgassert_no_physics) ∧
    (Loco_Update_Move_Towards_Position env shim g self obj goal_pos on_path_dist_to_goal
        desired_speed blocked).loco.Get_Flag LocoFlag.MAINTAIN_POS_IS_VALID = false ∧
    (∀ f, f ≠ LocoFlag.MAINTAIN_POS_IS_VALID → f ≠ LocoFlag.IS_BRAKING →
      (Loco_Update_Move_Towards_Position env shim g self obj goal_pos on_path_dist_to_goal
        desired_speed blocked).loco.Get_Flag f = self.Get_Flag f) ∧
    { (Loco_Update_Move_Towards_Position env shim g self obj goal_pos on_path_dist_to_goal
        desired_speed blocked).loco with
        m_flags := self.m_flags, m_brakingFactor := self.m_brakingFactor } = self := by
  obtain ⟨e1, e2, e3⟩ := entryLoco_frame env g self obj on_path_dist_to_goal
  have hr : Loco_Update_Move_Towards_Position env shim g self obj goal_pos on_path_dist_to_goal
        desired_speed blocked
      = { loco := entryLoco env g self obj on_path_dist_to_goal, world := obj, blocked := blocked,
          calls := if env.Get_Physics obj = false then [Call.dbgassert_no_physics] else [] } := by
    unfold Loco_Update_Move_Towards_Position
    rcases h with h | h
    · simp [h]
    · cases hp : env.Get_Physics obj <;> simp [h]
  rw [hr]
  refine ⟨rfl, rfl, ?_, e1, e2, e3⟩
  intro c hc
  simp only at hc
  split_ifs at hc
  · simpa using hc
  · simp at hc

/-- C8 witness, scenario D: a stunned object, a wheels locomotor, a goal at distance
5: position, motive force and status bits are as before and no call is issued. -/
theorem C8_scenario_D :
    simpleEnv.Get_Stunned worldStunned = true ∧
    (Loco_Update_Move_Towards_Position simpleEnv (Shim.standalone SimpleWorld) globalData2
        locoWheels worldStunned goalFar 50 10 true).world = worldStunned ∧
    (Loco_Update_Move_Towards_Position simpleEnv (Shim.standalone SimpleWorld) globalData2
        locoWheels worldStunned goalFar 50 10 true).blocked = true :=
  ⟨rfl,
    (C8_stunned_changes_nothing simpleEnv (Shim.standalone SimpleWorld) globalData2 locoWheels
      worldStunned goalFar 50 10 true (Or.inr rfl)).1,
    (C8_stunned_changes_nothing simpleEnv (Shim.standalone SimpleWorld) globalData2 locoWheels
      worldStunned goalFar 50 10 true (Or.inr rfl)).2.1⟩

/-- The calls made by the position gate are at most one `Fix_Invalid_Position`. -/
theorem positionGate_calls {W : Type} (env : Env W) (shim : Shim W) (self : Locomotor) (obj : W) :
    ∀ c ∈ (positionGate env shim self obj).calls, c = Call.Fix_Invalid_Position := by
  unfold positionGate
  split_ifs <;> simp

/-- The calls made by the position correction are status and position writes. -/
theorem positionCorrection_calls {W : Type} (env : Env W) (delta : Coord3D) (path_dist : ℚ)
    (obj : W) : ∀ c ∈ (positionCorrection env delta path_dist obj).2, c.isMotion = false := by
  unfold positionCorrection
  split_ifs <;> simp [Call.isMotion]

theorem brakeOnCut_template {W : Type} (env : Env W) (self : Locomotor) (obj : W)
    (goal_pos : Coord3D) (d : ℚ) : (brakeOnCut env self obj goal_pos d).m_template = self.m_template := by
  unfold brakeOnCut
  split_ifs <;> rfl

theorem targetDist_eq_max {W : Type} (env : Env W) (obj : W) (goal_pos : Coord3D) (d : ℚ) :
    targetDist env obj goal_pos d = max d (pathDist2D env obj goal_pos) := by
  unfold targetDist
  split_ifs with h
  · exact (max_eq_right (le_of_lt h)).symm
  · exact (max_eq_left (not_lt.mp h)).symm

theorem clampDesiredSpeed_eq_min (maxspeed desired_speed : ℚ) :
    clampDesiredSpeed maxspeed desired_speed = min desired_speed maxspeed := by
  unfold clampDesiredSpeed
  split_ifs with h
  · exact (min_eq_right (le_of_lt h)).symm
  · exact (min_eq_left (not_lt.mp h)).symm

/-- Calls of the unblocked branch when the strategy is allowed to run. -/
theorem unblockedBranch_calls {W : Type} (env : Env W) (shim : Shim W) (self : Locomotor) (obj : W)
    (goal_pos delta : Coord3D) (path_dist dist speed : ℚ) (air : Bool)
    (hforce : self.m_template.m_allowMotiveForceWhileAirborne = true ∨ air = false) :
    ∃ rest : List Call,
      (unblockedBranch env shim self obj goal_pos delta path_dist dist speed air).calls
        = Call.Set_Turning PhysicsTurningType.TURN_NONE ::
          Call.Move_Towards_Position (strategyFor self.m_template.m_appearance) goal_pos dist speed ::
          Call.Handle_Behavior_Z goal_pos :: rest ∧
      ∀ c ∈ rest, c.isMotion = false := by
  have hcond : ∀ l : Locomotor, l.m_template = self.m_template →
      (l.Get_Allow_Motive_Force_While_Airborne || !air) = true := by
    intro l hl
    unfold Locomotor.Get_Allow_Motive_Force_While_Airborne
    rw [hl]
    rcases hforce with h | h <;> simp [h]
  unfold unblockedBranch
  by_cases hW : self.m_template.m_appearance = LocomotorAppearance.LOCO_WINGS
  · simp only [hW, if_true, hcond _ (Set_Flag_template self _ _), Set_Flag_template]
    refine ⟨_, rfl, ?_⟩
    intro c hc
    simp only [List.mem_cons] at hc
    rcases hc with hc | hc
    · subst hc; rfl
    · split_ifs at hc
      · exact positionCorrection_calls _ _ _ _ c hc
      · simp at hc
  · simp only [hW, if_false, hcond _ rfl, if_true]
    refine ⟨_, rfl, ?_⟩
    intro c hc
    simp only [List.mem_cons] at hc
    rcases hc with hc | hc
    · subst hc; rfl
    · split_ifs at hc
      · exact positionCorrection_calls _ _ _ _ c hc
      · simp at hc

/-- The update on a call that gets through the gate is `moveBody` on the state the
gate left, with the calls of the gate in front. -/
theorem Loco_Update_proceeds {W : Type} (env : Env W) (shim : Shim W) (g : GlobalData)
    (self : Locomotor) (obj : W) (goal_pos : Coord3D) (on_path_dist_to_goal desired_speed : ℚ)
    (blocked : Bool) (hphys : env.Get_Physics obj = true) (hstun : env.Get_Stunned obj = false)
    (hpass : (positionGate env shim (entryLoco env g self obj on_path_dist_to_goal) obj).pass = true) :
    Loco_Update_Move_Towards_Position env shim g self obj goal_pos on_path_dist_to_goal
        desired_speed blocked
      = { moveBody env shim g
            (positionGate env shim (entryLoco env g self obj on_path_dist_to_goal) obj).loco
            (positionGate env shim (entryLoco env g self obj on_path_dist_to_goal) obj).world
            goal_pos on_path_dist_to_goal
            (clampDesiredSpeed (self.Get_Max_Speed_For_Condition g (env.Get_Damage_State obj))
              desired_speed) blocked with
          calls := (positionGate env shim (entryLoco env g self obj on_path_dist_to_goal) obj).calls
            ++ (moveBody env shim g
              (positionGate env shim (entryLoco env g self obj on_path_dist_to_goal) obj).loco
              (positionGate env shim (entryLoco env g self obj on_path_dist_to_goal) obj).world
              goal_pos on_path_dist_to_goal
              (clampDesiredSpeed (self.Get_Max_Speed_For_Condition g (env.Get_Damage_State obj))
                desired_speed) blocked).calls } := by
  unfold Loco_Update_Move_Towards_Position
  simp only [hphys, hstun, hpass, Bool.not_true, Bool.not_false, if_true, Bool.false_eq_true,
    if_false]
  rfl

/-- The strategy named by the dispatch table, as the method it runs. -/
theorem runStrategy_dispatch {W : Type} (env : Env W) (shim : Shim W) (a : LocomotorAppearance)
    (goal_pos : Coord3D) (d s : ℚ) (p : Locomotor × W) :
    runStrategy env shim (strategyFor a) goal_pos d s p
      = match a with
        | .LOCO_LEGS_TWO => shim.Move_Towards_Position_Legs goal_pos d s p
        | .LOCO_WHEELS_FOUR => shim.Move_Towards_Position_Wheels goal_pos d s p
        | .LOCO_MOTORCYCLE => shim.Move_Towards_Position_Wheels goal_pos d s p
        | .LOCO_TREADS => shim.Move_Towards_Position_Treads goal_pos d s p
        | .LOCO_HOVER => Move_Towards_Position_Hover env shim goal_pos d s p
        | .LOCO_THRUST => shim.Move_Towards_Position_Thrust goal_pos d s p
        | .LOCO_WINGS => Move_Towards_Position_Wings shim goal_pos d s p
        | .LOCO_CLIMBER => shim.Move_Towards_Position_Climb goal_pos d s p
        | .LOCO_OTHER => shim.Move_Towards_Position_Other goal_pos d s p := by
  cases a <;> rfl

/-- State that the unblocked branch leaves when the strategy is allowed to run:
the strategy, then the vertical policy, then the status write, then the position
correction when the status bit IS_BRAKING was set on entry of the branch. -/
theorem unblockedBranch_state {W : Type} (env : Env W) (shim : Shim W) (self : Locomotor) (obj : W)
    (goal_pos delta : Coord3D) (path_dist dist speed : ℚ) (air : Bool)
    (hforce : self.m_template.m_allowMotiveForceWhileAirborne = true ∨ air = false) :
    (unblockedBranch env shim self obj goal_pos delta path_dist dist speed air).loco
      = (shim.Handle_Behavior_Z goal_pos
          (runStrategy env shim (strategyFor self.m_template.m_appearance) goal_pos dist speed
            (if self.m_template.m_appearance = LocomotorAppearance.LOCO_WINGS then
                self.Set_Flag LocoFlag.IS_BRAKING false
              else self,
             env.Set_Turning PhysicsTurningType.TURN_NONE obj))).1 ∧
    (unblockedBranch env shim self obj goal_pos delta path_dist dist speed air).world
      = if env.Test_Status ObjectStatus.OBJECT_STATUS_IS_BRAKING obj = true then
          (positionCorrection env delta path_dist
            (env.Set_Status ObjectStatus.OBJECT_STATUS_IS_BRAKING
              ((shim.Handle_Behavior_Z goal_pos
                (runStrategy env shim (strategyFor self.m_template.m_appearance) goal_pos dist speed
                  (if self.m_template.m_appearance = LocomotorAppearance.LOCO_WINGS then
                      self.Set_Flag LocoFlag.IS_BRAKING false
                    else self,
                   env.Set_Turning PhysicsTurningType.TURN_NONE obj))).1.Get_Flag
                LocoFlag.IS_BRAKING)
              (shim.Handle_Behavior_Z goal_pos
                (runStrategy env shim (strategyFor self.m_template.m_appearance) goal_pos dist speed
                  (if self.m_template.m_appearance = LocomotorAppearance.LOCO_WINGS then
                      self.Set_Flag LocoFlag.IS_BRAKING false
                    else self,
                   env.Set_Turning PhysicsTurningType.TURN_NONE obj))).2)).1
        else
          env.Set_Status ObjectStatus.OBJECT_STATUS_IS_BRAKING
            ((shim.Handle_Behavior_Z goal_pos
              (runStrategy env shim (strategyFor self.m_template.m_appearance) goal_pos dist speed
                (if self.m_template.m_appearance = LocomotorAppearance.LOCO_WINGS then
                    self.Set_Flag LocoFlag.IS_BRAKING false
                  else self,
                 env.Set_Turning PhysicsTurningType.TURN_NONE obj))).1.Get_Flag
              LocoFlag.IS_BRAKING)
            (shim.Handle_Behavior_Z goal_pos
              (runStrategy env shim (strategyFor self.m_template.m_appearance) goal_pos dist speed
                (if self.m_template.m_appearance = LocomotorAppearance.LOCO_WINGS then
                    self.Set_Flag LocoFlag.IS_BRAKING false
                  else self,
                 env.Set_Turning PhysicsTurningType.TURN_NONE obj))).2 := by
  have hcond : ∀ l : Locomotor, l.m_template = self.m_template →
      (l.Get_Allow_Motive_Force_While_Airborne || !air) = true := by
    intro l hl
    unfold Locomotor.Get_Allow_Motive_Force_While_Airborne
    rw [hl]
    rcases hforce with h | h <;> simp [h]
  unfold unblockedBranch
  by_cases hW : self.m_template.m_appearance = LocomotorAppearance.LOCO_WINGS
  · simp only [hW, if_true, hcond _ (Set_Flag_template self _ _), Set_Flag_template]
    by_cases hb : env.Test_Status ObjectStatus.OBJECT_STATUS_IS_BRAKING obj = true
    · simp only [hb, if_true, and_self]
    · simp only [hb, Bool.false_eq_true, if_false, and_self]
  · simp only [hW, if_false, hcond _ rfl, if_true]
    by_cases hb : env.Test_Status ObjectStatus.OBJECT_STATUS_IS_BRAKING obj = true
    · simp only [hb, if_true, and_self]
    · simp only [hb, Bool.false_eq_true, if_false, and_self]

/-- C9: on a call that proceeds and is not blocked, with motive force allowed while
airborne or the object not airborne, the calls are: those of the position gate,
then the motive force with the zero vector, the turning reset, exactly one motion
strategy, the one that the appearance selects, with the goal, the target distance
`max(on-path, straight-line 2D)` and the desired speed clamped to the effective max
speed, then the vertical policy; what follows holds no call of these three kinds.
The state returned is the one these calls make: the method of the dispatch table
run on the state `s0` after the turning reset gives `s1`, the vertical policy run
on `s1` gives `s2`, whose locomotor is returned, and the world returned is that of
`s2` after the status write and, when the status bit IS_BRAKING was set, the
position correction.  The straight-line distance is `Sqrt(x * x + y * y)` of the
rounded differences between the goal and the position of the object. -/
theorem C9_dispatch_and_order {W : Type} (env : Env W) (shim : Shim W) (g : GlobalData)
    (self : Locomotor) (obj : W) (goal_pos : Coord3D) (on_path_dist_to_goal desired_speed : ℚ)
    (blocked : Bool) (gate : GateResult W)
    (hphys : env.Get_Physics obj = true) (hstun : env.Get_Stunned obj = false)
    (hgate : positionGate env shim (entryLoco env g self obj on_path_dist_to_goal) obj = gate)
    (hpass : gate.pass = true)
    (hunblocked : reevalBlocked env (brakeOnCut env gate.loco gate.world goal_pos on_path_dist_to_goal)
        (env.Apply_Motive_Force Coord3D.Zero gate.world) (isAirborne env g gate.world)
        (clampDesiredSpeed (self.Get_Max_Speed_For_Condition g (env.Get_Damage_State obj))
          desired_speed) blocked = false)
    (hforce : gate.loco.m_template.m_allowMotiveForceWhileAirborne = true ∨
        isAirborne env g gate.world = false)
    (s0 s1 s2 : Locomotor × W)
    (hs0 : s0 =
      (if gate.loco.m_template.m_appearance = LocomotorAppearance.LOCO_WINGS then
          (brakeOnCut env gate.loco gate.world goal_pos on_path_dist_to_goal).Set_Flag
            LocoFlag.IS_BRAKING false
        else brakeOnCut env gate.loco gate.world goal_pos on_path_dist_to_goal,
       env.Set_Turning PhysicsTurningType.TURN_NONE
        (env.Apply_Motive_Force Coord3D.Zero gate.world)))
    (hs1 : s1 =
      match gate.loco.m_template.m_appearance with
      | .LOCO_LEGS_TWO =>
        shim.Move_Towards_Position_Legs goal_pos
          (max on_path_dist_to_goal (pathDist2D env gate.world goal_pos))
          (min desired_speed (self.Get_Max_Speed_For_Condition g (env.Get_Damage_State obj))) s0
      | .LOCO_WHEELS_FOUR =>
        shim.Move_Towards_Position_Wheels goal_pos
          (max on_path_dist_to_goal (pathDist2D env gate.world goal_pos))
          (min desired_speed (self.Get_Max_Speed_For_Condition g (env.Get_Damage_State obj))) s0
      | .LOCO_MOTORCYCLE =>
        shim.Move_Towards_Position_Wheels goal_pos
          (max on_path_dist_to_goal (pathDist2D env gate.world goal_pos))
          (min desired_speed (self.Get_Max_Speed_For_Condition g (env.Get_Damage_State obj))) s0
      | .LOCO_TREADS =>
        shim.Move_Towards_Position_Treads goal_pos
          (max on_path_dist_to_goal (pathDist2D env gate.world goal_pos))
          (min desired_speed (self.Get_Max_Speed_For_Condition g (env.Get_Damage_State obj))) s0
      | .LOCO_HOVER =>
        Move_Towards_Position_Hover env shim goal_pos
          (max on_path_dist_to_goal (pathDist2D env gate.world goal_pos))
          (min desired_speed (self.Get_Max_Speed_For_Condition g (env.Get_Damage_State obj))) s0
      | .LOCO_THRUST =>
        shim.Move_Towards_Position_Thrust goal_pos
          (max on_path_dist_to_goal (pathDist2D env gate.world goal_pos))
          (min desired_speed (self.Get_Max_Speed_For_Condition g (env.Get_Damage_State obj))) s0
      | .LOCO_WINGS =>
        Move_Towards_Position_Wings shim goal_pos
          (max on_path_dist_to_goal (pathDist2D env gate.world goal_pos))
          (min desired_speed (self.Get_Max_Speed_For_Condition g (env.Get_Damage_State obj))) s0
      | .LOCO_CLIMBER =>
        shim.Move_Towards_Position_Climb goal_pos
          (max on_path_dist_to_goal (pathDist2D env gate.world goal_pos))
          (min desired_speed (self.Get_Max_Speed_For_Condition g (env.Get_Damage_State obj))) s0
      | .LOCO_OTHER =>
        shim.Move_Towards_Position_Other goal_pos
          (max on_path_dist_to_goal (pathDist2D env gate.world goal_pos))
          (min desired_speed (self.Get_Max_Speed_For_Condition g (env.Get_Damage_State obj))) s0)
    (hs2 : s2 = shim.Handle_Behavior_Z goal_pos s1) :
    (∃ rest : List Call,
      (Loco_Update_Move_Towards_Position env shim g self obj goal_pos on_path_dist_to_goal
          desired_speed blocked).calls
        = gate.calls ++
          ([Call.Apply_Motive_Force Coord3D.Zero,
            Call.Set_Turning PhysicsTurningType.TURN_NONE,
            Call.Move_Towards_Position (strategyFor gate.loco.m_template.m_appearance) goal_pos
              (max on_path_dist_to_goal (pathDist2D env gate.world goal_pos))
              (min desired_speed (self.Get_Max_Speed_For_Condition g (env.Get_Damage_State obj))),
            Call.Handle_Behavior_Z goal_pos] ++ rest) ∧
      ∀ c ∈ rest, c.isMotion = false) ∧
    (∀ c ∈ gate.calls, c = Call.Fix_Invalid_Position) ∧
    (Loco_Update_Move_Towards_Position env shim g self obj goal_pos on_path_dist_to_goal
        desired_speed blocked).calls.filter Call.isMotion
      = [Call.Apply_Motive_Force Coord3D.Zero,
         Call.Move_Towards_Position (strategyFor gate.loco.m_template.m_appearance) goal_pos
           (max on_path_dist_to_goal (pathDist2D env gate.world goal_pos))
           (min desired_speed (self.Get_Max_Speed_For_Condition g (env.Get_Damage_State obj))),
         Call.Handle_Behavior_Z goal_pos] ∧
    strategyFor LocomotorAppearance.LOCO_LEGS_TWO = Strategy.Legs ∧
    strategyFor LocomotorAppearance.LOCO_WHEELS_FOUR = Strategy.Wheels ∧
    strategyFor LocomotorAppearance.LOCO_MOTORCYCLE = Strategy.Wheels ∧
    strategyFor LocomotorAppearance.LOCO_TREADS = Strategy.Treads ∧
    strategyFor LocomotorAppearance.LOCO_HOVER = Strategy.Hover ∧
    strategyFor LocomotorAppearance.LOCO_THRUST = Strategy.Thrust ∧
    strategyFor LocomotorAppearance.LOCO_WINGS = Strategy.Wings ∧
    strategyFor LocomotorAppearance.LOCO_CLIMBER = Strategy.Climb ∧
    strategyFor LocomotorAppearance.LOCO_OTHER = Strategy.Other ∧
    (Loco_Update_Move_Towards_Position env shim g self obj goal_pos on_path_dist_to_goal
        desired_speed blocked).loco = s2.1 ∧
    (Loco_Update_Move_Towards_Position env shim g self obj goal_pos on_path_dist_to_goal
        desired_speed blocked).world
      = (if env.Test_Status ObjectStatus.OBJECT_STATUS_IS_BRAKING
            (env.Apply_Motive_Force Coord3D.Zero gate.world) = true then
          (positionCorrection env (goalDelta env gate.world goal_pos)
            (pathDist2D env gate.world goal_pos)
            (env.Set_Status ObjectStatus.OBJECT_STATUS_IS_BRAKING
              (s2.1.Get_Flag LocoFlag.IS_BRAKING) s2.2)).1
        else
          env.Set_Status ObjectStatus.OBJECT_STATUS_IS_BRAKING
            (s2.1.Get_Flag LocoFlag.IS_BRAKING) s2.2) ∧
    pathDist2D env gate.world goal_pos
      = env.Sqrt (f32
          (f32 (f32 (goal_pos.x - (env.Get_Position gate.world).x)
              * f32 (goal_pos.x - (env.Get_Position gate.world).x))
            + f32 (f32 (goal_pos.y - (env.Get_Position gate.world).y)
              * f32 (goal_pos.y - (env.Get_Position gate.world).y)))) := by
  subst hgate
  have hgc := positionGate_calls env shim (entryLoco env g self obj on_path_dist_to_goal) obj
  have hmain : ∃ rest : List Call,
      (Loco_Update_Move_Towards_Position env shim g self obj goal_pos on_path_dist_to_goal
          desired_speed blocked).calls
        = (positionGate env shim (entryLoco env g self obj on_path_dist_to_goal) obj).calls ++
          ([Call.Apply_Motive_Force Coord3D.Zero,
            Call.Set_Turning PhysicsTurningType.TURN_NONE,
            Call.Move_Towards_Position
              (strategyFor (positionGate env shim (entryLoco env g self obj on_path_dist_to_goal)
                obj).loco.m_template.m_appearance) goal_pos
              (max on_path_dist_to_goal (pathDist2D env
                (positionGate env shim (entryLoco env g self obj on_path_dist_to_goal) obj).world
                goal_pos))
              (min desired_speed (self.Get_Max_Speed_For_Condition g (env.Get_Damage_State obj))),
            Call.Handle_Behavior_Z goal_pos] ++ rest) ∧
      ∀ c ∈ rest, c.isMotion = false := by
    rw [Loco_Update_proceeds env shim g self obj goal_pos on_path_dist_to_goal desired_speed
      blocked hphys hstun hpass]
    unfold moveBody
    simp only [hunblocked, Bool.false_eq_true, if_false]
    obtain ⟨rest, hcalls, hrest⟩ := unblockedBranch_calls env shim
      (brakeOnCut env (positionGate env shim (entryLoco env g self obj on_path_dist_to_goal) obj).loco
        (positionGate env shim (entryLoco env g self obj on_path_dist_to_goal) obj).world goal_pos
        on_path_dist_to_goal)
      (env.Apply_Motive_Force Coord3D.Zero
        (positionGate env shim (entryLoco env g self obj on_path_dist_to_goal) obj).world)
      goal_pos
      (goalDelta env (positionGate env shim (entryLoco env g self obj on_path_dist_to_goal) obj).world
        goal_pos)
      (pathDist2D env (positionGate env shim (entryLoco env g self obj on_path_dist_to_goal) obj).world
        goal_pos)
      (targetDist env (positionGate env shim (entryLoco env g self obj on_path_dist_to_goal) obj).world
        goal_pos on_path_dist_to_goal)
      (clampDesiredSpeed (self.Get_Max_Speed_For_Condition g (env.Get_Damage_State obj))
        desired_speed)
      (isAirborne env g (positionGate env shim (entryLoco env g self obj on_path_dist_to_goal)
        obj).world)
      (by rw [brakeOnCut_template]; exact hforce)
    rw [brakeOnCut_template, targetDist_eq_max, clampDesiredSpeed_eq_min] at hcalls
    refine ⟨rest, ?_, hrest⟩
    rw [targetDist_eq_max, clampDesiredSpeed_eq_min, hcalls]
    rfl
  have hstate := unblockedBranch_state env shim
    (brakeOnCut env (positionGate env shim (entryLoco env g self obj on_path_dist_to_goal) obj).loco
      (positionGate env shim (entryLoco env g self obj on_path_dist_to_goal) obj).world goal_pos
      on_path_dist_to_goal)
    (env.Apply_Motive_Force Coord3D.Zero
      (positionGate env shim (entryLoco env g self obj on_path_dist_to_goal) obj).world)
    goal_pos
    (goalDelta env (positionGate env shim (entryLoco env g self obj on_path_dist_to_goal) obj).world
      goal_pos)
    (pathDist2D env (positionGate env shim (entryLoco env g self obj on_path_dist_to_goal) obj).world
      goal_pos)
    (targetDist env (positionGate env shim (entryLoco env g self obj on_path_dist_to_goal) obj).world
      goal_pos on_path_dist_to_goal)
    (clampDesiredSpeed (self.Get_Max_Speed_For_Condition g (env.Get_Damage_State obj))
      desired_speed)
    (isAirborne env g (positionGate env shim (entryLoco env g self obj on_path_dist_to_goal)
      obj).world)
    (by rw [brakeOnCut_template]; exact hforce)
  rw [brakeOnCut_template, targetDist_eq_max, clampDesiredSpeed_eq_min,
    runStrategy_dispatch] at hstate
  have hs2eq : s2 = shim.Handle_Behavior_Z goal_pos s1 := hs2
  rw [hs1, hs0] at hs2eq
  have hloco : (Loco_Update_Move_Towards_Position env shim g self obj goal_pos
      on_path_dist_to_goal desired_speed blocked).loco = s2.1 := by
    rw [Loco_Update_proceeds env shim g self obj goal_pos on_path_dist_to_goal desired_speed
      blocked hphys hstun hpass, hs2eq]
    unfold moveBody
    simp only [hunblocked, Bool.false_eq_true, if_false]
    rw [targetDist_eq_max, clampDesiredSpeed_eq_min]
    exact hstate.1
  have hworld : (Loco_Update_Move_Towards_Position env shim g self obj goal_pos
      on_path_dist_to_goal desired_speed blocked).world
      = (if env.Test_Status ObjectStatus.OBJECT_STATUS_IS_BRAKING
            (env.Apply_Motive_Force Coord3D.Zero
              (positionGate env shim (entryLoco env g self obj on_path_dist_to_goal) obj).world)
            = true then
          (positionCorrection env
            (goalDelta env
              (positionGate env shim (entryLoco env g self obj on_path_dist_to_goal) obj).world
              goal_pos)
            (pathDist2D env
              (positionGate env shim (entryLoco env g self obj on_path_dist_to_goal) obj).world
              goal_pos)
            (env.Set_Status ObjectStatus.OBJECT_STATUS_IS_BRAKING
              (s2.1.Get_Flag LocoFlag.IS_BRAKING) s2.2)).1
        else
          env.Set_Status ObjectStatus.OBJECT_STATUS_IS_BRAKING
            (s2.1.Get_Flag LocoFlag.IS_BRAKING) s2.2) := by
    rw [Loco_Update_proceeds env shim g self obj goal_pos on_path_dist_to_goal desired_speed
      blocked hphys hstun hpass, hs2eq]
    unfold moveBody
    simp only [hunblocked, Bool.false_eq_true, if_false]
    rw [targetDist_eq_max, clampDesiredSpeed_eq_min]
    exact hstate.2
  refine ⟨hmain, hgc, ?_, rfl, rfl, rfl, rfl, rfl, rfl, rfl, rfl, rfl, hloco, hworld, rfl⟩
  obtain ⟨rest, hcalls, hrest⟩ := hmain
  rw [hcalls]
  have h1 : List.filter Call.isMotion
      (positionGate env shim (entryLoco env g self obj on_path_dist_to_goal) obj).calls = [] := by
    rw [List.filter_eq_nil_iff]
    intro c hc
    rw [hgc c hc]
    simp [Call.isMotion]
  have h2 : List.filter Call.isMotion rest = [] := by
    rw [List.filter_eq_nil_iff]
    intro c hc
    simp [hrest c hc]
  simp only [List.filter_append, h1, h2, List.nil_append, List.append_nil]
  simp [List.filter, Call.isMotion]

/-- The gate lets the call through untouched when the pathfinder accepts the
position. -/
theorem positionGate_of_valid {W : Type} (env : Env W) (shim : Shim W) (self : Locomotor) (obj : W)
    (h : env.Valid_Movement_Terrain self obj = true) :
    positionGate env shim self obj = { pass := true, loco := self, world := obj, calls := [] } := by
  unfold positionGate
  split_ifs <;> rfl

theorem entryLoco_template {W : Type} (env : Env W) (g : GlobalData) (self : Locomotor) (obj : W)
    (on_path : ℚ) : (entryLoco env g self obj on_path).m_template = self.m_template := by
  unfold entryLoco updatePrologue
  simp only []
  split_ifs <;> rfl

theorem entryLoco_braking_false {W : Type} (env : Env W) (g : GlobalData) (self : Locomotor)
    (obj : W) (on_path : ℚ) (h : self.Get_Flag LocoFlag.IS_BRAKING = false) :
    (entryLoco env g self obj on_path).Get_Flag LocoFlag.IS_BRAKING = false := by
  unfold entryLoco updatePrologue
  simp only []
  split_ifs
  · rfl
  · simpa [Get_Flag_Set_Flag] using h

theorem standalone_KeepsBraking (W : Type) : (Shim.standalone W).KeepsBraking := by
  unfold Shim.KeepsBraking Shim.standalone
  simp

theorem runStrategy_braking {W : Type} (env : Env W) (shim : Shim W) (hshim : shim.KeepsBraking)
    (s : Strategy) (goal_pos : Coord3D) (d sp : ℚ) (p : Locomotor × W) :
    (runStrategy env shim s goal_pos d sp p).1.Get_Flag LocoFlag.IS_BRAKING
      = p.1.Get_Flag LocoFlag.IS_BRAKING := by
  obtain ⟨h1, h2, h3, h4, h5, h6, _, _⟩ := hshim
  cases s
  · exact h1 _ _ _ _
  · exact h2 _ _ _ _
  · exact h3 _ _ _ _
  · show (Move_Towards_Position_Hover env shim goal_pos d sp p).1.Get_Flag _ = _
    unfold Move_Towards_Position_Hover
    simp only []
    split_ifs <;> simp [Get_Flag_Set_Flag, h4]
  · exact h5 _ _ _ _
  · exact h4 _ _ _ _
  · exact h6 _ _ _ _
  · exact h4 _ _ _ _

theorem blockedBranch_braking {W : Type} (env : Env W) (shim : Shim W) (hshim : shim.KeepsBraking)
    (g : GlobalData) (self : Locomotor) (obj : W) (goal_pos : Coord3D) (sp : ℚ) :
    (blockedBranch env shim g self obj goal_pos sp).loco.Get_Flag LocoFlag.IS_BRAKING
      = self.Get_Flag LocoFlag.IS_BRAKING := by
  obtain ⟨_, _, _, _, _, _, h7, h8⟩ := hshim
  unfold blockedBranch
  simp only []
  split_ifs
  · simp only [h7, h8]
  · simp only [h7]

theorem unblockedBranch_braking {W : Type} (env : Env W) (shim : Shim W)
    (hshim : shim.KeepsBraking) (self : Locomotor) (obj : W) (goal_pos delta : Coord3D)
    (pd d sp : ℚ) (air : Bool)
    (hwings : self.m_template.m_appearance ≠ LocomotorAppearance.LOCO_WINGS) :
    (unblockedBranch env shim self obj goal_pos delta pd d sp air).loco.Get_Flag LocoFlag.IS_BRAKING
      = self.Get_Flag LocoFlag.IS_BRAKING := by
  have h7 := hshim.2.2.2.2.2.2.1
  unfold unblockedBranch
  simp only [hwings, if_false, h7]
  split_ifs
  · exact runStrategy_braking env shim hshim _ _ _ _ _
  · rfl

theorem moveBody_braking {W : Type} (env : Env W) (shim : Shim W) (g : GlobalData)
    (self : Locomotor) (obj : W) (goal_pos : Coord3D) (on_path sp : ℚ) (blocked : Bool)
    (hshim : shim.KeepsBraking)
    (hwings : self.m_template.m_appearance ≠ LocomotorAppearance.LOCO_WINGS) :
    (moveBody env shim g self obj goal_pos on_path sp blocked).loco.Get_Flag LocoFlag.IS_BRAKING
      = (brakeOnCut env self obj goal_pos on_path).Get_Flag LocoFlag.IS_BRAKING := by
  unfold moveBody
  simp only []
  split_ifs
  · exact blockedBranch_braking env shim hshim _ _ _ _ _
  · exact unblockedBranch_braking env shim hshim _ _ _ _ _ _ _ _
      (by rw [brakeOnCut_template]; exact hwings)



theorem pathDist2D_goalNear : pathDist2D simpleEnv worldAtOrigin goalNear = 2 := by
  decide!

theorem pathDist2D_goalFar : pathDist2D simpleEnv worldAtOrigin goalFar = 5 := by
  decide!


/-- C9 witness, scenario F: a four-wheels locomotor at (1, 2, 0), not blocked, on
the ground, goal (4, 6, 0) at straight-line distance 5 with on-path distance 2 and
desired speed 10, with shimmed methods that leave a mark.  The wheels strategy is
called with distance 5 and speed 10, between the motive force reset and the
single vertical-policy call; the world returned carries the mark of the wheels
strategy (5, 10, 2) with the 100 that the vertical policy added after it, and the
status bit IS_BRAKING that line 572 set because 2 * 2 < 5. -/
theorem C9_scenario_F :
    locoWheels.m_template.m_appearance = LocomotorAppearance.LOCO_WHEELS_FOUR ∧
    (Loco_Update_Move_Towards_Position fineEnv shimMarking globalData2
        locoWheels worldAway goalAway 2 10 false).calls
      = [Call.Apply_Motive_Force Coord3D.Zero,
         Call.Set_Turning PhysicsTurningType.TURN_NONE,
         Call.Move_Towards_Position Strategy.Wheels goalAway 5 10,
         Call.Handle_Behavior_Z goalAway,
         Call.Set_Status ObjectStatus.OBJECT_STATUS_IS_BRAKING true] ∧
    (Loco_Update_Move_Towards_Position fineEnv shimMarking globalData2
        locoWheels worldAway goalAway 2 10 false).world
      = { worldAway with motiveForce := { x := 5, y := 10, z := 102 },
                         turning := PhysicsTurningType.TURN_NONE, statusBraking := true } ∧
    pathDist2D fineEnv worldAway goalAway = 5 := by
  have h := C9_dispatch_and_order fineEnv shimMarking globalData2 locoWheels worldAway goalAway
    2 10 false _ rfl rfl rfl (by decide!) (by decide!) (Or.inr (by decide!)) _ _ _ rfl rfl rfl
  refine ⟨rfl, by decide!, ?_, by decide!⟩
  rw [h.2.2.2.2.2.2.2.2.2.2.2.2.2.1]
  decide!

/-- C10 counterexample, scenario E: a non-projectile object at straight-line
distance 2 from the goal with on-path distance 50; the call proceeds, 2 is less
than half of 50, and the braking flag is false after the call. -/
theorem C10_counterexample_scenario_E :
    simpleEnv.Is_KindOf_PROJECTILE worldAtOrigin = false ∧
    simpleEnv.Get_Physics worldAtOrigin = true ∧
    simpleEnv.Get_Stunned worldAtOrigin = false ∧
    (positionGate simpleEnv (Shim.standalone SimpleWorld)
      (entryLoco simpleEnv globalData2 locoWheels worldAtOrigin 50) worldAtOrigin).pass = true ∧
    pathDist2D simpleEnv worldAtOrigin goalNear = 2 ∧
    (2 : ℚ) < 1 / 2 * 50 ∧
    (Loco_Update_Move_Towards_Position simpleEnv (Shim.standalone SimpleWorld) globalData2
        locoWheels worldAtOrigin goalNear 50 10 false).loco.Get_Flag LocoFlag.IS_BRAKING = false := by
  have hg := positionGate_of_valid simpleEnv (Shim.standalone SimpleWorld)
    (entryLoco simpleEnv globalData2 locoWheels worldAtOrigin 50) worldAtOrigin rfl
  refine ⟨rfl, rfl, rfl, by rw [hg], pathDist2D_goalNear, by norm_num, ?_⟩
  rw [Loco_Update_proceeds _ _ _ _ _ _ _ _ _ rfl rfl (by rw [hg])]
  show (moveBody _ _ _ _ _ _ _ _ _).loco.Get_Flag LocoFlag.IS_BRAKING = false
  rw [moveBody_braking _ _ _ _ _ _ _ _ _ (standalone_KeepsBraking SimpleWorld)
    (by rw [hg, entryLoco_template]; decide)]
  rw [hg]
  unfold brakeOnCut
  rw [pathDist2D_goalNear]
  norm_num
  exact entryLoco_braking_false _ _ _ _ _ rfl

/-- C10 amended: on a call that proceeds, for an object that is not a projectile,
if the straight-line 2D distance to the goal exceeds the on-path distance and is
more than twice it, the braking flag is set at line 572; it is true after the call
when the appearance is not WINGS and the shimmed methods return the flag as they
found it. -/
theorem C10_braking_on_cut {W : Type} (env : Env W) (shim : Shim W) (g : GlobalData)
    (self : Locomotor) (obj : W) (goal_pos : Coord3D) (on_path_dist_to_goal desired_speed : ℚ)
    (blocked : Bool) (gate : GateResult W)
    (hphys : env.Get_Physics obj = true) (hstun : env.Get_Stunned obj = false)
    (hgate : positionGate env shim (entryLoco env g self obj on_path_dist_to_goal) obj = gate)
    (hpass : gate.pass = true)
    (hproj : env.Is_KindOf_PROJECTILE gate.world = false)
    (hlonger : on_path_dist_to_goal < pathDist2D env gate.world goal_pos)
    (hcut : 2 * on_path_dist_to_goal < pathDist2D env gate.world goal_pos)
    (hwings : gate.loco.m_template.m_appearance ≠ LocomotorAppearance.LOCO_WINGS)
    (hshim : shim.KeepsBraking) :
    (brakeOnCut env gate.loco gate.world goal_pos on_path_dist_to_goal).Get_Flag
        LocoFlag.IS_BRAKING = true ∧
    (Loco_Update_Move_Towards_Position env shim g self obj goal_pos on_path_dist_to_goal
        desired_speed blocked).loco.Get_Flag LocoFlag.IS_BRAKING = true := by
  subst hgate
  have hb : (brakeOnCut env
      (positionGate env shim (entryLoco env g self obj on_path_dist_to_goal) obj).loco
      (positionGate env shim (entryLoco env g self obj on_path_dist_to_goal) obj).world goal_pos
      on_path_dist_to_goal).Get_Flag LocoFlag.IS_BRAKING = true := by
    unfold brakeOnCut
    simp [hlonger, hcut, hproj, Get_Flag_Set_Flag]
  refine ⟨hb, ?_⟩
  rw [Loco_Update_proceeds env shim g self obj goal_pos on_path_dist_to_goal desired_speed
    blocked hphys hstun hpass]
  show (moveBody _ _ _ _ _ _ _ _ _).loco.Get_Flag LocoFlag.IS_BRAKING = true
  rw [moveBody_braking _ _ _ _ _ _ _ _ _ hshim hwings]
  exact hb

/-- C10 witness: straight-line distance 5 with on-path distance 2 on a wheels
locomotor; the braking flag is true after the call. -/
theorem C10_braking_on_cut_witness :
    pathDist2D simpleEnv worldAtOrigin goalFar = 5 ∧
    (Loco_Update_Move_Towards_Position simpleEnv (Shim.standalone SimpleWorld) globalData2
        locoWheels worldAtOrigin goalFar 2 10 false).loco.Get_Flag LocoFlag.IS_BRAKING = true := by
  have hg := positionGate_of_valid simpleEnv (Shim.standalone SimpleWorld)
    (entryLoco simpleEnv globalData2 locoWheels worldAtOrigin 2) worldAtOrigin rfl
  exact ⟨pathDist2D_goalFar,
    (C10_braking_on_cut simpleEnv (Shim.standalone SimpleWorld) globalData2 locoWheels
      worldAtOrigin goalFar 2 10 false _ rfl rfl hg rfl rfl
      (by rw [pathDist2D_goalFar]; norm_num) (by rw [pathDist2D_goalFar]; norm_num)
      (by rw [entryLoco_template]; decide) (standalone_KeepsBraking SimpleWorld)).2⟩

/-! ## C11 to C14: LocomotorStore -/

theorem Heap.deref_lt (h : Heap) (p : TemplatePtr) (o : TemplateObject)
    (hp : h.deref p = some o) : p < h.cells.length := by
  unfold Heap.deref at hp
  by_contra hlt
  rw [List.get?_eq_none.mpr (not_lt.mp hlt)] at hp
  simp at hp

theorem Heap.deref_write_same (h : Heap) (p : TemplatePtr) (o : TemplateObject)
    (hp : p < h.cells.length) : (h.write p o).deref p = some o := by
  simp [Heap.deref, Heap.write, hp]

theorem Heap.deref_write_other (h : Heap) (p r : TemplatePtr) (o : TemplateObject)
    (hr : r ≠ p) : (h.write p o).deref r = h.deref r := by
  simp [Heap.deref, Heap.write, List.getElem?_set, Ne.symm hr]

theorem Heap.deref_alloc_new (h : Heap) (o : TemplateObject) :
    (h.alloc o).2.deref (h.alloc o).1 = some o := by
  simp [Heap.deref, Heap.alloc]

theorem Heap.deref_alloc_old (h : Heap) (o : TemplateObject) (r : TemplatePtr)
    (hr : r ≠ h.cells.length) : (h.alloc o).2.deref r = h.deref r := by
  unfold Heap.deref Heap.alloc
  rcases Nat.lt_or_ge r h.cells.length with hlt | hge
  · simp [List.getElem?_append_left hlt]
  · have hgt : h.cells.length < r := lt_of_le_of_ne hge (Ne.symm hr)
    have h1 : (h.cells ++ [some o]).get? r = none := by
      rw [List.get?_eq_none]
      simp
      omega
    have h2 : h.cells.get? r = none := List.get?_eq_none.mpr hge
    simp only [h1, h2]

theorem Heap.deref_fresh (h : Heap) : h.deref h.cells.length = none := by
  simp [Heap.deref]

/-- The run of `New_Override` on a live template. -/
theorem New_Override_live (s : LocomotorStore) (p : TemplatePtr) (o : TemplateObject)
    (hp : s.heap.deref p = some o) :
    s.New_Override (some p) = Except.ok (some s.heap.cells.length,
      ⟨((s.heap.alloc o).2.write p { o with m_next := some s.heap.cells.length }).write
        s.heap.cells.length { o with m_isAllocated := true }, s.m_locomotorTemplates⟩) ∧
    (((s.heap.alloc o).2.write p { o with m_next := some s.heap.cells.length }).write
        s.heap.cells.length { o with m_isAllocated := true }).deref s.heap.cells.length
      = some { o with m_isAllocated := true } ∧
    (((s.heap.alloc o).2.write p { o with m_next := some s.heap.cells.length }).write
        s.heap.cells.length { o with m_isAllocated := true }).deref p
      = some { o with m_next := some s.heap.cells.length } ∧
    (∀ r, r ≠ p → r ≠ s.heap.cells.length →
      (((s.heap.alloc o).2.write p { o with m_next := some s.heap.cells.length }).write
        s.heap.cells.length { o with m_isAllocated := true }).deref r = s.heap.deref r) := by
  have hlt := Heap.deref_lt s.heap p o hp
  have hne : p ≠ s.heap.cells.length := Nat.ne_of_lt hlt
  have hp1 : (s.heap.alloc o).2.deref p = some o := by
    rw [Heap.deref_alloc_old _ _ _ hne, hp]
  have hlen1 : p < (s.heap.alloc o).2.cells.length := Heap.deref_lt _ _ _ hp1
  have hnew : (s.heap.alloc o).2.deref s.heap.cells.length = some o := Heap.deref_alloc_new _ _
  have hq1 : ((s.heap.alloc o).2.write p { o with m_next := some s.heap.cells.length }).deref
      s.heap.cells.length = some o := by
    rw [Heap.deref_write_other _ _ _ _ (Ne.symm hne)]
    exact hnew
  have hqlt := Heap.deref_lt _ _ _ hq1
  refine ⟨?_, Heap.deref_write_same _ _ _ hqlt, ?_, ?_⟩
  · have ha : (s.heap.alloc o).1 = s.heap.cells.length := rfl
    simp only [LocomotorStore.New_Override, hp, Set_Next, hp1, Set_Is_Allocated, ha, hq1]
  · rw [Heap.deref_write_other _ _ _ _ hne]
    exact Heap.deref_write_same _ _ _ hlen1
  · intro r hrp hrq
    rw [Heap.deref_write_other _ _ _ _ hrq, Heap.deref_write_other _ _ _ _ hrp,
      Heap.deref_alloc_old _ _ _ hrq]

/-- C12: `New_Override` given a null template returns null and leaves the store as
it was; given a live template `T` it returns a pointer to a new object that holds
`T` with the allocated mark set (so the configuration fields are those of `T`),
makes it the next override of `T`, leaves every other object as it was, and
leaves the registry as it was. -/
theorem C12_New_Override (s : LocomotorStore) :
    s.New_Override none = Except.ok (none, s) ∧
    ∀ (p : TemplatePtr) (o : TemplateObject), s.heap.deref p = some o →
      ∃ (q : TemplatePtr) (s1 : LocomotorStore) (copy : TemplateObject),
        s.New_Override (some p) = Except.ok (some q, s1) ∧
        s.heap.deref q = none ∧ q ≠ p ∧
        s1.heap.deref q = some copy ∧
        copy.cfg = o.cfg ∧ copy.m_isAllocated = true ∧
        s1.heap.deref p = some { o with m_next := some q } ∧
        (∀ r, r ≠ p → r ≠ q → s1.heap.deref r = s.heap.deref r) ∧
        s1.m_locomotorTemplates = s.m_locomotorTemplates := by
  refine ⟨rfl, ?_⟩
  intro p o hp
  obtain ⟨hrun, hq, hpd, hothers⟩ := New_Override_live s p o hp
  have hlt := Heap.deref_lt s.heap p o hp
  exact ⟨s.heap.cells.length, _, { o with m_isAllocated := true }, hrun, Heap.deref_fresh _,
    Ne.symm (Nat.ne_of_lt hlt), hq, rfl, rfl, hpd, hothers, rfl⟩

/-- C12 witness: on the store with the baseline template at pointer 0, the override
is the new object at pointer 1, allocated, with the fields of the baseline, linked
as its next override; the registry still maps key 5 to pointer 0. -/
theorem C12_New_Override_witness :
    storeBase.heap.deref 0 = some objectWheels ∧
    ∃ (q : TemplatePtr) (s1 : LocomotorStore) (copy : TemplateObject),
      storeBase.New_Override (some 0) = Except.ok (some q, s1) ∧
      storeBase.heap.deref q = none ∧ q ≠ 0 ∧
      s1.heap.deref q = some copy ∧
      copy.cfg = objectWheels.cfg ∧ copy.m_isAllocated = true ∧
      s1.heap.deref 0 = some { objectWheels with m_next := some q } ∧
      (∀ r, r ≠ 0 → r ≠ q → s1.heap.deref r = storeBase.heap.deref r) ∧
      s1.m_locomotorTemplates = storeBase.m_locomotorTemplates :=
  ⟨rfl, (C12_New_Override storeBase).2 0 objectWheels rfl⟩

/-- Every run of `Reset` that completes leaves the registry as it was: the loop has
no way to go on after an `erase`. -/
theorem resetLoop_registry (entries : List (NameKeyType × TemplatePtr)) :
    ∀ (s s1 : LocomotorStore), resetLoop s entries = Except.ok s1 →
      s1.m_locomotorTemplates = s.m_locomotorTemplates := by
  induction entries with
  | nil =>
    intro s s1 h
    simp only [resetLoop, Except.ok.injEq] at h
    rw [← h]
  | cons e rest ih =>
    intro s s1 h
    obtain ⟨k, t⟩ := e
    simp only [resetLoop] at h
    split at h
    · exact absurd h (by simp)
    · exact absurd h (by simp)
    · have hrest := ih _ _ h
      exact hrest

/-- C11, evaluated.  On the store that holds the baseline template alone, the
override followed by `Reset` completes and the lookup of key 5 returns the same
pointer 0, whose object is the baseline again with no override.  On the store that
also holds an allocated template under key 3, the same two calls do not complete:
`Reset` erases the entry of key 3 and then tests the iterator it has just
invalidated. -/
theorem C11_round_trip_evaluated :
    (∃ s1 s2, storeBase.New_Override (some 0) = Except.ok (some 1, s1) ∧
      s1.Reset = Except.ok s2 ∧
      s2.Find_Locomotor_Template 5 = some 0 ∧ s2.heap.deref 0 = some objectWheels) ∧
    storeWithMod.Find_Locomotor_Template 5 = some 1 ∧
    storeWithMod.heap.deref 1 = some objectWheels ∧
    (∃ s1, storeWithMod.New_Override (some 1) = Except.ok (some 2, s1) ∧
      s1.Reset = Except.error Fault.invalidated_iterator) :=
  ⟨⟨_, _, rfl, rfl, rfl, rfl⟩, rfl, rfl, ⟨_, rfl, rfl⟩⟩

/-- C13, evaluated.  The parse entry point, loading overrides, registers a new
allocated template under key 3; on that store `Delete_Overrides` of the template
returns null, and `Reset` does not complete: it erases the entry and then tests the
iterator it has just invalidated. -/
theorem C13_Reset_evaluated :
    (Parse_Locomotor_Template_Definition iniMod globalsEmpty ()).thrown = none ∧
    (Parse_Locomotor_Template_Definition iniMod globalsEmpty ()).globals.g_theLocomotorStore
      = some storeOnlyMod.m_locomotorTemplates ∧
    (Parse_Locomotor_Template_Definition iniMod globalsEmpty ()).globals.pool.deref 0
      = storeOnlyMod.heap.deref 0 ∧
    storeOnlyMod.m_locomotorTemplates = [(3, 0)] ∧
    (∃ h, Delete_Overrides storeOnlyMod.heap storeOnlyMod.chainFuel 0 = Except.ok (none, h)) ∧
    storeOnlyMod.Reset = Except.error Fault.invalidated_iterator :=
  ⟨rfl, rfl, rfl, rfl, ⟨_, rfl⟩, rfl⟩

/-- C14: with no global store the parse entry point throws `CODE_06`, having made
no call on the reader or on a template: the reader, the pool of templates and the
(absent) store are as they were. -/
theorem C14_parse_without_store {I : Type} (ops : IniOps I) (g : Globals) (ini : I)
    (hnone : g.g_theLocomotorStore = none) :
    (Parse_Locomotor_Template_Definition ops g ini).thrown = some Thrown.CODE_06 ∧
    (Parse_Locomotor_Template_Definition ops g ini).calls = [] ∧
    (Parse_Locomotor_Template_Definition ops g ini).ini = ini ∧
    (Parse_Locomotor_Template_Definition ops g ini).globals = g := by
  unfold Parse_Locomotor_Template_Definition
  rw [hnone]
  exact ⟨rfl, rfl, rfl, rfl⟩

/-- C14 witness: the reader of the Mod definition with no store throws `CODE_06`
and reads nothing; with the empty store the same reader returns normally. -/
theorem C14_parse_without_store_witness :
    (Parse_Locomotor_Template_Definition iniMod globalsNoStore ()).thrown = some Thrown.CODE_06 ∧
    (Parse_Locomotor_Template_Definition iniMod globalsNoStore ()).calls = [] ∧
    (Parse_Locomotor_Template_Definition iniMod globalsEmpty ()).thrown = none :=
  ⟨(C14_parse_without_store iniMod globalsNoStore () rfl).1,
    (C14_parse_without_store iniMod globalsNoStore () rfl).2.1, rfl⟩

/-! ## C15: copying a Locomotor -/

/-- C15 counterexample: the source holds station at (1, 2, 3) with
MAINTAIN_POS_IS_VALID set; its copy and the destination of its assignment both
have the flag set, and a destination that had the same maintain point keeps it. -/
theorem C15_counterexample_flag_copied :
    locoHolding.Get_Flag LocoFlag.MAINTAIN_POS_IS_VALID = true ∧
    (locoHolding.copy 0).Get_Flag LocoFlag.MAINTAIN_POS_IS_VALID = true ∧
    (locoWheels.assign locoHolding).Get_Flag LocoFlag.MAINTAIN_POS_IS_VALID = true ∧
    (locoHolding.assign locoHolding).m_maintainPos = locoHolding.m_maintainPos :=
  ⟨rfl, rfl, rfl, rfl⟩

/-- C15 amended: the copy constructor and the assignment give the destination the
template reference, the instance caps, the close-enough distance, the preferred
height and its damping, and the whole flag word of the source, so
MAINTAIN_POS_IS_VALID is set in the copy exactly when it is in the source; the
maintain point is not copied: the copy constructor zeroes it and the assignment
leaves the one the destination had. -/
theorem C15_copy_and_assign (that self : Locomotor) (moveFrame : Nat) :
    ((that.copy moveFrame).m_template = that.m_template ∧
      (that.copy moveFrame).m_brakingFactor = that.m_brakingFactor ∧
      (that.copy moveFrame).m_maxLift = that.m_maxLift ∧
      (that.copy moveFrame).m_maxSpeed = that.m_maxSpeed ∧
      (that.copy moveFrame).m_maxAccel = that.m_maxAccel ∧
      (that.copy moveFrame).m_maxBraking = that.m_maxBraking ∧
      (that.copy moveFrame).m_maxTurnRate = that.m_maxTurnRate ∧
      (that.copy moveFrame).m_closeEnoughDist = that.m_closeEnoughDist ∧
      (that.copy moveFrame).m_preferredHeight = that.m_preferredHeight ∧
      (that.copy moveFrame).m_preferredHeightDamping = that.m_preferredHeightDamping ∧
      (∀ f, (that.copy moveFrame).Get_Flag f = that.Get_Flag f) ∧
      (that.copy moveFrame).m_maintainPos = Coord3D.Zero) ∧
    ((self.assign that).m_template = that.m_template ∧
      (self.assign that).m_brakingFactor = that.m_brakingFactor ∧
      (self.assign that).m_maxLift = that.m_maxLift ∧
      (self.assign that).m_maxSpeed = that.m_maxSpeed ∧
      (self.assign that).m_maxAccel = that.m_maxAccel ∧
      (self.assign that).m_maxBraking = that.m_maxBraking ∧
      (self.assign that).m_maxTurnRate = that.m_maxTurnRate ∧
      (self.assign that).m_closeEnoughDist = that.m_closeEnoughDist ∧
      (self.assign that).m_preferredHeight = that.m_preferredHeight ∧
      (self.assign that).m_preferredHeightDamping = that.m_preferredHeightDamping ∧
      (∀ f, (self.assign that).Get_Flag f = that.Get_Flag f) ∧
      (self.assign that).m_maintainPos = self.m_maintainPos) :=
  ⟨⟨rfl, rfl, rfl, rfl, rfl, rfl, rfl, rfl, rfl, rfl, fun _ => rfl, rfl⟩,
    ⟨rfl, rfl, rfl, rfl, rfl, rfl, rfl, rfl, rfl, rfl, fun _ => rfl, rfl⟩⟩

/-! ## C16 to C20: the paths of Loco_Update_Move_Towards_Position -/

/-- The update with no physics body or a stunned one. -/
theorem Loco_Update_skipped {W : Type} (env : Env W) (shim : Shim W) (g : GlobalData)
    (self : Locomotor) (obj : W) (goal_pos : Coord3D) (on_path_dist_to_goal desired_speed : ℚ)
    (blocked : Bool) (h : env.Get_Physics obj = false ∨ env.Get_Stunned obj = true) :
    Loco_Update_Move_Towards_Position env shim g self obj goal_pos on_path_dist_to_goal
        desired_speed blocked
      = { loco := entryLoco env g self obj on_path_dist_to_goal, world := obj, blocked := blocked,
          calls := if env.Get_Physics obj = false then [Call.dbgassert_no_physics] else [] } := by
  unfold Loco_Update_Move_Towards_Position
  rcases h with h | h
  · simp [h]
  · cases hp : env.Get_Physics obj <;> simp [h]

/-- The update on a call that the gate stops. -/
theorem Loco_Update_stopped {W : Type} (env : Env W) (shim : Shim W) (g : GlobalData)
    (self : Locomotor) (obj : W) (goal_pos : Coord3D) (on_path_dist_to_goal desired_speed : ℚ)
    (blocked : Bool) (hphys : env.Get_Physics obj = true) (hstun : env.Get_Stunned obj = false)
    (hpass : (gateOf env shim g self obj on_path_dist_to_goal).pass = false) :
    Loco_Update_Move_Towards_Position env shim g self obj goal_pos on_path_dist_to_goal
        desired_speed blocked
      = { loco := (gateOf env shim g self obj on_path_dist_to_goal).loco
          world := (gateOf env shim g self obj on_path_dist_to_goal).world
          blocked := blocked
          calls := (gateOf env shim g self obj on_path_dist_to_goal).calls } := by
  unfold gateOf at hpass ⊢
  unfold Loco_Update_Move_Towards_Position
  simp only [hphys, hstun, hpass, Bool.not_true, Bool.not_false, if_true, Bool.false_eq_true,
    if_false]

/-- The update on a call that gets through the gate and is still blocked at line
604. -/
theorem Loco_Update_blocked_path {W : Type} (env : Env W) (shim : Shim W) (g : GlobalData)
    (self : Locomotor) (obj : W) (goal_pos : Coord3D) (on_path_dist_to_goal desired_speed : ℚ)
    (blocked : Bool) (hphys : env.Get_Physics obj = true) (hstun : env.Get_Stunned obj = false)
    (hpass : (gateOf env shim g self obj on_path_dist_to_goal).pass = true)
    (hsb : stillBlocked env shim g self obj goal_pos on_path_dist_to_goal desired_speed blocked
      = true) :
    Loco_Update_Move_Towards_Position env shim g self obj goal_pos on_path_dist_to_goal
        desired_speed blocked
      = { blockedBranch env shim g
            (brakeOnCut env (gateOf env shim g self obj on_path_dist_to_goal).loco
              (gateOf env shim g self obj on_path_dist_to_goal).world goal_pos on_path_dist_to_goal)
            (worldAfterForce env shim g self obj on_path_dist_to_goal) goal_pos
            (desiredOf env g self obj desired_speed) with
          calls := (gateOf env shim g self obj on_path_dist_to_goal).calls ++
            Call.Apply_Motive_Force Coord3D.Zero ::
            (blockedBranch env shim g
              (brakeOnCut env (gateOf env shim g self obj on_path_dist_to_goal).loco
                (gateOf env shim g self obj on_path_dist_to_goal).world goal_pos
                on_path_dist_to_goal)
              (worldAfterForce env shim g self obj on_path_dist_to_goal) goal_pos
              (desiredOf env g self obj desired_speed)).calls } := by
  unfold stillBlocked at hsb
  unfold worldAfterForce desiredOf at hsb ⊢
  unfold gateOf at hpass hsb ⊢
  rw [Loco_Update_proceeds env shim g self obj goal_pos on_path_dist_to_goal desired_speed
    blocked hphys hstun hpass]
  unfold moveBody
  simp only [hsb, if_true]

/-- The update on a call that gets through the gate and is not blocked at line 604. -/
theorem Loco_Update_unblocked_path {W : Type} (env : Env W) (shim : Shim W) (g : GlobalData)
    (self : Locomotor) (obj : W) (goal_pos : Coord3D) (on_path_dist_to_goal desired_speed : ℚ)
    (blocked : Bool) (hphys : env.Get_Physics obj = true) (hstun : env.Get_Stunned obj = false)
    (hpass : (gateOf env shim g self obj on_path_dist_to_goal).pass = true)
    (hsb : stillBlocked env shim g self obj goal_pos on_path_dist_to_goal desired_speed blocked
      = false) :
    Loco_Update_Move_Towards_Position env shim g self obj goal_pos on_path_dist_to_goal
        desired_speed blocked
      = { unblockedBranch env shim
            (brakeOnCut env (gateOf env shim g self obj on_path_dist_to_goal).loco
              (gateOf env shim g self obj on_path_dist_to_goal).world goal_pos on_path_dist_to_goal)
            (worldAfterForce env shim g self obj on_path_dist_to_goal) goal_pos
            (goalDelta env (gateOf env shim g self obj on_path_dist_to_goal).world goal_pos)
            (pathDist2D env (gateOf env shim g self obj on_path_dist_to_goal).world goal_pos)
            (targetDist env (gateOf env shim g self obj on_path_dist_to_goal).world goal_pos
              on_path_dist_to_goal)
            (desiredOf env g self obj desired_speed)
            (isAirborne env g (gateOf env shim g self obj on_path_dist_to_goal).world) with
          calls := (gateOf env shim g self obj on_path_dist_to_goal).calls ++
            Call.Apply_Motive_Force Coord3D.Zero ::
            (unblockedBranch env shim
              (brakeOnCut env (gateOf env shim g self obj on_path_dist_to_goal).loco
                (gateOf env shim g self obj on_path_dist_to_goal).world goal_pos
                on_path_dist_to_goal)
              (worldAfterForce env shim g self obj on_path_dist_to_goal) goal_pos
              (goalDelta env (gateOf env shim g self obj on_path_dist_to_goal).world goal_pos)
              (pathDist2D env (gateOf env shim g self obj on_path_dist_to_goal).world goal_pos)
              (targetDist env (gateOf env shim g self obj on_path_dist_to_goal).world goal_pos
                on_path_dist_to_goal)
              (desiredOf env g self obj desired_speed)
              (isAirborne env g (gateOf env shim g self obj on_path_dist_to_goal).world)).calls } := by
  unfold stillBlocked at hsb
  unfold worldAfterForce desiredOf at hsb ⊢
  unfold gateOf at hpass hsb ⊢
  rw [Loco_Update_proceeds env shim g self obj goal_pos on_path_dist_to_goal desired_speed
    blocked hphys hstun hpass]
  unfold moveBody
  simp only [hsb, Bool.false_eq_true, if_false]

/-- The unblocked branch is `unblockedMove`, followed by the position correction when
the status bit IS_BRAKING was set on entry of the branch. -/
theorem unblockedBranch_eq {W : Type} (env : Env W) (shim : Shim W) (self : Locomotor) (obj : W)
    (goal_pos delta : Coord3D) (pd dist speed : ℚ) (air : Bool) :
    unblockedBranch env shim self obj goal_pos delta pd dist speed air
      = if env.Test_Status ObjectStatus.OBJECT_STATUS_IS_BRAKING obj = true then
          { loco := (unblockedMove env shim self obj goal_pos dist speed air).loco
            world := (positionCorrection env delta pd
              (unblockedMove env shim self obj goal_pos dist speed air).world).1
            blocked := false
            calls := (unblockedMove env shim self obj goal_pos dist speed air).calls ++
              (positionCorrection env delta pd
                (unblockedMove env shim self obj goal_pos dist speed air).world).2 }
        else unblockedMove env shim self obj goal_pos dist speed air := by
  unfold unblockedBranch unblockedMove
  by_cases hb : env.Test_Status ObjectStatus.OBJECT_STATUS_IS_BRAKING obj = true
  · simp only [hb, if_true, List.cons_append, List.append_assoc, List.nil_append]
  · simp only [hb, Bool.false_eq_true, if_false]

/-- The blocked branch: its flag, and its calls, which hold the velocity scrub, the
pivot rotation when the wander width factor is zero, and the vertical policy. -/
theorem blockedBranch_result {W : Type} (env : Env W) (shim : Shim W) (g : GlobalData)
    (self : Locomotor) (obj : W) (goal_pos : Coord3D) (sp : ℚ) :
    (self.m_template.m_wanderWidthFactor = 0 →
      (blockedBranch env shim g self obj goal_pos sp).blocked
        = decide ((shim.Rotate_Obj_Around_Loco_Pivot goal_pos
            (self.Get_Max_Turn_Rate g (env.Get_Damage_State (env.Scrub_Velocity_2D sp obj)))
            (self, env.Scrub_Velocity_2D sp obj)).1 ≠ PhysicsTurningType.TURN_NONE) ∧
      (blockedBranch env shim g self obj goal_pos sp).calls
        = [Call.Scrub_Velocity_2D sp,
           Call.Rotate_Obj_Around_Loco_Pivot goal_pos
             (self.Get_Max_Turn_Rate g (env.Get_Damage_State (env.Scrub_Velocity_2D sp obj))),
           Call.Handle_Behavior_Z goal_pos]) ∧
    (self.m_template.m_wanderWidthFactor ≠ 0 →
      (blockedBranch env shim g self obj goal_pos sp).blocked = true ∧
      (blockedBranch env shim g self obj goal_pos sp).calls
        = [Call.Scrub_Velocity_2D sp, Call.Handle_Behavior_Z goal_pos]) := by
  unfold blockedBranch
  constructor
  · intro h
    simp only [h, if_true, and_self]
  · intro h
    simp only [h, if_false, and_self]



theorem reevalBlocked_eq {W : Type} (env : Env W) (self : Locomotor) (obj : W) (air : Bool)
    (sp : ℚ) (blocked : Bool) :
    reevalBlocked env self obj air sp blocked
      = (blocked && !decide (env.Get_Velocity_Magnitude obj < sp) &&
          !(air && decide ((self.m_template.m_surfaces &&& LOCOMOTOR_SURFACE_AIR) ≠ 0))) := by
  unfold reevalBlocked
  cases blocked <;> cases air <;> simp
  exact Bool.and_comm _ _

/-- The blocked branch: the state it leaves. -/
theorem blockedBranch_state {W : Type} (env : Env W) (shim : Shim W) (g : GlobalData)
    (self : Locomotor) (obj : W) (goal_pos : Coord3D) (sp : ℚ) :
    (self.m_template.m_wanderWidthFactor = 0 →
      (blockedBranch env shim g self obj goal_pos sp).loco
        = (shim.Handle_Behavior_Z goal_pos (shim.Rotate_Obj_Around_Loco_Pivot goal_pos
            (self.Get_Max_Turn_Rate g (env.Get_Damage_State (env.Scrub_Velocity_2D sp obj)))
            (self, env.Scrub_Velocity_2D sp obj)).2).1 ∧
      (blockedBranch env shim g self obj goal_pos sp).world
        = (shim.Handle_Behavior_Z goal_pos (shim.Rotate_Obj_Around_Loco_Pivot goal_pos
            (self.Get_Max_Turn_Rate g (env.Get_Damage_State (env.Scrub_Velocity_2D sp obj)))
            (self, env.Scrub_Velocity_2D sp obj)).2).2) ∧
    (self.m_template.m_wanderWidthFactor ≠ 0 →
      (blockedBranch env shim g self obj goal_pos sp).loco
        = (shim.Handle_Behavior_Z goal_pos (self, env.Scrub_Velocity_2D sp obj)).1 ∧
      (blockedBranch env shim g self obj goal_pos sp).world
        = (shim.Handle_Behavior_Z goal_pos (self, env.Scrub_Velocity_2D sp obj)).2) := by
  unfold blockedBranch
  constructor
  · intro h
    simp only [h, if_true, and_self]
  · intro h
    simp only [h, if_false, and_self]

/-- The local `isairbone` written out. -/
theorem isAirborne_eq {W : Type} (env : Env W) (g : GlobalData) (obj : W) :
    isAirborne env g obj
      = decide (f32 (-9 * g.m_gravity) <
          if env.Test_Status ObjectStatus.OBJECT_STATUS_DECK_HEIGHT_OFFSET obj = true then
            f32 (f32 ((env.Get_Position obj).z
                - env.Get_Layer_Height (env.Get_Position obj).x (env.Get_Position obj).y obj)
              - env.Get_Carrier_Deck_Height obj)
          else
            f32 ((env.Get_Position obj).z
              - env.Get_Layer_Height (env.Get_Position obj).x (env.Get_Position obj).y obj)) := by
  rfl

/-- C16: a flag that is false on entry is false on exit, for every input.  On a call
that proceeds, with `gate` the state the position gate left, `desired` the desired
speed clamped to the effective max speed, and `airborne` the test that the height
of the object above the terrain (less the carrier deck height when the status bit
DECK_HEIGHT_OFFSET is set) exceeds `-9 * gravity`: the flag tested at line 604 is
`still`, the entry flag cleared when the velocity magnitude is below `desired` or
when the object is airborne and the template has the AIR surface.  If `still` is
false the flag returned is false.  If it is true the calls after the gate are the
motive force reset, the 2D velocity scrub toward `desired`, the pivot rotation at
the effective turn rate when the wander width factor is zero, and the vertical
policy, with no motion strategy; the state returned is the one these methods
make of the locomotor `L` and the scrubbed world `w1`; the flag returned is
whether the rotation reports a turn other than `TURN_NONE` when the factor is
zero, and true when it is not. -/
theorem C16_blocked_flag {W : Type} (env : Env W) (shim : Shim W) (g : GlobalData)
    (self : Locomotor) (obj : W) (goal_pos : Coord3D) (on_path_dist_to_goal desired_speed : ℚ)
    (blocked : Bool)
    (gate : GateResult W) (hgate : gate = gateOf env shim g self obj on_path_dist_to_goal)
    (desired : ℚ)
    (hdesired : desired
      = min desired_speed (self.Get_Max_Speed_For_Condition g (env.Get_Damage_State obj)))
    (airborne : Bool)
    (hairborne : airborne
      = decide (f32 (-9 * g.m_gravity) <
          if env.Test_Status ObjectStatus.OBJECT_STATUS_DECK_HEIGHT_OFFSET gate.world = true then
            f32 (f32 ((env.Get_Position gate.world).z
                - env.Get_Layer_Height (env.Get_Position gate.world).x
                    (env.Get_Position gate.world).y gate.world)
              - env.Get_Carrier_Deck_Height gate.world)
          else
            f32 ((env.Get_Position gate.world).z
              - env.Get_Layer_Height (env.Get_Position gate.world).x
                  (env.Get_Position gate.world).y gate.world)))
    (still : Bool)
    (hstill : still
      = (blocked &&
          !decide (env.Get_Velocity_Magnitude (env.Apply_Motive_Force Coord3D.Zero gate.world)
            < desired) &&
          !(airborne &&
            decide ((gate.loco.m_template.m_surfaces &&& LOCOMOTOR_SURFACE_AIR) ≠ 0))))
    (w1 : W)
    (hw1 : w1 = env.Scrub_Velocity_2D desired (env.Apply_Motive_Force Coord3D.Zero gate.world))
    (L : Locomotor)
    (hL : L = brakeOnCut env gate.loco gate.world goal_pos on_path_dist_to_goal)
    (turn : ℚ) (hturn : turn = L.Get_Max_Turn_Rate g (env.Get_Damage_State w1)) :
    (blocked = false →
      (Loco_Update_Move_Towards_Position env shim g self obj goal_pos on_path_dist_to_goal
        desired_speed blocked).blocked = false) ∧
    (env.Get_Physics obj = true → env.Get_Stunned obj = false → gate.pass = true →
      (still = false →
        (Loco_Update_Move_Towards_Position env shim g self obj goal_pos on_path_dist_to_goal
          desired_speed blocked).blocked = false) ∧
      (still = true → gate.loco.m_template.m_wanderWidthFactor = 0 →
        (Loco_Update_Move_Towards_Position env shim g self obj goal_pos on_path_dist_to_goal
            desired_speed blocked).blocked
          = decide ((shim.Rotate_Obj_Around_Loco_Pivot goal_pos turn (L, w1)).1
              ≠ PhysicsTurningType.TURN_NONE) ∧
        (Loco_Update_Move_Towards_Position env shim g self obj goal_pos on_path_dist_to_goal
            desired_speed blocked).loco
          = (shim.Handle_Behavior_Z goal_pos
              (shim.Rotate_Obj_Around_Loco_Pivot goal_pos turn (L, w1)).2).1 ∧
        (Loco_Update_Move_Towards_Position env shim g self obj goal_pos on_path_dist_to_goal
            desired_speed blocked).world
          = (shim.Handle_Behavior_Z goal_pos
              (shim.Rotate_Obj_Around_Loco_Pivot goal_pos turn (L, w1)).2).2 ∧
        (Loco_Update_Move_Towards_Position env shim g self obj goal_pos on_path_dist_to_goal
            desired_speed blocked).calls
          = gate.calls ++
            [Call.Apply_Motive_Force Coord3D.Zero, Call.Scrub_Velocity_2D desired,
             Call.Rotate_Obj_Around_Loco_Pivot goal_pos turn, Call.Handle_Behavior_Z goal_pos]) ∧
      (still = true → gate.loco.m_template.m_wanderWidthFactor ≠ 0 →
        (Loco_Update_Move_Towards_Position env shim g self obj goal_pos on_path_dist_to_goal
            desired_speed blocked).blocked = true ∧
        (Loco_Update_Move_Towards_Position env shim g self obj goal_pos on_path_dist_to_goal
            desired_speed blocked).loco = (shim.Handle_Behavior_Z goal_pos (L, w1)).1 ∧
        (Loco_Update_Move_Towards_Position env shim g self obj goal_pos on_path_dist_to_goal
            desired_speed blocked).world = (shim.Handle_Behavior_Z goal_pos (L, w1)).2 ∧
        (Loco_Update_Move_Towards_Position env shim g self obj goal_pos on_path_dist_to_goal
            desired_speed blocked).calls
          = gate.calls ++
            [Call.Apply_Motive_Force Coord3D.Zero, Call.Scrub_Velocity_2D desired,
             Call.Handle_Behavior_Z goal_pos])) := by
  have hd : desired = desiredOf env g self obj desired_speed := by
    rw [hdesired]
    unfold desiredOf
    rw [clampDesiredSpeed_eq_min]
  have ha : airborne = isAirborne env g (gateOf env shim g self obj on_path_dist_to_goal).world := by
    rw [hairborne, hgate, isAirborne_eq]
  have hsbeq : stillBlocked env shim g self obj goal_pos on_path_dist_to_goal desired_speed blocked
      = still := by
    rw [hstill, hd, ha, hgate]
    unfold stillBlocked
    rw [reevalBlocked_eq, brakeOnCut_template]
    rfl
  have hwf : w1 = env.Scrub_Velocity_2D (desiredOf env g self obj desired_speed)
      (worldAfterForce env shim g self obj on_path_dist_to_goal) := by
    rw [hw1, hd, hgate]
    rfl
  subst hgate
  rw [hd]
  have hproceed : env.Get_Physics obj = true → env.Get_Stunned obj = false →
      (gateOf env shim g self obj on_path_dist_to_goal).pass = true →
      still = false →
      (Loco_Update_Move_Towards_Position env shim g self obj goal_pos on_path_dist_to_goal
        desired_speed blocked).blocked = false := by
    intro hphys hstun hpass hsb
    rw [Loco_Update_unblocked_path env shim g self obj goal_pos on_path_dist_to_goal desired_speed
      blocked hphys hstun hpass (hsbeq.trans hsb)]
    rfl
  refine ⟨?_, ?_⟩
  · intro hb
    by_cases hphys : env.Get_Physics obj = true
    · by_cases hstun : env.Get_Stunned obj = false
      · by_cases hpass : (gateOf env shim g self obj on_path_dist_to_goal).pass = true
        · apply hproceed hphys hstun hpass
          rw [hstill, hb]
          rfl
        · rw [Loco_Update_stopped env shim g self obj goal_pos on_path_dist_to_goal desired_speed
            blocked hphys hstun (by simpa using hpass)]
          exact hb
      · rw [Loco_Update_skipped env shim g self obj goal_pos on_path_dist_to_goal desired_speed
          blocked (Or.inr (by simpa using hstun))]
        exact hb
    · rw [Loco_Update_skipped env shim g self obj goal_pos on_path_dist_to_goal desired_speed
        blocked (Or.inl (by simpa using hphys))]
      exact hb
  · intro hphys hstun hpass
    refine ⟨hproceed hphys hstun hpass, ?_, ?_⟩
    · intro hsb hw
      have hwz : (brakeOnCut env (gateOf env shim g self obj on_path_dist_to_goal).loco
          (gateOf env shim g self obj on_path_dist_to_goal).world goal_pos
          on_path_dist_to_goal).m_template.m_wanderWidthFactor = 0 := by
        rw [brakeOnCut_template]; exact hw
      obtain ⟨hbl, hcalls⟩ := (blockedBranch_result env shim g
        (brakeOnCut env (gateOf env shim g self obj on_path_dist_to_goal).loco
          (gateOf env shim g self obj on_path_dist_to_goal).world goal_pos on_path_dist_to_goal)
        (worldAfterForce env shim g self obj on_path_dist_to_goal) goal_pos
        (desiredOf env g self obj desired_speed)).1 hwz
      obtain ⟨hlo, hwo⟩ := (blockedBranch_state env shim g
        (brakeOnCut env (gateOf env shim g self obj on_path_dist_to_goal).loco
          (gateOf env shim g self obj on_path_dist_to_goal).world goal_pos on_path_dist_to_goal)
        (worldAfterForce env shim g self obj on_path_dist_to_goal) goal_pos
        (desiredOf env g self obj desired_speed)).1 hwz
      rw [Loco_Update_blocked_path env shim g self obj goal_pos on_path_dist_to_goal desired_speed
        blocked hphys hstun hpass (hsbeq.trans hsb)]
      rw [hturn, hL, hwf]
      refine ⟨hbl, hlo, hwo, ?_⟩
      show _ ++ Call.Apply_Motive_Force Coord3D.Zero :: (blockedBranch _ _ _ _ _ _ _).calls = _
      rw [hcalls]
    · intro hsb hw
      have hwz : (brakeOnCut env (gateOf env shim g self obj on_path_dist_to_goal).loco
          (gateOf env shim g self obj on_path_dist_to_goal).world goal_pos
          on_path_dist_to_goal).m_template.m_wanderWidthFactor ≠ 0 := by
        rw [brakeOnCut_template]; exact hw
      obtain ⟨hbl, hcalls⟩ := (blockedBranch_result env shim g
        (brakeOnCut env (gateOf env shim g self obj on_path_dist_to_goal).loco
          (gateOf env shim g self obj on_path_dist_to_goal).world goal_pos on_path_dist_to_goal)
        (worldAfterForce env shim g self obj on_path_dist_to_goal) goal_pos
        (desiredOf env g self obj desired_speed)).2 hwz
      obtain ⟨hlo, hwo⟩ := (blockedBranch_state env shim g
        (brakeOnCut env (gateOf env shim g self obj on_path_dist_to_goal).loco
          (gateOf env shim g self obj on_path_dist_to_goal).world goal_pos on_path_dist_to_goal)
        (worldAfterForce env shim g self obj on_path_dist_to_goal) goal_pos
        (desiredOf env g self obj desired_speed)).2 hwz
      rw [Loco_Update_blocked_path env shim g self obj goal_pos on_path_dist_to_goal desired_speed
        blocked hphys hstun hpass (hsbeq.trans hsb)]
      rw [hL, hwf]
      refine ⟨hbl, hlo, hwo, ?_⟩
      show _ ++ Call.Apply_Motive_Force Coord3D.Zero :: (blockedBranch _ _ _ _ _ _ _).calls = _
      rw [hcalls]

/-- C16 witness.  A wheels locomotor at (1, 2, 0), blocked on entry, moving at speed
20 above the desired speed 10, on the ground, wander width factor zero, with
shimmed methods that leave a mark: the flag is still set at line 604, the velocity
is scrubbed to 10, the rotation is called at rate 10 and reports a turn, so the
flag returned is true, and the world carries the marks of the rotation and of the
vertical policy after it.  The same object 20 above the terrain with a template
that has the AIR surface is airborne and the flag returned is false; standing on
a carrier deck of height 15 it is not airborne and the flag returned is true.
With wander width factor 1 the rotation is not called and the flag returned is
true. -/
theorem C16_blocked_flag_witness :
    (Loco_Update_Move_Towards_Position fineEnv shimMarking globalData2
      locoWheels worldAwayFast goalAway 2 10 true).blocked = true ∧
    (Loco_Update_Move_Towards_Position fineEnv shimMarking globalData2
      locoWheels worldAwayFast goalAway 2 10 true).world
      = { worldAwayFast with velocity := 10, motiveForce := { x := 10, y := 0, z := 150 } } ∧
    (Loco_Update_Move_Towards_Position fineEnv shimMarking globalData2
      locoWheels worldAwayFast goalAway 2 10 true).calls
      = [Call.Apply_Motive_Force Coord3D.Zero, Call.Scrub_Velocity_2D 10,
         Call.Rotate_Obj_Around_Loco_Pivot goalAway 10, Call.Handle_Behavior_Z goalAway] ∧
    isAirborne fineEnv globalData2 worldAloft = true ∧
    (Loco_Update_Move_Towards_Position fineEnv shimMarking globalData2
      locoAir worldAloft goalAway 2 10 true).blocked = false ∧
    isAirborne fineEnv globalData2 worldOnDeck = false ∧
    (Loco_Update_Move_Towards_Position fineEnv shimMarking globalData2
      locoAir worldOnDeck goalAway 2 10 true).blocked = true ∧
    (Loco_Update_Move_Towards_Position fineEnv shimMarking globalData2
      locoWander worldAwayFast goalAway 2 10 true).blocked = true ∧
    (Loco_Update_Move_Towards_Position fineEnv shimMarking globalData2
      locoWander worldAwayFast goalAway 2 10 true).world
      = { worldAwayFast with velocity := 10, motiveForce := { x := 0, y := 0, z := 100 } } ∧
    (Loco_Update_Move_Towards_Position fineEnv shimMarking globalData2
      locoWander worldAwayFast goalAway 2 10 true).calls
      = [Call.Apply_Motive_Force Coord3D.Zero, Call.Scrub_Velocity_2D 10,
         Call.Handle_Behavior_Z goalAway] := by
  have h1 := ((C16_blocked_flag fineEnv shimMarking globalData2 locoWheels worldAwayFast goalAway
    2 10 true _ rfl _ rfl _ rfl _ rfl _ rfl _ rfl _ rfl).2 rfl rfl (by decide!)).2.1
    (by decide!) (by decide!)
  have h2 := ((C16_blocked_flag fineEnv shimMarking globalData2 locoAir worldAloft goalAway
    2 10 true _ rfl _ rfl _ rfl _ rfl _ rfl _ rfl _ rfl).2 rfl rfl (by decide!)).1 (by decide!)
  have h3 := ((C16_blocked_flag fineEnv shimMarking globalData2 locoAir worldOnDeck goalAway
    2 10 true _ rfl _ rfl _ rfl _ rfl _ rfl _ rfl _ rfl).2 rfl rfl (by decide!)).2.1
    (by decide!) (by decide!)
  have h4 := ((C16_blocked_flag fineEnv shimMarking globalData2 locoWander worldAwayFast goalAway
    2 10 true _ rfl _ rfl _ rfl _ rfl _ rfl _ rfl _ rfl).2 rfl rfl (by decide!)).2.2
    (by decide!) (by decide!)
  exact ⟨h1.1.trans (by decide!), h1.2.2.1.trans (by decide!), h1.2.2.2.trans (by decide!),
    by decide!, h2, by decide!, h3.1.trans (by decide!), h4.1, h4.2.2.1.trans (by decide!),
    h4.2.2.2.trans (by decide!)⟩


/-- C19 counterexample: max speed 20, braking 15, on-path distance 6990507/524288
(the binary32 value nearest to 13.333334), on a stunned object.  The on-path
distance is greater than 10 and greater than `v * v / (2 * b) = 40/3`, yet the
call returns the flag IS_BRAKING set and the braking factor 1/2 as on entry: the
value computed at line 550 is 6990507/524288, which the on-path distance does
not exceed. -/
theorem C19_counterexample_rounded_quotient :
    locoStop.Get_Braking = 15 ∧
    locoStop.Get_Max_Speed_For_Condition globalData2 (simpleEnv.Get_Damage_State worldStunned)
      = 20 ∧
    (10 : ℚ) < 6990507 / 524288 ∧
    (20 : ℚ) * 20 / (2 * 15) < 6990507 / 524288 ∧
    locoStop.Get_Flag LocoFlag.IS_BRAKING = true ∧
    (Loco_Update_Move_Towards_Position simpleEnv (Shim.standalone SimpleWorld) globalData2
      locoStop worldStunned goalFar (6990507 / 524288) 10 false).loco.Get_Flag
        LocoFlag.IS_BRAKING = true ∧
    (Loco_Update_Move_Towards_Position simpleEnv (Shim.standalone SimpleWorld) globalData2
      locoStop worldStunned goalFar (6990507 / 524288) 10 false).loco.m_brakingFactor = 1 / 2 ∧
    stoppingDistance locoStop 20 = some (6990507 / 524288) ∧
    f32 (13333334 / 1000000) = 6990507 / 524288 := by
  decide!

/-- C19 amended: with `v` the effective max speed for the damage state of the
object and `b = Get_Braking() > 0`, the stopping distance computed at line 550 is
`dist`, the binary32 value of `v / b * v / 2` with each of its three operations
rounded to nearest; it differs from `v * v / (2 * b)` by at most the relative error
of three roundings and an underflow term.  If the on-path distance is greater
than 10 and greater than `dist`, the locomotor that reaches line 557 has
IS_BRAKING clear and braking factor 1, otherwise it has both as on entry; that
locomotor is the one returned by a call skipped for stun, and the one the
position gate starts from. -/
theorem C19_room_to_accelerate {W : Type} (env : Env W) (shim : Shim W) (g : GlobalData)
    (self : Locomotor) (obj : W) (goal_pos : Coord3D) (on_path_dist_to_goal desired_speed : ℚ)
    (blocked : Bool) (hb : 0 < self.Get_Braking)
    (v : ℚ) (hv : v = self.Get_Max_Speed_For_Condition g (env.Get_Damage_State obj))
    (dist : ℚ) (hdist : dist = f32 (f32 (f32 (v / self.Get_Braking) * v) / 2)) :
    stoppingDistance (self.Set_Flag LocoFlag.MAINTAIN_POS_IS_VALID false) v = some dist ∧
    |dist - v * v / (2 * self.Get_Braking)|
      ≤ ((1 + 1 / 2 ^ 24) ^ 3 - 1) * (v * v / (2 * self.Get_Braking))
        + 1 / 2 ^ 150 * (1 + (1 + 1 / 2 ^ 24) * (1 + (1 + 1 / 2 ^ 24) * |v|) / 2) ∧
    (10 < on_path_dist_to_goal ∧ dist < on_path_dist_to_goal →
      (entryLoco env g self obj on_path_dist_to_goal).Get_Flag LocoFlag.IS_BRAKING = false ∧
      (entryLoco env g self obj on_path_dist_to_goal).m_brakingFactor = 1) ∧
    (¬ (10 < on_path_dist_to_goal ∧ dist < on_path_dist_to_goal) →
      (entryLoco env g self obj on_path_dist_to_goal).Get_Flag LocoFlag.IS_BRAKING
        = self.Get_Flag LocoFlag.IS_BRAKING ∧
      (entryLoco env g self obj on_path_dist_to_goal).m_brakingFactor = self.m_brakingFactor) ∧
    (env.Get_Stunned obj = true →
      (Loco_Update_Move_Towards_Position env shim g self obj goal_pos on_path_dist_to_goal
        desired_speed blocked).loco = entryLoco env g self obj on_path_dist_to_goal) ∧
    gateOf env shim g self obj on_path_dist_to_goal
      = positionGate env shim (entryLoco env g self obj on_path_dist_to_goal) obj := by
  have hb0 : self.Get_Braking ≠ 0 := ne_of_gt hb
  have hbr : (self.Set_Flag LocoFlag.MAINTAIN_POS_IS_VALID false).Get_Braking = self.Get_Braking :=
    rfl
  have hsd : stoppingDistance (self.Set_Flag LocoFlag.MAINTAIN_POS_IS_VALID false) v
      = some dist := by
    unfold stoppingDistance
    rw [hbr, if_neg hb0, hdist]
  have hroom : roomToAccelerate (self.Set_Flag LocoFlag.MAINTAIN_POS_IS_VALID false)
        (self.Get_Max_Speed_For_Condition g (env.Get_Damage_State obj)) on_path_dist_to_goal
      = (decide (10 < on_path_dist_to_goal) && decide (dist < on_path_dist_to_goal)) := by
    unfold roomToAccelerate
    rw [← hv, hsd]
  have herr := stoppingValue_err v self.Get_Braking hb
  rw [← hdist] at herr
  refine ⟨hsd, herr, ?_, ?_, ?_, rfl⟩
  · intro hcond
    have htrue : (decide (10 < on_path_dist_to_goal) && decide (dist < on_path_dist_to_goal))
        = true := by
      rw [Bool.and_eq_true]
      exact ⟨decide_eq_true hcond.1, decide_eq_true hcond.2⟩
    have he : entryLoco env g self obj on_path_dist_to_goal
        = { ((self.Set_Flag LocoFlag.MAINTAIN_POS_IS_VALID false).Set_Flag LocoFlag.IS_BRAKING
              false) with m_brakingFactor := 1 } := by
      show (if roomToAccelerate (self.Set_Flag LocoFlag.MAINTAIN_POS_IS_VALID false)
          (self.Get_Max_Speed_For_Condition g (env.Get_Damage_State obj)) on_path_dist_to_goal
          = true then _ else _) = _
      rw [hroom, htrue, if_pos rfl]
    rw [he]
    exact ⟨rfl, rfl⟩
  · intro hcond
    have hfalse : (decide (10 < on_path_dist_to_goal) && decide (dist < on_path_dist_to_goal))
        = false := by
      rw [Bool.and_eq_false_iff]
      by_cases h1 : 10 < on_path_dist_to_goal
      · right
        exact decide_eq_false (fun h2 => hcond ⟨h1, h2⟩)
      · left
        exact decide_eq_false h1
    have he : entryLoco env g self obj on_path_dist_to_goal
        = self.Set_Flag LocoFlag.MAINTAIN_POS_IS_VALID false := by
      show (if roomToAccelerate (self.Set_Flag LocoFlag.MAINTAIN_POS_IS_VALID false)
          (self.Get_Max_Speed_For_Condition g (env.Get_Damage_State obj)) on_path_dist_to_goal
          = true then _ else _) = _
      rw [hroom, hfalse, if_neg (by simp)]
    rw [he]
    exact ⟨rfl, rfl⟩
  · intro hst
    rw [Loco_Update_skipped env shim g self obj goal_pos on_path_dist_to_goal desired_speed
      blocked (Or.inr hst)]

/-- C19 witness: the braking locomotor with max speed 20 and braking 15 on a
stunned object.  The stopping distance computed is 6990507/524288.  With on-path
distance 50 the flag is cleared and the factor is 1 in the locomotor returned;
with on-path distance 6990507/524288 itself both stay as on entry. -/
theorem C19_room_to_accelerate_witness :
    0 < locoStop.Get_Braking ∧
    stoppingDistance (locoStop.Set_Flag LocoFlag.MAINTAIN_POS_IS_VALID false) 20
      = some (6990507 / 524288) ∧
    locoStop.Get_Flag LocoFlag.IS_BRAKING = true ∧
    (Loco_Update_Move_Towards_Position simpleEnv (Shim.standalone SimpleWorld) globalData2
      locoStop worldStunned goalFar 50 10 false).loco.Get_Flag LocoFlag.IS_BRAKING = false ∧
    (Loco_Update_Move_Towards_Position simpleEnv (Shim.standalone SimpleWorld) globalData2
      locoStop worldStunned goalFar 50 10 false).loco.m_brakingFactor = 1 ∧
    (Loco_Update_Move_Towards_Position simpleEnv (Shim.standalone SimpleWorld) globalData2
      locoStop worldStunned goalFar (6990507 / 524288) 10 false).loco.Get_Flag
        LocoFlag.IS_BRAKING = true := by
  have h := C19_room_to_accelerate simpleEnv (Shim.standalone SimpleWorld) globalData2
    locoStop worldStunned goalFar 50 10 false (by decide!) 20 (by decide!) (6990507 / 524288)
    (by decide!)
  have h2 := C19_room_to_accelerate simpleEnv (Shim.standalone SimpleWorld) globalData2
    locoStop worldStunned goalFar (6990507 / 524288) 10 false (by decide!) 20 (by decide!)
    (6990507 / 524288) (by decide!)
  have hroom := h.2.2.1 (by decide!)
  have hkeep := h2.2.2.2.1 (by decide!)
  rw [h.2.2.2.2.1 rfl, h2.2.2.2.2.1 rfl]
  exact ⟨by decide!, h.1, rfl, hroom.1, hroom.2, hkeep.1⟩

theorem floor_eq_max (a c : ℚ) : (if a < c then c else a) = max a c := by
  split_ifs with h
  · exact (max_eq_right (le_of_lt h)).symm
  · exact (max_eq_left (not_lt.mp h)).symm

theorem cap_eq_min (m d : ℚ) : (if m > d then d else m) = min m d := by
  split_ifs with h
  · exact (min_eq_right (le_of_lt h)).symm
  · exact (min_eq_left (not_lt.mp h)).symm

/-- The corrected position of an object that is not a projectile, written out. -/
theorem correctedPos_ground {W : Type} (env : Env W) (delta : Coord3D) (pd : ℚ) (w : W)
    (hp : env.Is_KindOf_PROJECTILE w = false) :
    correctedPos env delta pd w
      = if f32 (1 / 1000) < pd then
          { x := f32 (f32 (f32 (delta.x * f32 (1 / pd))
                * min (max |env.Get_Forward_Speed_2D w| (f32 (1 / 30))) pd)
              + (env.Get_Position w).x)
            y := f32 (f32 (f32 (delta.y * f32 (1 / pd))
                * min (max |env.Get_Forward_Speed_2D w| (f32 (1 / 30))) pd)
              + (env.Get_Position w).y)
            z := (env.Get_Position w).z }
        else env.Get_Position w := by
  unfold correctedPos
  simp only [hp, Bool.false_eq_true, if_false]
  unfold correctedPosGround
  simp only [floor_eq_max, cap_eq_min, gt_iff_lt]

/-- The corrected position of a projectile, written out. -/
theorem correctedPos_projectile {W : Type} (env : Env W) (delta : Coord3D) (pd : ℚ) (w : W)
    (hp : env.Is_KindOf_PROJECTILE w = true) :
    correctedPos env delta pd w
      = if f32 (1 / 1000) < env.Sqrt (f32 (f32 (f32 (delta.x * delta.x) + f32 (delta.y * delta.y))
            + f32 (delta.z * delta.z))) then
          { x := f32 (f32 (f32 (delta.x * f32 (1 / env.Sqrt (f32 (f32 (f32 (delta.x * delta.x)
                  + f32 (delta.y * delta.y)) + f32 (delta.z * delta.z)))))
                * min (max (env.Get_Velocity_Magnitude
                    (env.Set_Status ObjectStatus.OBJECT_STATUS_IS_BRAKING true w)) (f32 (1 / 30)))
                  (env.Sqrt (f32 (f32 (f32 (delta.x * delta.x) + f32 (delta.y * delta.y))
                    + f32 (delta.z * delta.z)))))
              + (env.Get_Position w).x)
            y := f32 (f32 (f32 (delta.y * f32 (1 / env.Sqrt (f32 (f32 (f32 (delta.x * delta.x)
                  + f32 (delta.y * delta.y)) + f32 (delta.z * delta.z)))))
                * min (max (env.Get_Velocity_Magnitude
                    (env.Set_Status ObjectStatus.OBJECT_STATUS_IS_BRAKING true w)) (f32 (1 / 30)))
                  (env.Sqrt (f32 (f32 (f32 (delta.x * delta.x) + f32 (delta.y * delta.y))
                    + f32 (delta.z * delta.z)))))
              + (env.Get_Position w).y)
            z := f32 (f32 (f32 (delta.z * f32 (1 / env.Sqrt (f32 (f32 (f32 (delta.x * delta.x)
                  + f32 (delta.y * delta.y)) + f32 (delta.z * delta.z)))))
                * min (max (env.Get_Velocity_Magnitude
                    (env.Set_Status ObjectStatus.OBJECT_STATUS_IS_BRAKING true w)) (f32 (1 / 30)))
                  (env.Sqrt (f32 (f32 (f32 (delta.x * delta.x) + f32 (delta.y * delta.y))
                    + f32 (delta.z * delta.z)))))
              + (env.Get_Position w).z) }
        else env.Get_Position w := by
  unfold correctedPos
  simp only [hp, if_true]
  unfold correctedPosProjectile
  simp only [floor_eq_max, cap_eq_min, gt_iff_lt]

/-- The position correction: the world it returns, and its one position write. -/
theorem positionCorrection_eq {W : Type} (env : Env W) (delta : Coord3D) (pd : ℚ) (w : W) :
    (positionCorrection env delta pd w).1
      = env.Set_Position (correctedPos env delta pd w) (worldAtSetPosition env w) ∧
    ∀ p, Call.Set_Position p ∈ (positionCorrection env delta pd w).2 ↔
      p = correctedPos env delta pd w := by
  unfold positionCorrection correctedPos worldAtSetPosition
  by_cases hp : env.Is_KindOf_PROJECTILE w = true
  · simp only [hp, if_true, true_and]
    intro p
    simp
  · simp only [hp, Bool.false_eq_true, if_false, true_and]
    intro p
    simp

/-- No position write among the calls of the unblocked branch up to line 654. -/
theorem unblockedMove_no_Set_Position {W : Type} (env : Env W) (shim : Shim W) (self : Locomotor)
    (obj : W) (goal_pos : Coord3D) (dist speed : ℚ) (air : Bool) (p : Coord3D) :
    Call.Set_Position p ∉ (unblockedMove env shim self obj goal_pos dist speed air).calls := by
  unfold unblockedMove
  simp only []
  split_ifs <;> simp

/-- No position write among the calls of the blocked branch. -/
theorem blockedBranch_no_Set_Position {W : Type} (env : Env W) (shim : Shim W) (g : GlobalData)
    (self : Locomotor) (obj : W) (goal_pos : Coord3D) (sp : ℚ) (p : Coord3D) :
    Call.Set_Position p ∉ (blockedBranch env shim g self obj goal_pos sp).calls := by
  unfold blockedBranch
  simp only []
  split_ifs <;> simp

theorem reachesCorrection_iff {W : Type} (env : Env W) (shim : Shim W) (g : GlobalData)
    (self : Locomotor) (obj : W) (goal_pos : Coord3D) (on_path desired : ℚ) (blocked : Bool) :
    reachesCorrection env shim g self obj goal_pos on_path desired blocked = true ↔
      env.Get_Physics obj = true ∧ env.Get_Stunned obj = false ∧
      (gateOf env shim g self obj on_path).pass = true ∧
      stillBlocked env shim g self obj goal_pos on_path desired blocked = false ∧
      env.Test_Status ObjectStatus.OBJECT_STATUS_IS_BRAKING
        (worldAfterForce env shim g self obj on_path) = true := by
  unfold reachesCorrection
  simp [Bool.and_eq_true, and_assoc]

/-- The update on a call that reaches the position correction. -/
theorem Loco_Update_correcting {W : Type} (env : Env W) (shim : Shim W) (g : GlobalData)
    (self : Locomotor) (obj : W) (goal_pos : Coord3D) (on_path desired : ℚ) (blocked : Bool)
    (h : reachesCorrection env shim g self obj goal_pos on_path desired blocked = true) :
    Loco_Update_Move_Towards_Position env shim g self obj goal_pos on_path desired blocked
      = { loco := (stateBeforeCorrection env shim g self obj goal_pos on_path desired).loco
          world := (positionCorrection env
            (goalDelta env (gateOf env shim g self obj on_path).world goal_pos)
            (pathDist2D env (gateOf env shim g self obj on_path).world goal_pos)
            (stateBeforeCorrection env shim g self obj goal_pos on_path desired).world).1
          blocked := false
          calls := (gateOf env shim g self obj on_path).calls ++
            Call.Apply_Motive_Force Coord3D.Zero ::
            ((stateBeforeCorrection env shim g self obj goal_pos on_path desired).calls ++
              (positionCorrection env
                (goalDelta env (gateOf env shim g self obj on_path).world goal_pos)
                (pathDist2D env (gateOf env shim g self obj on_path).world goal_pos)
                (stateBeforeCorrection env shim g self obj goal_pos on_path desired).world).2) } := by
  obtain ⟨hphys, hstun, hpass, hsb, hbit⟩ :=
    (reachesCorrection_iff env shim g self obj goal_pos on_path desired blocked).mp h
  rw [Loco_Update_unblocked_path env shim g self obj goal_pos on_path desired blocked hphys hstun
    hpass hsb, unblockedBranch_eq, if_pos hbit]
  rfl

/-- The update on a call that is not blocked and whose status bit IS_BRAKING was
clear at line 618. -/
theorem Loco_Update_uncorrected {W : Type} (env : Env W) (shim : Shim W) (g : GlobalData)
    (self : Locomotor) (obj : W) (goal_pos : Coord3D) (on_path desired : ℚ) (blocked : Bool)
    (hphys : env.Get_Physics obj = true) (hstun : env.Get_Stunned obj = false)
    (hpass : (gateOf env shim g self obj on_path).pass = true)
    (hsb : stillBlocked env shim g self obj goal_pos on_path desired blocked = false)
    (hbit : env.Test_Status ObjectStatus.OBJECT_STATUS_IS_BRAKING
      (worldAfterForce env shim g self obj on_path) = false) :
    Loco_Update_Move_Towards_Position env shim g self obj goal_pos on_path desired blocked
      = { stateBeforeCorrection env shim g self obj goal_pos on_path desired with
          calls := (gateOf env shim g self obj on_path).calls ++
            Call.Apply_Motive_Force Coord3D.Zero ::
            (stateBeforeCorrection env shim g self obj goal_pos on_path desired).calls } := by
  rw [Loco_Update_unblocked_path env shim g self obj goal_pos on_path desired blocked hphys hstun
    hpass hsb, unblockedBranch_eq, if_neg (by simp [hbit])]
  rfl

/-- A position write is among the calls of the update only on a call that reaches
the position correction, and then its argument is the corrected position. -/
theorem Loco_Update_Set_Position {W : Type} (env : Env W) (shim : Shim W) (g : GlobalData)
    (self : Locomotor) (obj : W) (goal_pos : Coord3D) (on_path desired : ℚ) (blocked : Bool)
    (p : Coord3D)
    (hmem : Call.Set_Position p ∈
      (Loco_Update_Move_Towards_Position env shim g self obj goal_pos on_path desired blocked).calls) :
    reachesCorrection env shim g self obj goal_pos on_path desired blocked = true ∧
    p = correctedPos env (goalDelta env (gateOf env shim g self obj on_path).world goal_pos)
          (pathDist2D env (gateOf env shim g self obj on_path).world goal_pos)
          (stateBeforeCorrection env shim g self obj goal_pos on_path desired).world := by
  have hgc : ∀ c ∈ (gateOf env shim g self obj on_path).calls, c = Call.Fix_Invalid_Position :=
    positionGate_calls env shim _ obj
  have hng : Call.Set_Position p ∉ (gateOf env shim g self obj on_path).calls := by
    intro hc
    have := hgc _ hc
    simp at this
  cases hphys : env.Get_Physics obj
  · rw [Loco_Update_skipped env shim g self obj goal_pos on_path desired blocked (Or.inl hphys)]
      at hmem
    simp [hphys] at hmem
  · cases hstun : env.Get_Stunned obj
    · cases hpass : (gateOf env shim g self obj on_path).pass
      · rw [Loco_Update_stopped env shim g self obj goal_pos on_path desired blocked hphys hstun
          hpass] at hmem
        exact absurd hmem hng
      · cases hsb : stillBlocked env shim g self obj goal_pos on_path desired blocked
        · cases hbit : env.Test_Status ObjectStatus.OBJECT_STATUS_IS_BRAKING
            (worldAfterForce env shim g self obj on_path)
          · rw [Loco_Update_uncorrected env shim g self obj goal_pos on_path desired blocked
              hphys hstun hpass hsb hbit] at hmem
            simp only [List.mem_append, List.mem_cons] at hmem
            rcases hmem with hmem | hmem | hmem
            · exact absurd hmem hng
            · simp at hmem
            · exact absurd hmem (unblockedMove_no_Set_Position env shim _ _ _ _ _ _ p)
          · have hr : reachesCorrection env shim g self obj goal_pos on_path desired blocked
                = true :=
              (reachesCorrection_iff env shim g self obj goal_pos on_path desired blocked).mpr
                ⟨hphys, hstun, hpass, hsb, hbit⟩
            refine ⟨hr, ?_⟩
            rw [Loco_Update_correcting env shim g self obj goal_pos on_path desired blocked hr]
              at hmem
            simp only [List.mem_append, List.mem_cons] at hmem
            rcases hmem with hmem | hmem | hmem | hmem
            · exact absurd hmem hng
            · simp at hmem
            · exact absurd hmem (unblockedMove_no_Set_Position env shim _ _ _ _ _ _ p)
            · exact ((positionCorrection_eq env _ _ _).2 p).mp hmem
        · rw [Loco_Update_blocked_path env shim g self obj goal_pos on_path desired blocked
            hphys hstun hpass hsb] at hmem
          simp only [List.mem_append, List.mem_cons] at hmem
          rcases hmem with hmem | hmem | hmem
          · exact absurd hmem hng
          · simp at hmem
          · exact absurd hmem (blockedBranch_no_Set_Position env shim g _ _ _ _ p)
    · rw [Loco_Update_skipped env shim g self obj goal_pos on_path desired blocked (Or.inr hstun)]
        at hmem
      simp [hphys] at hmem

/-- C17 counterexample.  A braking object at (1, 2, 0) that is not a projectile,
moving at speed 3.  With the goal at distance 1/2048 the call reaches the position
correction, the lesser of the floored speed and the distance is 1/2048 and the
floored lesser of the speed and the distance is the floor, neither zero, and the
position after the call is the position before it.  With the goal (4, 6, 0) at
distance 5 the position after the call is (2936013/1048576, 9227469/2097152, 0),
not the point (1 + 9/5, 2 + 12/5, 0) at distance 3 along the direction
(3/5, 4/5). -/
theorem C17_counterexample_tiny_distance :
    reachesCorrection fineEnv (Shim.standalone SimpleWorld) globalData2 locoWheels
      worldAwayBraking goalAwayTiny 1 10 false = true ∧
    fineEnv.Is_KindOf_PROJECTILE worldAwayBraking = false ∧
    pathDist2D fineEnv worldAwayBraking goalAwayTiny = 1 / 2048 ∧
    |fineEnv.Get_Forward_Speed_2D worldAwayBraking| = 3 ∧
    min (max (3 : ℚ) (f32 (1 / 30))) (1 / 2048) = 1 / 2048 ∧
    max (min (3 : ℚ) (1 / 2048)) (f32 (1 / 30)) = f32 (1 / 30) ∧
    (Loco_Update_Move_Towards_Position fineEnv (Shim.standalone SimpleWorld) globalData2
      locoWheels worldAwayBraking goalAwayTiny 1 10 false).world.position
      = worldAwayBraking.position ∧
    reachesCorrection fineEnv (Shim.standalone SimpleWorld) globalData2 locoWheels
      worldAwayBraking goalAway 5 10 false = true ∧
    pathDist2D fineEnv worldAwayBraking goalAway = 5 ∧
    (Loco_Update_Move_Towards_Position fineEnv (Shim.standalone SimpleWorld) globalData2
      locoWheels worldAwayBraking goalAway 5 10 false).world.position
      = { x := 2936013 / 1048576, y := 9227469 / 2097152, z := 0 } ∧
    (2936013 / 1048576 : ℚ) ≠ 1 + 3 / 5 * 3 ∧ (9227469 / 2097152 : ℚ) ≠ 2 + 4 / 5 * 3 := by
  decide!

/-- C17 amended.  With `δ` the rounded difference between the goal and the position
of the object when the gate has passed, `w` the world when line 657 is reached and
`pos` the position of the object in `w`: on a call that is not blocked and whose
status bit IS_BRAKING was set when line 618 read it, the position passed to
`Set_Position` is, for an object that is not a projectile, `pos` with x and y
replaced by the rounded sum of the coordinate and the rounded product, by the
magnitude `m2`, of the rounded product of the component of `δ` by the rounded
reciprocal of the 2D distance `d2`, when `d2` exceeds `0.001f`, and `pos` itself
otherwise; `m2` is the lesser of the absolute forward 2D speed raised to at least
`1.0f / 30.0f` and `d2`.  For a projectile the same holds in x, y and z with the 3D
distance `d3` and the velocity magnitude, read after the status write of line
660.  When the status bit was clear the update writes no position. -/
theorem C17_position_correction {W : Type} (env : Env W) (shim : Shim W) (g : GlobalData)
    (self : Locomotor) (obj : W) (goal_pos : Coord3D) (on_path_dist_to_goal desired_speed : ℚ)
    (blocked : Bool)
    (gw : W) (hgw : gw = (gateOf env shim g self obj on_path_dist_to_goal).world)
    (δ : Coord3D)
    (hδ : δ = { x := f32 (goal_pos.x - (env.Get_Position gw).x)
                y := f32 (goal_pos.y - (env.Get_Position gw).y)
                z := f32 (goal_pos.z - (env.Get_Position gw).z) })
    (w : W)
    (hw : w = (stateBeforeCorrection env shim g self obj goal_pos on_path_dist_to_goal
      desired_speed).world)
    (d2 : ℚ) (hd2 : d2 = env.Sqrt (f32 (f32 (δ.x * δ.x) + f32 (δ.y * δ.y))))
    (m2 : ℚ) (hm2 : m2 = min (max |env.Get_Forward_Speed_2D w| (f32 (1 / 30))) d2)
    (w3 : W) (hw3 : w3 = env.Set_Status ObjectStatus.OBJECT_STATUS_IS_BRAKING true w)
    (d3 : ℚ)
    (hd3 : d3 = env.Sqrt (f32 (f32 (f32 (δ.x * δ.x) + f32 (δ.y * δ.y)) + f32 (δ.z * δ.z))))
    (m3 : ℚ) (hm3 : m3 = min (max (env.Get_Velocity_Magnitude w3) (f32 (1 / 30))) d3) :
    (reachesCorrection env shim g self obj goal_pos on_path_dist_to_goal desired_speed blocked
        = true →
      (env.Is_KindOf_PROJECTILE w = false →
        (Loco_Update_Move_Towards_Position env shim g self obj goal_pos on_path_dist_to_goal
            desired_speed blocked).world
          = env.Set_Position
              (if f32 (1 / 1000) < d2 then
                { x := f32 (f32 (f32 (δ.x * f32 (1 / d2)) * m2) + (env.Get_Position w).x)
                  y := f32 (f32 (f32 (δ.y * f32 (1 / d2)) * m2) + (env.Get_Position w).y)
                  z := (env.Get_Position w).z }
              else env.Get_Position w) w) ∧
      (env.Is_KindOf_PROJECTILE w = true →
        (Loco_Update_Move_Towards_Position env shim g self obj goal_pos on_path_dist_to_goal
            desired_speed blocked).world
          = env.Set_Position
              (if f32 (1 / 1000) < d3 then
                { x := f32 (f32 (f32 (δ.x * f32 (1 / d3)) * m3) + (env.Get_Position w).x)
                  y := f32 (f32 (f32 (δ.y * f32 (1 / d3)) * m3) + (env.Get_Position w).y)
                  z := f32 (f32 (f32 (δ.z * f32 (1 / d3)) * m3) + (env.Get_Position w).z) }
              else env.Get_Position w) w3)) ∧
    (env.Get_Physics obj = true → env.Get_Stunned obj = false →
      (gateOf env shim g self obj on_path_dist_to_goal).pass = true →
      stillBlocked env shim g self obj goal_pos on_path_dist_to_goal desired_speed blocked = false →
      env.Test_Status ObjectStatus.OBJECT_STATUS_IS_BRAKING
        (env.Apply_Motive_Force Coord3D.Zero gw) = false →
      (Loco_Update_Move_Towards_Position env shim g self obj goal_pos on_path_dist_to_goal
          desired_speed blocked).world = w ∧
      ∀ p, Call.Set_Position p ∉
        (Loco_Update_Move_Towards_Position env shim g self obj goal_pos on_path_dist_to_goal
          desired_speed blocked).calls) := by
  have hδ' : δ = goalDelta env (gateOf env shim g self obj on_path_dist_to_goal).world goal_pos := by
    rw [hδ, hgw]
    rfl
  have hpd : pathDist2D env (gateOf env shim g self obj on_path_dist_to_goal).world goal_pos
      = d2 := by
    rw [hd2, hδ']
    rfl
  constructor
  · intro hr
    rw [Loco_Update_correcting env shim g self obj goal_pos on_path_dist_to_goal desired_speed
      blocked hr]
    constructor
    · intro hp
      show (positionCorrection env _ _ _).1 = _
      rw [(positionCorrection_eq env _ _ _).1, ← hδ', hpd, ← hw,
        correctedPos_ground env δ d2 w hp, ← hm2]
      unfold worldAtSetPosition
      simp only [hp, Bool.false_eq_true, if_false]
    · intro hp
      show (positionCorrection env _ _ _).1 = _
      rw [(positionCorrection_eq env _ _ _).1, ← hδ', hpd, ← hw,
        correctedPos_projectile env δ d2 w hp, ← hw3, ← hd3, ← hm3]
      unfold worldAtSetPosition
      simp only [hp, if_true]
      rw [← hw3]
  · intro hphys hstun hpass hsb hbit
    have hbit' : env.Test_Status ObjectStatus.OBJECT_STATUS_IS_BRAKING
        (worldAfterForce env shim g self obj on_path_dist_to_goal) = false := by
      rw [← hbit, hgw]
      rfl
    refine ⟨?_, ?_⟩
    · rw [Loco_Update_uncorrected env shim g self obj goal_pos on_path_dist_to_goal desired_speed
        blocked hphys hstun hpass hsb hbit', hw]
    · intro p hmem
      have hr := (Loco_Update_Set_Position env shim g self obj goal_pos on_path_dist_to_goal
        desired_speed blocked p hmem).1
      have hb := ((reachesCorrection_iff env shim g self obj goal_pos on_path_dist_to_goal
        desired_speed blocked).mp hr).2.2.2.2
      rw [hbit'] at hb
      exact absurd hb (by simp)

/-- C17 witness.  The braking object at (1, 2, 0) with goal (4, 6, 0), computed
distance 5 and speed 3, with a wheels strategy that moves it by 1/2 along x: the
position written is (3460301/1048576, 9227469/2097152, 0), the binary32 results
of 1.5 + 1.8000001 and 2 + 2.4000001.  The braking projectile at (1, 2, 3) with
goal (3, 4, 4), computed 3D distance 3 and speed 2, is set to
(4893355/2097152, 6990507/2097152, 15379115/4194304). -/
theorem C17_position_correction_witness :
    reachesCorrection fineEnv shimNudging globalData2 locoWheels worldAwayBraking goalAway 5 10
      false = true ∧
    (Loco_Update_Move_Towards_Position fineEnv shimNudging globalData2
      locoWheels worldAwayBraking goalAway 5 10 false).world.position
      = { x := 3460301 / 1048576, y := 9227469 / 2097152, z := 0 } ∧
    reachesCorrection fineEnv shimMarking globalData2 locoWheels worldProjectile goalAbove 5 10
      false = true ∧
    (Loco_Update_Move_Towards_Position fineEnv shimMarking globalData2
      locoWheels worldProjectile goalAbove 5 10 false).world.position
      = { x := 4893355 / 2097152, y := 6990507 / 2097152, z := 15379115 / 4194304 } := by
  have h1 := ((C17_position_correction fineEnv shimNudging globalData2 locoWheels
    worldAwayBraking goalAway 5 10 false _ rfl _ rfl _ rfl _ rfl _ rfl _ rfl _ rfl _ rfl).1
    (by decide!)).1 (by decide!)
  have h2 := ((C17_position_correction fineEnv shimMarking globalData2 locoWheels
    worldProjectile goalAbove 5 10 false _ rfl _ rfl _ rfl _ rfl _ rfl _ rfl _ rfl _ rfl).1
    (by decide!)).2 (by decide!)
  refine ⟨by decide!, ?_, by decide!, ?_⟩
  · rw [h1]
    decide!
  · rw [h2]
    decide!

/-- C20 counterexample.  A braking object at (1, 1, 0) that is not a projectile,
moving at speed 20, with the goal (10, 13, 0): the delta is (9, 12, 0) and the
distance computed is 15.  The update sets the position (10, 13 + 2^-20, 0): the
displacement (9, 12 + 2^-20, 0) is longer than 15 and carries the object
2^-20 past the goal along y. -/
theorem C20_counterexample_past_goal :
    goalDelta fineEnv worldBrakingFast goalFifteen = { x := 9, y := 12, z := 0 } ∧
    pathDist2D fineEnv worldBrakingFast goalFifteen = 15 ∧
    (Loco_Update_Move_Towards_Position fineEnv (Shim.standalone SimpleWorld) globalData2
      locoWheels worldBrakingFast goalFifteen 15 10 false).calls.getLast?
      = some (Call.Set_Position { x := 10, y := 13 + 1 / 2 ^ 20, z := 0 }) ∧
    (Loco_Update_Move_Towards_Position fineEnv (Shim.standalone SimpleWorld) globalData2
      locoWheels worldBrakingFast goalFifteen 15 10 false).world.position
      = { x := 10, y := 13 + 1 / 2 ^ 20, z := 0 } ∧
    goalFifteen.y < (13 + 1 / 2 ^ 20 : ℚ) ∧
    (15 : ℚ) * 15 <
      (10 - worldBrakingFast.position.x) * (10 - worldBrakingFast.position.x)
        + (13 + 1 / 2 ^ 20 - worldBrakingFast.position.y)
          * (13 + 1 / 2 ^ 20 - worldBrakingFast.position.y) := by
  decide!

/-- C20 amended.  Whenever the update calls `Set_Position p`, with `δ` the rounded
difference between the goal and the position of the object when the gate has
passed, `w` the world when line 657 is reached, `d` the distance computed for the
tick (3D for a projectile, the 2D distance of line 568 otherwise), `m` the lesser
of the speed raised to at least `1.0f / 30.0f` and `d`, and `a` the displacement
(each component of `δ` times the rounded reciprocal of `d`, rounded, times `m`,
rounded; no z component for an object that is not a projectile): `p` is the
position of `w` when `d` is at most `0.001f`; otherwise `p` is the rounded sum of
that position and `a` (z unchanged for an object that is not a projectile), `m`
is positive and at most `d`, each component of `a` has the sign of the component
of `δ` or is zero, and its magnitude is at most that of the component of `δ` times
the factor `(1 + 2^-24)^3` of three roundings, plus an underflow term. -/
theorem C20_correction_never_overshoots {W : Type} (env : Env W) (shim : Shim W)
    (g : GlobalData) (self : Locomotor) (obj : W) (goal_pos : Coord3D)
    (on_path_dist_to_goal desired_speed : ℚ) (blocked : Bool) (p : Coord3D)
    (gw : W) (hgw : gw = (gateOf env shim g self obj on_path_dist_to_goal).world)
    (δ : Coord3D)
    (hδ : δ = { x := f32 (goal_pos.x - (env.Get_Position gw).x)
                y := f32 (goal_pos.y - (env.Get_Position gw).y)
                z := f32 (goal_pos.z - (env.Get_Position gw).z) })
    (w : W)
    (hw : w = (stateBeforeCorrection env shim g self obj goal_pos on_path_dist_to_goal
      desired_speed).world)
    (d : ℚ)
    (hd : d = if env.Is_KindOf_PROJECTILE w = true then
        env.Sqrt (f32 (f32 (f32 (δ.x * δ.x) + f32 (δ.y * δ.y)) + f32 (δ.z * δ.z)))
      else env.Sqrt (f32 (f32 (δ.x * δ.x) + f32 (δ.y * δ.y))))
    (m : ℚ)
    (hm : m = min (max (if env.Is_KindOf_PROJECTILE w = true then
          env.Get_Velocity_Magnitude
            (env.Set_Status ObjectStatus.OBJECT_STATUS_IS_BRAKING true w)
        else |env.Get_Forward_Speed_2D w|) (f32 (1 / 30))) d)
    (a : Coord3D)
    (ha : a = { x := f32 (f32 (δ.x * f32 (1 / d)) * m)
                y := f32 (f32 (δ.y * f32 (1 / d)) * m)
                z := if env.Is_KindOf_PROJECTILE w = true then f32 (f32 (δ.z * f32 (1 / d)) * m)
                     else 0 })
    (hmem : Call.Set_Position p ∈
      (Loco_Update_Move_Towards_Position env shim g self obj goal_pos on_path_dist_to_goal
        desired_speed blocked).calls) :
    (d ≤ f32 (1 / 1000) → p = env.Get_Position w) ∧
    (f32 (1 / 1000) < d →
      p.x = f32 (a.x + (env.Get_Position w).x) ∧
      p.y = f32 (a.y + (env.Get_Position w).y) ∧
      (env.Is_KindOf_PROJECTILE w = true → p.z = f32 (a.z + (env.Get_Position w).z)) ∧
      (env.Is_KindOf_PROJECTILE w = false → p.z = (env.Get_Position w).z ∧ a.z = 0) ∧
      0 < m ∧ m ≤ d ∧
      (0 ≤ δ.x → 0 ≤ a.x) ∧ (δ.x ≤ 0 → a.x ≤ 0) ∧
      (0 ≤ δ.y → 0 ≤ a.y) ∧ (δ.y ≤ 0 → a.y ≤ 0) ∧
      (0 ≤ δ.z → 0 ≤ a.z) ∧ (δ.z ≤ 0 → a.z ≤ 0) ∧
      |a.x| ≤ (1 + 1 / 2 ^ 24) ^ 3 * |δ.x|
        + 1 / 2 ^ 150 * (1 + (1 + 1 / 2 ^ 24) * m * (1 + (1 + 1 / 2 ^ 24) * |δ.x|)) ∧
      |a.y| ≤ (1 + 1 / 2 ^ 24) ^ 3 * |δ.y|
        + 1 / 2 ^ 150 * (1 + (1 + 1 / 2 ^ 24) * m * (1 + (1 + 1 / 2 ^ 24) * |δ.y|)) ∧
      |a.z| ≤ (1 + 1 / 2 ^ 24) ^ 3 * |δ.z|
        + 1 / 2 ^ 150 * (1 + (1 + 1 / 2 ^ 24) * m * (1 + (1 + 1 / 2 ^ 24) * |δ.z|))) := by
  have hδ' : δ = goalDelta env (gateOf env shim g self obj on_path_dist_to_goal).world goal_pos := by
    rw [hδ, hgw]
    rfl
  have hp := (Loco_Update_Set_Position env shim g self obj goal_pos on_path_dist_to_goal
    desired_speed blocked p hmem).2
  rw [← hw, ← hδ'] at hp
  have hpd : pathDist2D env (gateOf env shim g self obj on_path_dist_to_goal).world goal_pos
      = env.Sqrt (f32 (f32 (δ.x * δ.x) + f32 (δ.y * δ.y))) := by
    rw [hδ']
    rfl
  rw [hpd] at hp
  have hc30 : (0 : ℚ) < f32 (1 / 30) := by decide!
  have hc1000 : (0 : ℚ) < f32 (1 / 1000) := by decide!
  by_cases hproj : env.Is_KindOf_PROJECTILE w = true
  · rw [if_pos hproj] at hd
    rw [if_pos hproj] at hm
    rw [if_pos hproj] at ha
    rw [correctedPos_projectile env δ _ w hproj, ← hd, ← hm] at hp
    constructor
    · intro hle
      rw [hp, if_neg (not_lt.mpr hle)]
    · intro hlt
      rw [if_pos hlt] at hp
      have hdpos : 0 < d := lt_trans hc1000 hlt
      have hm0 : 0 < m := by
        rw [hm]
        exact lt_min (lt_of_lt_of_le hc30 (le_max_right _ _)) hdpos
      have hmd : m ≤ d := by
        rw [hm]
        exact min_le_right _ _
      have hax : a.x = f32 (f32 (δ.x * f32 (1 / d)) * m) := by rw [ha]
      have hay : a.y = f32 (f32 (δ.y * f32 (1 / d)) * m) := by rw [ha]
      have haz : a.z = f32 (f32 (δ.z * f32 (1 / d)) * m) := by rw [ha]
      rw [hax, hay, haz]
      refine ⟨by rw [hp], by rw [hp], fun _ => by rw [hp], fun h => ?_, hm0, hmd,
        (correctionStep_sign δ.x d m hdpos hm0.le).1, (correctionStep_sign δ.x d m hdpos hm0.le).2,
        (correctionStep_sign δ.y d m hdpos hm0.le).1, (correctionStep_sign δ.y d m hdpos hm0.le).2,
        (correctionStep_sign δ.z d m hdpos hm0.le).1, (correctionStep_sign δ.z d m hdpos hm0.le).2,
        correctionStep_bound δ.x d m hdpos hm0.le hmd,
        correctionStep_bound δ.y d m hdpos hm0.le hmd,
        correctionStep_bound δ.z d m hdpos hm0.le hmd⟩
      rw [hproj] at h
      exact absurd h (by simp)
  · have hpf : env.Is_KindOf_PROJECTILE w = false := by simpa using hproj
    rw [if_neg hproj] at hd
    rw [if_neg hproj] at hm
    rw [if_neg hproj] at ha
    rw [correctedPos_ground env δ _ w hpf, ← hd, ← hm] at hp
    constructor
    · intro hle
      rw [hp, if_neg (not_lt.mpr hle)]
    · intro hlt
      rw [if_pos hlt] at hp
      have hdpos : 0 < d := lt_trans hc1000 hlt
      have hm0 : 0 < m := by
        rw [hm]
        exact lt_min (lt_of_lt_of_le hc30 (le_max_right _ _)) hdpos
      have hmd : m ≤ d := by
        rw [hm]
        exact min_le_right _ _
      have hax : a.x = f32 (f32 (δ.x * f32 (1 / d)) * m) := by rw [ha]
      have hay : a.y = f32 (f32 (δ.y * f32 (1 / d)) * m) := by rw [ha]
      have haz : a.z = 0 := by rw [ha]
      have hη : (0 : ℚ) ≤ (1 + 1 / 2 ^ 24) ^ 3 * |δ.z|
          + 1 / 2 ^ 150 * (1 + (1 + 1 / 2 ^ 24) * m * (1 + (1 + 1 / 2 ^ 24) * |δ.z|)) := by
        have := abs_nonneg δ.z
        have := hm0.le
        positivity
      rw [hax, hay, haz]
      refine ⟨by rw [hp], by rw [hp], fun h => ?_, fun _ => ⟨by rw [hp], rfl⟩, hm0, hmd,
        (correctionStep_sign δ.x d m hdpos hm0.le).1, (correctionStep_sign δ.x d m hdpos hm0.le).2,
        (correctionStep_sign δ.y d m hdpos hm0.le).1, (correctionStep_sign δ.y d m hdpos hm0.le).2,
        fun _ => le_refl 0, fun _ => le_refl 0,
        correctionStep_bound δ.x d m hdpos hm0.le hmd,
        correctionStep_bound δ.y d m hdpos hm0.le hmd, ?_⟩
      · exact absurd h hproj
      · rw [abs_zero]
        exact hη

/-- C20 witness.  The braking object at (1, 2, 0) with goal (4, 6, 0), delta
(3, 4, 0), computed distance 5 and speed 3, with a wheels strategy that moves it by
1/2 along x: the update sets the position (3460301/1048576, 9227469/2097152, 0),
the magnitude 3 is positive and at most the distance 5, and the displacement
(15099495/8388608, 5033165/2097152, 0) is within the bound in x and in y. -/
theorem C20_correction_never_overshoots_witness :
    Call.Set_Position { x := 3460301 / 1048576, y := 9227469 / 2097152, z := 0 } ∈
      (Loco_Update_Move_Towards_Position fineEnv shimNudging globalData2
        locoWheels worldAwayBraking goalAway 5 10 false).calls ∧
    (0 : ℚ) < 3 ∧ (3 : ℚ) ≤ 5 ∧
    |(15099495 / 8388608 : ℚ)| ≤ (1 + 1 / 2 ^ 24) ^ 3 * |(3 : ℚ)|
      + 1 / 2 ^ 150 * (1 + (1 + 1 / 2 ^ 24) * 3 * (1 + (1 + 1 / 2 ^ 24) * |(3 : ℚ)|)) ∧
    |(5033165 / 2097152 : ℚ)| ≤ (1 + 1 / 2 ^ 24) ^ 3 * |(4 : ℚ)|
      + 1 / 2 ^ 150 * (1 + (1 + 1 / 2 ^ 24) * 3 * (1 + (1 + 1 / 2 ^ 24) * |(4 : ℚ)|)) := by
  have h := (C20_correction_never_overshoots fineEnv shimNudging globalData2 locoWheels
    worldAwayBraking goalAway 5 10 false
    { x := 3460301 / 1048576, y := 9227469 / 2097152, z := 0 }
    _ rfl { x := 3, y := 4, z := 0 } (by decide!) _ rfl 5 (by decide!) 3 (by decide!)
    { x := 15099495 / 8388608, y := 5033165 / 2097152, z := 0 } (by decide!) (by decide!)).2
    (by decide!)
  exact ⟨by decide!, h.2.2.2.2.1, h.2.2.2.2.2.1, h.2.2.2.2.2.2.2.2.2.2.2.2.1,
    h.2.2.2.2.2.2.2.2.2.2.2.2.2.1⟩

end Thyme
